import Mathlib

/-! AgStack Analyst frontend: chat page view-model.

A shallow embedding of `frontend/src/pages/ChatPage.jsx` and
`frontend/src/pages/ConnectionsPage.jsx`, of the API client
`frontend/src/services/api.js` and of the components `MessageInput`,
`ChatMessage`, `ConnectionSelector`, `DataTable`, `ConnectionForm`,
`ConnectionsList` and `ConnectionDetails`:
React component state becomes a record, every
event handler becomes a pure function from the state before the event to the
state after it together with the HTTP requests and toasts it emits.  An
`async` handler is split at its `await`: the synchronous prefix keeps the
handler's name, the continuation taken when the promise resolves is
`..._then`, the one taken when it rejects is `..._catch`.
-/

namespace AgStack

/-! ## JavaScript values used by the page -/

/-- Identifier values as they arrive in JSON: a number or a string. -/
inductive JsId where
  | num (n : Int)
  | str (s : String)
deriving DecidableEq, Repr

/-- JavaScript truthiness of an identifier: `0` and `''` are falsy. -/
def JsId.truthy : JsId → Bool
  | .num n => n != 0
  | .str s => s != ""

/-- Truthiness of a state slot holding `null` or an identifier. -/
def truthyId : Option JsId → Bool
  | none => false
  | some i => i.truthy

/-- Code points removed by `String.prototype.trim`: the ECMAScript WhiteSpace
and LineTerminator productions. -/
def isJsWhiteSpace (c : Char) : Bool :=
  [0x9, 0xA, 0xB, 0xC, 0xD, 0x20, 0xA0, 0x1680, 0x2028, 0x2029, 0x202F, 0x205F,
    0x3000, 0xFEFF].contains c.toNat
  || (0x2000 ≤ c.toNat && c.toNat ≤ 0x200A)

/-- The method `String.prototype.trim`: strip white space at both ends. -/
def jsTrim (s : String) : String :=
  ⟨((s.data.dropWhile isJsWhiteSpace).reverse.dropWhile isJsWhiteSpace).reverse⟩

/-- Truthiness of a string: every string but the empty one. -/
def truthyStr (s : String) : Bool := s != ""

/-- A text is blank when it is empty or made of white space only. -/
def isBlank (s : String) : Prop := ∀ c ∈ s.data, isJsWhiteSpace c = true

instance (s : String) : Decidable (isBlank s) := by
  unfold isBlank; infer_instance

/-! ## Data model -/

/-- Result payload of an assistant message: `columns`/`data` or
`error`/`details`; a missing field is `none`, a missing cell is `none`. -/
structure ResultContent where
  error : Option String := none
  details : Option String := none
  columns : Option (List String) := none
  data : Option (List (List (String × Option String))) := none
deriving DecidableEq, Repr

/-- A message record as held in the `messages` state. -/
structure Message where
  id : JsId
  content : String
  role : String
  status : String
  created_at : String
  message_index : Int
  generated_code : Option String := none
  result_content : Option ResultContent := none
  agentops_session_url : Option String := none
deriving DecidableEq, Repr

/-- A chat record as held in the `chats` state. -/
structure Chat where
  id : JsId
  title : Option String
  connections : List JsId
deriving DecidableEq, Repr

/-- The `useState` slots of `ChatPage` (the DOM ref `messagesEndRef`, used
only for scrolling, is left out). -/
structure ChatPageState where
  chats : List Chat := []
  loading : Bool := true
  selectedChat : Option JsId := none
  messages : List Message := []
  messagesLoading : Bool := false
  createChatOpen : Bool := false
  creatingChat : Bool := false
  connectionsLoading : Bool := false
  chatTitle : String := ""
  editingTitle : Bool := false
  messageInput : String := ""
  sendingMessage : Bool := false
deriving DecidableEq, Repr

/-- Calls made through `chatApi`. -/
inductive Request where
  | getAllChats
  | getChatMessages (chatId : JsId)
  | sendMessage (chatId : JsId) (content : String) (role : String)
  | updateChat (chatId : JsId) (title : String)
deriving DecidableEq, Repr

/-- Notifications raised through `toast`. -/
inductive Toast where
  | error (text : String)
  | success (text : String)
deriving DecidableEq, Repr

/-- What one handler run leaves behind: the next state, the requests it
issued and the toasts it raised. -/
structure Outcome where
  state : ChatPageState
  requests : List Request := []
  toasts : List Toast := []
deriving DecidableEq, Repr

/-- A rejected promise: `error.response?.data?.message`, when present. -/
structure ApiError where
  serverMessage : Option String := none
deriving DecidableEq, Repr

/-- The four clock readings of one `handleSendMessage` run: two `Date.now()`
and two `new Date().toISOString()`. -/
structure Clock where
  now1 : Nat
  iso1 : String
  now2 : Nat
  iso2 : String
deriving DecidableEq, Repr

/-- Template literal `temp-${n}`. -/
def tempId (n : Nat) : JsId := .str ("temp-" ++ toString n)

/-! ## Message loading -/

/-- `fetchMessages(chatId)` up to its `await`. -/
def fetchMessages (chatId : JsId) (s : ChatPageState) : Outcome :=
  { state := { s with messagesLoading := true }
    requests := [Request.getChatMessages chatId] }

/-- `fetchMessages`: the request resolved with `response.data = data`. -/
def fetchMessages_then (data : List Message) (s : ChatPageState) : Outcome :=
  { state := { s with messages := data, messagesLoading := false } }

/-- `fetchMessages`: the request was rejected. -/
def fetchMessages_catch (s : ChatPageState) : Outcome :=
  { state := { s with messagesLoading := false }
    toasts := [Toast.error "Failed to fetch messages"] }

/-! ## Sending a message -/

/-- The first optimistic entry built by `handleSendMessage`. -/
def optimisticUserMsg (clk : Clock) (s : ChatPageState) : Message :=
  { id := tempId clk.now1
    content := s.messageInput
    role := "user"
    status := "completed"
    created_at := clk.iso1
    message_index := (s.messages.length : Int) }

/-- The second optimistic entry built by `handleSendMessage`. -/
def optimisticAssistantMsg (clk : Clock) (s : ChatPageState) : Message :=
  { id := tempId (clk.now2 + 1)
    content := ""
    role := "assistant"
    status := "pending"
    created_at := clk.iso2
    message_index := (s.messages.length : Int) + 1 }

/-- The values the continuation of `handleSendMessage` closes over. -/
structure SendClosure where
  selectedChat : JsId
  userId : JsId
  assistantId : JsId
deriving DecidableEq, Repr

/-- Result of the synchronous part of `handleSendMessage`: `closure` is
`none` when the handler returned early. -/
structure SendOutcome where
  state : ChatPageState
  requests : List Request := []
  closure : Option SendClosure := none
deriving DecidableEq, Repr

/-- `handleSendMessage` up to its `await chatApi.sendMessage(...)`. -/
def handleSendMessage (clk : Clock) (s : ChatPageState) : SendOutcome :=
  match s.selectedChat with
  | none => { state := s }
  | some chatId =>
    if !truthyStr (jsTrim s.messageInput) || !chatId.truthy then { state := s }
    else
      { state :=
          { s with
            sendingMessage := true
            messages := s.messages ++ [optimisticUserMsg clk s, optimisticAssistantMsg clk s]
            messageInput := "" }
        requests := [Request.sendMessage chatId s.messageInput "user"]
        closure := some
          { selectedChat := chatId
            userId := (optimisticUserMsg clk s).id
            assistantId := (optimisticAssistantMsg clk s).id } }

/-- `handleSendMessage`: the send resolved; `fetchMessages` is started (not
awaited) and the `finally` block runs. -/
def handleSendMessage_then (c : SendClosure) (s : ChatPageState) : Outcome :=
  let o := fetchMessages c.selectedChat s
  { o with state := { o.state with sendingMessage := false } }

/-- Text of the toast raised when a send fails:
`error.response?.data?.message || 'Failed to send message'`. -/
def sendErrorText (e : ApiError) : String :=
  match e.serverMessage with
  | some m => if truthyStr m then m else "Failed to send message"
  | none => "Failed to send message"

/-- `handleSendMessage`: the send was rejected; the `catch` block and then
the `finally` block run. -/
def handleSendMessage_catch (c : SendClosure) (e : ApiError) (s : ChatPageState) : Outcome :=
  { state :=
      { s with
        messages := s.messages.filter (fun msg => msg.id != c.userId && msg.id != c.assistantId)
        sendingMessage := false }
    toasts := [Toast.error (sendErrorText e)] }

/-- `isMessageBlocked()`. -/
def isMessageBlocked (s : ChatPageState) : Bool :=
  !truthyId s.selectedChat
  || s.messages.any (fun msg => msg.role == "assistant" && ["pending", "processing"].contains msg.status)
  || s.sendingMessage

/-- `MessageInput.handleSubmit`: the argument passed to `onSendMessage`, if it
is called, and the next value of the component's `message` state. -/
def MessageInput.handleSubmit (message : String) (disabled connectionsSelected : Bool) :
    Option String × String :=
  if truthyStr (jsTrim message) && !disabled && connectionsSelected then (some message, "")
  else (none, message)

/-- The guard named `canSend` by the specification: the negation of
`isMessageBlocked()`. -/
def canSend (s : ChatPageState) : Bool := !isMessageBlocked s

/-- The test inside `isMessageBlocked`: an assistant message that is still
`pending` or `processing`. -/
def isOutstanding (msg : Message) : Bool :=
  msg.role == "assistant" && ["pending", "processing"].contains msg.status

/-! ## The send form as rendered -/

/-- The send form is rendered only under `selectedChat && (...)`. -/
def sendFormRendered (s : ChatPageState) : Bool := truthyId s.selectedChat

/-- The `disabled` attribute of the message text field. -/
def textFieldDisabled (s : ChatPageState) : Bool := isMessageBlocked s

/-- The `disabled` attribute of the submit button of the send form. -/
def sendButtonDisabled (s : ChatPageState) : Bool :=
  !truthyStr (jsTrim s.messageInput) || isMessageBlocked s

/-- A submit of the send form: `onSubmit` calls `handleSendMessage()`.  The
form has one submit button and one text field; a submit event is dispatched
only when the form is rendered and that button is enabled. -/
def submitSendForm (clk : Clock) (s : ChatPageState) : SendOutcome :=
  if sendFormRendered s && !sendButtonDisabled s then handleSendMessage clk s
  else { state := s }

/-- What the main area of the page shows. -/
inductive MainArea where
  | welcome
  | spinner
  | messageList (shown : List Message)
  | emptyPrompt
deriving DecidableEq, Repr

/-- The conditional chain that renders the main area:
`!selectedChat ? ... : messagesLoading ? ... : messages.length > 0 ? ... : ...`. -/
def renderMainArea (s : ChatPageState) : MainArea :=
  if !truthyId s.selectedChat then MainArea.welcome
  else if s.messagesLoading then MainArea.spinner
  else if s.messages.length > 0 then MainArea.messageList s.messages
  else MainArea.emptyPrompt

/-! ## Selecting a chat -/

/-- Body of the effect with dependencies `[selectedChat, chats]`. -/
def selectionEffect (s : ChatPageState) : Outcome :=
  match s.selectedChat with
  | none => { state := { s with chatTitle := "", messages := [] } }
  | some chatId =>
    if chatId.truthy then
      let o := fetchMessages chatId s
      let title :=
        match (s.chats.find? (fun c => c.id == chatId)).bind (fun c => c.title) with
        | some t => if truthyStr t then t else "New Chat"
        | none => "New Chat"
      { o with state := { o.state with chatTitle := title } }
    else { state := { s with chatTitle := "", messages := [] } }

/-- `handleChatClick(chatId)`: only `setSelectedChat(chatId)`. -/
def handleChatClick (chatId : JsId) (s : ChatPageState) : ChatPageState :=
  { s with selectedChat := some chatId }

/-- A click on a chat in the sidebar followed by the re-render: the effect
runs when the value of `selectedChat` changed. -/
def selectChat (chatId : JsId) (s : ChatPageState) : Outcome :=
  if s.selectedChat = some chatId then { state := s }
  else selectionEffect (handleChatClick chatId s)

/-! ## Chat list and title -/

/-- `fetchChats()` up to its `await`. -/
def fetchChats (s : ChatPageState) : Outcome :=
  { state := { s with loading := true }, requests := [Request.getAllChats] }

/-- `fetchChats`: the request resolved; `setChats` stores a new array, so the
selection effect runs again. -/
def fetchChats_then (data : List Chat) (s : ChatPageState) : Outcome :=
  selectionEffect { s with chats := data, loading := false }

/-- `fetchChats`: the request was rejected. -/
def fetchChats_catch (s : ChatPageState) : Outcome :=
  { state := { s with loading := false }, toasts := [Toast.error "Failed to fetch chats"] }

/-- The values the continuation of `handleUpdateTitle` closes over. -/
structure TitleClosure where
  selectedChat : JsId
  chatTitle : String
deriving DecidableEq, Repr

/-- Result of the synchronous part of `handleUpdateTitle`. -/
structure TitleOutcome where
  state : ChatPageState
  requests : List Request := []
  closure : Option TitleClosure := none
deriving DecidableEq, Repr

/-- `handleUpdateTitle` up to its `await chatApi.updateChat(...)`. -/
def handleUpdateTitle (s : ChatPageState) : TitleOutcome :=
  match s.selectedChat with
  | none => { state := s }
  | some chatId =>
    if !truthyStr (jsTrim s.chatTitle) || !chatId.truthy then { state := s }
    else
      { state := s
        requests := [Request.updateChat chatId s.chatTitle]
        closure := some { selectedChat := chatId, chatTitle := s.chatTitle } }

/-- The mapping passed to `setChats` by `handleUpdateTitle`:
`chat.id === selectedChat ? { ...chat, title: chatTitle } : chat`. -/
def retitle (c : TitleClosure) (chat : Chat) : Chat :=
  if chat.id == c.selectedChat then { chat with title := some c.chatTitle } else chat

/-- `handleUpdateTitle`: the update resolved (the handler's own state
updates, before the re-render). -/
def handleUpdateTitle_then (c : TitleClosure) (s : ChatPageState) : Outcome :=
  { state := { s with chats := s.chats.map (retitle c), editingTitle := false }
    toasts := [Toast.success "Chat title updated"] }

/-- `handleUpdateTitle`: the update was rejected. -/
def handleUpdateTitle_catch (s : ChatPageState) : Outcome :=
  { state := s, toasts := [Toast.error "Failed to update chat title"] }

/-- `handleCreateChat`: the create request resolved with a chat whose
identity is `chatId`; the handler raises a toast, selects that chat and
starts `fetchChats` (the flags of the modal are reset only after that fetch
has settled). -/
def handleCreateChat_then (chatId : JsId) (s : ChatPageState) : Outcome :=
  let o := fetchChats { s with selectedChat := some chatId }
  { o with toasts := [Toast.success "Chat created successfully"] }

/-! ## Runs of the page -/

/-- The state `ChatPage` is mounted with. -/
def initialState : ChatPageState := {}

/-- Things that happen to the page: user actions on the rendered controls and
completions of requests. -/
inductive Event where
  | chatClick (chatId : JsId)
  | typeMessage (text : String)
  | submit (clk : Clock)
  | sendResolved (c : SendClosure)
  | sendRejected (c : SendClosure) (e : ApiError)
  | messagesResolved (data : List Message)
  | messagesRejected
  | chatsResolved (data : List Chat)
  | chatsRejected
  | typeTitle (text : String)
  | titleResolved (c : TitleClosure)
  | titleRejected
  | chatCreated (chatId : JsId)
deriving DecidableEq, Repr

/-- State after one event (requests and toasts dropped). -/
def step (s : ChatPageState) : Event → ChatPageState
  | .chatClick chatId => (selectChat chatId s).state
  | .typeMessage text => if textFieldDisabled s then s else { s with messageInput := text }
  | .submit clk => (submitSendForm clk s).state
  | .sendResolved c => (handleSendMessage_then c s).state
  | .sendRejected c e => (handleSendMessage_catch c e s).state
  | .messagesResolved data => (fetchMessages_then data s).state
  | .messagesRejected => (fetchMessages_catch s).state
  | .chatsResolved data => (fetchChats_then data s).state
  | .chatsRejected => (fetchChats_catch s).state
  | .typeTitle text => { s with chatTitle := text }
  | .titleResolved c => (selectionEffect (handleUpdateTitle_then c s).state).state
  | .titleRejected => (handleUpdateTitle_catch s).state
  | .chatCreated chatId =>
    if s.selectedChat = some chatId then (handleCreateChat_then chatId s).state
    else (selectionEffect (handleCreateChat_then chatId s).state).state

/-- State after a sequence of events, starting from `s`. -/
def runFrom (s : ChatPageState) (es : List Event) : ChatPageState := es.foldl step s

/-- Number of assistant messages still `pending` or `processing`. -/
def outstandingCount (ms : List Message) : Nat := ms.countP isOutstanding

/-- An event is admissible when the server list it delivers has at most one
outstanding assistant message. -/
def Event.admissible : Event → Prop
  | .messagesResolved data => outstandingCount data ≤ 1
  | _ => True

instance (e : Event) : Decidable e.admissible := by
  cases e <;> unfold Event.admissible <;> infer_instance

/-- The events with which a message fetch settles: its request resolved or
was rejected. -/
def Event.settlesMessageFetch : Event → Bool
  | .messagesResolved _ => true
  | .messagesRejected => true
  | _ => false

/-- The `message_index` values of a list are strictly increasing. -/
def indexOrdered (ms : List Message) : Prop :=
  (ms.map (fun m => m.message_index)).Pairwise (fun a b => a < b)

instance (ms : List Message) : Decidable (indexOrdered ms) := by
  unfold indexOrdered; infer_instance

/-! ## Complete exchanges -/

/-- A send whose request is rejected, with nothing happening in between:
`none` when `handleSendMessage` returned early. -/
def sendFailed (clk : Clock) (e : ApiError) (s : ChatPageState) : Option Outcome :=
  match (handleSendMessage clk s).closure with
  | none => none
  | some c => some (handleSendMessage_catch c e (handleSendMessage clk s).state)

/-- A send whose request resolves and whose follow-up `fetchMessages`
resolves with `data`, with nothing happening in between. -/
def sendRefetched (clk : Clock) (data : List Message) (s : ChatPageState) : Option Outcome :=
  match (handleSendMessage clk s).closure with
  | none => none
  | some c =>
    some (fetchMessages_then data (handleSendMessage_then c (handleSendMessage clk s).state).state)

/-! ## Connections: data model -/

/-- A connection record as returned by the backend; `password` is whatever
the backend put in that field, if anything. -/
structure Connection where
  id : JsId
  connection_name : String
  host : String
  port : Int
  username : String
  password : Option String := none
  database_name : String
  schema_name : String
deriving DecidableEq, Repr

/-- The `formData` state of `ConnectionsPage`: seven strings. -/
structure FormData where
  connection_name : String := ""
  host : String := ""
  port : String := ""
  username : String := ""
  password : String := ""
  database_name : String := ""
  schema_name : String := ""
deriving DecidableEq, Repr

/-- Body of a create or update request: the form fields with the port as a
number; `password = none` means the field is absent. -/
structure ConnectionPayload where
  connection_name : String
  host : String
  port : Int
  username : String
  password : Option String
  database_name : String
  schema_name : String
deriving DecidableEq, Repr

/-- Calls made through `connectionApi`. -/
inductive ConnectionRequest where
  | getAllConnections
  | createConnection (payload : ConnectionPayload)
  | updateConnection (connectionId : JsId) (payload : ConnectionPayload)
  | deleteConnection (connectionId : JsId)
  | getConnectionTables (connectionId : JsId)
  | getTableColumns (connectionId : JsId) (tableName : String)
deriving DecidableEq, Repr

/-- Value of a decimal digit character. -/
def digitValue (c : Char) : Nat := c.toNat - 48

/-- The call `parseInt(s, 10)`: leading white space is skipped, one sign is
read, then the longest run of decimal digits; `none` is `NaN`. -/
def jsParseInt (s : String) : Option Int :=
  let cs := s.data.dropWhile isJsWhiteSpace
  let signed : Bool × List Char :=
    match cs with
    | '-' :: rest => (true, rest)
    | '+' :: rest => (false, rest)
    | _ => (false, cs)
  let digits := signed.2.takeWhile Char.isDigit
  if digits.isEmpty then none
  else
    let n : Nat := digits.foldl (fun acc c => acc * 10 + digitValue c) 0
    some (if signed.1 then -(n : Int) else (n : Int))

/-- Text of a number as `toString()` prints it (integers only). -/
def jsNumberToString (n : Int) : String := toString n

/-- Text of an identifier inside a template literal or as a property key. -/
def JsId.toKey : JsId → String
  | .num n => jsNumberToString n
  | .str s => s

/-! ## Connections page -/

/-- The `useState` slots of `ConnectionsPage`. -/
structure ConnectionsPageState where
  connections : List Connection := []
  loading : Bool := true
  saving : Bool := false
  selectedConnection : Option Connection := none
  editMode : Bool := false
  activeTab : Nat := 0
  formData : FormData := {}
deriving DecidableEq, Repr

/-- What one handler run of a connections component leaves behind. -/
structure ConnOutcome (σ : Type) where
  state : σ
  requests : List ConnectionRequest := []
  toasts : List Toast := []
deriving DecidableEq, Repr

/-- `ConnectionsPage.fetchConnections()` up to its `await`. -/
def ConnectionsPage.fetchConnections (s : ConnectionsPageState) :
    ConnOutcome ConnectionsPageState :=
  { state := { s with loading := true }
    requests := [ConnectionRequest.getAllConnections] }

/-- `ConnectionsPage.fetchConnections`: the request resolved. -/
def ConnectionsPage.fetchConnections_then (data : List Connection) (s : ConnectionsPageState) :
    ConnOutcome ConnectionsPageState :=
  { state := { s with connections := data, loading := false } }

/-- `ConnectionsPage.fetchConnections`: the request was rejected. -/
def ConnectionsPage.fetchConnections_catch (s : ConnectionsPageState) :
    ConnOutcome ConnectionsPageState :=
  { state := { s with loading := false }
    toasts := [Toast.error "Failed to fetch connections"] }

/-- The form state `handleConnectionSelect` builds from a record. -/
def formOfConnection (c : Connection) : FormData :=
  { connection_name := c.connection_name
    host := c.host
    port := jsNumberToString c.port
    username := c.username
    password := ""
    database_name := c.database_name
    schema_name := c.schema_name }

/-- `handleConnectionSelect(connectionId)`; `none` when no record of the list
has that identity (the handler then throws on `connection.connection_name`). -/
def ConnectionsPage.handleConnectionSelect (connectionId : JsId) (s : ConnectionsPageState) :
    Option ConnectionsPageState :=
  match s.connections.find? (fun c => c.id == connectionId) with
  | none => none
  | some connection =>
    some { s with
           selectedConnection := some connection
           formData := formOfConnection connection
           editMode := false
           activeTab := 0 }

/-- `handleAddConnection()`. -/
def ConnectionsPage.handleAddConnection (s : ConnectionsPageState) : ConnectionsPageState :=
  { s with selectedConnection := none, formData := {}, editMode := true, activeTab := 1 }

/-- The `requiredFields` of `handleSave` that are falsy in the form, in
order: `requiredFields.filter(field => !formData[field])`. -/
def missingFields (f : FormData) : List String :=
  ([("connection_name", f.connection_name), ("host", f.host), ("port", f.port),
    ("username", f.username), ("database_name", f.database_name),
    ("schema_name", f.schema_name)].filter (fun p => !truthyStr p.2)).map (fun p => p.1)

/-- The object `{ ...formData, port: port }`. -/
def payloadOfForm (f : FormData) (port : Int) : ConnectionPayload :=
  { connection_name := f.connection_name
    host := f.host
    port := port
    username := f.username
    password := some f.password
    database_name := f.database_name
    schema_name := f.schema_name }

/-- Which request `handleSave` is waiting for. -/
inductive SaveKind where
  | update
  | create
deriving DecidableEq, Repr

/-- Result of the synchronous part of `handleSave`: `pending` is `none` when
the handler returned before issuing a request. -/
structure SaveOutcome where
  state : ConnectionsPageState
  requests : List ConnectionRequest := []
  toasts : List Toast := []
  pending : Option SaveKind := none
deriving DecidableEq, Repr

/-- `ConnectionsPage.handleSave` up to its `await`. -/
def ConnectionsPage.handleSave (s : ConnectionsPageState) : SaveOutcome :=
  if (missingFields s.formData).length > 0 then
    { state := s
      toasts := [Toast.error ("Please fill in all required fields: "
        ++ ", ".intercalate (missingFields s.formData))] }
  else
    match jsParseInt s.formData.port with
    | none =>
      { state := s, toasts := [Toast.error "Please enter a valid port number (1-65535)"] }
    | some port =>
      if port ≤ 0 || port > 65535 then
        { state := s, toasts := [Toast.error "Please enter a valid port number (1-65535)"] }
      else
        match s.selectedConnection with
        | some selected =>
          { state := { s with saving := true }
            requests := [ConnectionRequest.updateConnection selected.id
              (if !truthyStr s.formData.password
                then { payloadOfForm s.formData port with password := none }
                else payloadOfForm s.formData port)]
            pending := some SaveKind.update }
        | none =>
          if !truthyStr s.formData.password then
            { state := { s with saving := false }
              toasts := [Toast.error "Password is required for new connections"] }
          else
            { state := { s with saving := true }
              requests := [ConnectionRequest.createConnection (payloadOfForm s.formData port)]
              pending := some SaveKind.create }

/-- `handleSave`: the update request resolved. -/
def ConnectionsPage.handleSave_thenUpdate (s : ConnectionsPageState) :
    ConnOutcome ConnectionsPageState :=
  { state := { s with editMode := false, loading := true, saving := false }
    requests := [ConnectionRequest.getAllConnections]
    toasts := [Toast.success "Connection updated successfully"] }

/-- `handleSave`: the create request resolved with `response.data` holding
`success` and `message`. -/
def ConnectionsPage.handleSave_thenCreate (success : Bool) (message : String)
    (s : ConnectionsPageState) : ConnOutcome ConnectionsPageState :=
  if success then
    { state := { s with editMode := false, formData := {}, loading := true, saving := false }
      requests := [ConnectionRequest.getAllConnections]
      toasts := [Toast.success message] }
  else
    { state := { s with loading := true, saving := false }
      requests := [ConnectionRequest.getAllConnections]
      toasts := [Toast.error message] }

/-- Text of the toast raised when a save fails:
`error.response?.data?.message || 'Failed to save connection'`. -/
def saveErrorText (e : ApiError) : String :=
  match e.serverMessage with
  | some m => if truthyStr m then m else "Failed to save connection"
  | none => "Failed to save connection"

/-- `handleSave`: the request was rejected. -/
def ConnectionsPage.handleSave_catch (e : ApiError) (s : ConnectionsPageState) :
    ConnOutcome ConnectionsPageState :=
  { state := { s with saving := false }, toasts := [Toast.error (saveErrorText e)] }

/-- `ConnectionsPage.handleDelete` up to its `await`: the handler asks
nothing of the user. -/
def ConnectionsPage.handleDelete (s : ConnectionsPageState) :
    ConnOutcome ConnectionsPageState :=
  match s.selectedConnection with
  | none => { state := s }
  | some selected =>
    { state := s, requests := [ConnectionRequest.deleteConnection selected.id] }

/-- `ConnectionsPage.handleDelete`: the request resolved. -/
def ConnectionsPage.handleDelete_then (s : ConnectionsPageState) :
    ConnOutcome ConnectionsPageState :=
  { state := { s with selectedConnection := none, loading := true }
    requests := [ConnectionRequest.getAllConnections]
    toasts := [Toast.success "Connection deleted successfully"] }

/-- `ConnectionsPage.handleDelete`: the request was rejected. -/
def ConnectionsPage.handleDelete_catch (s : ConnectionsPageState) :
    ConnOutcome ConnectionsPageState :=
  { state := s, toasts := [Toast.error "Failed to delete connection"] }

/-- The delete icon is rendered when the page is not loading, a connection is
selected, the settings tab is shown and the form is not in edit mode. -/
def ConnectionsPage.deleteButtonRendered (s : ConnectionsPageState) : Bool :=
  !s.loading && s.selectedConnection.isSome && s.activeTab == 1 && !s.editMode

/-- A click on the delete icon: `onClick={handleDelete}`. -/
def ConnectionsPage.clickDelete (s : ConnectionsPageState) : ConnOutcome ConnectionsPageState :=
  if ConnectionsPage.deleteButtonRendered s then ConnectionsPage.handleDelete s
  else { state := s }

/-! ## Connection form component -/

/-- Value of the `port` slot of `ConnectionForm`: the empty string or a
number (only integers are represented). -/
inductive PortValue where
  | empty
  | num (n : Int)
deriving DecidableEq, Repr

/-- Truthiness of the `port` slot: `''` and `0` are falsy. -/
def PortValue.truthy : PortValue → Bool
  | .empty => false
  | .num n => n != 0

/-- The conversion `Number(value)` on texts that are an optionally signed run
of decimal digits with white space around (the empty text is 0); `none` is
`NaN`.  Numerals with a fraction, an exponent or a radix mark are not
represented: the model reads them as `NaN`. -/
def jsNumberInt (value : String) : Option Int :=
  let cs := (jsTrim value).data
  let signed : Bool × List Char :=
    match cs with
    | '-' :: rest => (true, rest)
    | '+' :: rest => (false, rest)
    | _ => (false, cs)
  if cs.isEmpty then some 0
  else if signed.2.isEmpty || !signed.2.all Char.isDigit then none
  else
    let n : Nat := signed.2.foldl (fun acc c => acc * 10 + digitValue c) 0
    some (if signed.1 then -(n : Int) else (n : Int))

/-- The expression `Number(value) || ''` of `handleChange`. -/
def portOfInput (value : String) : PortValue :=
  match jsNumberInt value with
  | some n => if n != 0 then PortValue.num n else PortValue.empty
  | none => PortValue.empty

/-- The `formData` state of `ConnectionForm`. -/
structure ConnectionFormData where
  connection_name : String := ""
  host : String := ""
  port : PortValue := PortValue.empty
  username : String := ""
  password : String := ""
  database_name : String := ""
  schema_name : String := ""
deriving DecidableEq, Repr

/-- The `useState` slots of `ConnectionForm`; `errors` lists the entries of
the error object in insertion order. -/
structure ConnectionFormState where
  formData : ConnectionFormData := {}
  errors : List (String × String) := []
  isLoading : Bool := false
  tableList : List String := []
  showTables : Bool := false
deriving DecidableEq, Repr

/-- `ConnectionForm.handleChange` for the input called `name`. -/
def ConnectionForm.handleChange (name value : String) (s : ConnectionFormState) :
    ConnectionFormState :=
  if name = "port" then { s with formData := { s.formData with port := portOfInput value } }
  else if name = "connection_name" then
    { s with formData := { s.formData with connection_name := value } }
  else if name = "host" then { s with formData := { s.formData with host := value } }
  else if name = "username" then { s with formData := { s.formData with username := value } }
  else if name = "password" then { s with formData := { s.formData with password := value } }
  else if name = "database_name" then
    { s with formData := { s.formData with database_name := value } }
  else if name = "schema_name" then
    { s with formData := { s.formData with schema_name := value } }
  else s

/-- The error object built by `ConnectionForm.validate`. -/
def ConnectionForm.newErrors (f : ConnectionFormData) : List (String × String) :=
  (if !truthyStr (jsTrim f.connection_name)
    then [("connection_name", "Connection name is required")] else [])
  ++ (if !truthyStr (jsTrim f.host) then [("host", "Host is required")] else [])
  ++ (if !f.port.truthy then [("port", "Port is required")] else [])
  ++ (if !truthyStr (jsTrim f.username) then [("username", "Username is required")] else [])
  ++ (if !truthyStr (jsTrim f.password) then [("password", "Password is required")] else [])
  ++ (if !truthyStr (jsTrim f.database_name)
    then [("database_name", "Database name is required")] else [])
  ++ (if !truthyStr (jsTrim f.schema_name)
    then [("schema_name", "Schema name is required")] else [])

/-- `ConnectionForm.validate()`: the state with the errors stored, and the
returned flag. -/
def ConnectionForm.validate (s : ConnectionFormState) : ConnectionFormState × Bool :=
  ({ s with errors := ConnectionForm.newErrors s.formData },
   (ConnectionForm.newErrors s.formData).length == 0)

/-- `ConnectionForm.handleSubmit` up to its `await`: the form data is posted
as it stands. -/
def ConnectionForm.handleSubmit (s : ConnectionFormState) : ConnOutcome ConnectionFormState :=
  if !(ConnectionForm.validate s).2 then { state := (ConnectionForm.validate s).1 }
  else
    match s.formData.port with
    | .empty => { state := (ConnectionForm.validate s).1 }
    | .num n =>
      { state := { (ConnectionForm.validate s).1 with isLoading := true, showTables := false }
        requests := [ConnectionRequest.createConnection
          { connection_name := s.formData.connection_name
            host := s.formData.host
            port := n
            username := s.formData.username
            password := some s.formData.password
            database_name := s.formData.database_name
            schema_name := s.formData.schema_name }] }

/-- `ConnectionForm.handleSubmit`: the request was rejected; the text is
`error.response?.data?.message || 'Failed to create connection'`. -/
def ConnectionForm.handleSubmit_catch (e : ApiError) (s : ConnectionFormState) :
    ConnOutcome ConnectionFormState :=
  { state := { s with isLoading := false }
    toasts := [Toast.error
      (match e.serverMessage with
       | some m => if truthyStr m then m else "Failed to create connection"
       | none => "Failed to create connection")] }

/-! ## Connections list component -/

/-- The `useState` slots of `ConnectionsList`.  An object used as a cache is
a list of key and value pairs, newest first; reading a key finds the newest
entry. -/
structure ConnectionsListState where
  expandedConnection : Option JsId := none
  expandedTable : Option String := none
  tables : List (String × List String) := []
  columns : List (String × List String) := []
  loadingTables : List (String × Bool) := []
  loadingColumns : List (String × Bool) := []
deriving DecidableEq, Repr

/-- Body of a table-list response: `success`, `tables` and `message`. -/
structure TablesResponse where
  success : Bool
  tables : Option (List String) := none
  message : Option String := none
deriving DecidableEq, Repr

/-- `ConnectionsList.toggleConnection(connectionId)` up to its `await`. -/
def ConnectionsList.toggleConnection (connectionId : JsId) (s : ConnectionsListState) :
    ConnOutcome ConnectionsListState :=
  if s.expandedConnection = some connectionId then
    { state := { s with expandedConnection := none } }
  else if (s.tables.lookup connectionId.toKey).isNone then
    { state := { s with
                 expandedConnection := some connectionId
                 loadingTables := (connectionId.toKey, true) :: s.loadingTables }
      requests := [ConnectionRequest.getConnectionTables connectionId] }
  else { state := { s with expandedConnection := some connectionId } }

/-- `toggleConnection`: the table-list request resolved. -/
def ConnectionsList.toggleConnection_then (connectionId : JsId) (r : TablesResponse)
    (s : ConnectionsListState) : ConnOutcome ConnectionsListState :=
  match r.success, r.tables with
  | true, some ts =>
    { state := { s with
                 tables := (connectionId.toKey, ts) :: s.tables
                 loadingTables := (connectionId.toKey, false) :: s.loadingTables } }
  | _, _ =>
    { state := { s with loadingTables := (connectionId.toKey, false) :: s.loadingTables }
      toasts := [Toast.error
        (match r.message with
         | some m => if truthyStr m then m else "Failed to fetch tables"
         | none => "Failed to fetch tables")] }

/-- `toggleConnection`: the table-list request was rejected. -/
def ConnectionsList.toggleConnection_catch (connectionId : JsId) (s : ConnectionsListState) :
    ConnOutcome ConnectionsListState :=
  { state := { s with loadingTables := (connectionId.toKey, false) :: s.loadingTables }
    toasts := [Toast.error "Failed to fetch tables"] }

/-- Template literal `${connectionId}-${tableName}`. -/
def tableKey (connectionId : JsId) (tableName : String) : String :=
  connectionId.toKey ++ "-" ++ tableName

/-- `ConnectionsList.toggleTable(connectionId, tableName)` up to its `await`. -/
def ConnectionsList.toggleTable (connectionId : JsId) (tableName : String)
    (s : ConnectionsListState) : ConnOutcome ConnectionsListState :=
  if s.expandedTable = some (tableKey connectionId tableName) then
    { state := { s with expandedTable := none } }
  else if (s.columns.lookup (tableKey connectionId tableName)).isNone then
    { state := { s with
                 expandedTable := some (tableKey connectionId tableName)
                 loadingColumns := (tableKey connectionId tableName, true) :: s.loadingColumns }
      requests := [ConnectionRequest.getTableColumns connectionId tableName] }
  else { state := { s with expandedTable := some (tableKey connectionId tableName) } }

/-- `toggleTable`: the column request resolved with `response.data = data`. -/
def ConnectionsList.toggleTable_then (connectionId : JsId) (tableName : String)
    (data : List String) (s : ConnectionsListState) : ConnOutcome ConnectionsListState :=
  { state := { s with
               columns := (tableKey connectionId tableName, data) :: s.columns
               loadingColumns := (tableKey connectionId tableName, false) :: s.loadingColumns } }

/-- `toggleTable`: the column request was rejected. -/
def ConnectionsList.toggleTable_catch (connectionId : JsId) (tableName : String)
    (s : ConnectionsListState) : ConnOutcome ConnectionsListState :=
  { state := { s with
               loadingColumns := (tableKey connectionId tableName, false) :: s.loadingColumns }
    toasts := [Toast.error "Failed to fetch columns"] }

/-- `ConnectionsList.handleDelete(connectionId, connectionName)` up to its
`await`; `confirmed` is what `window.confirm` returned. -/
def ConnectionsList.handleDelete (connectionId : JsId) (confirmed : Bool)
    (s : ConnectionsListState) : ConnOutcome ConnectionsListState :=
  if confirmed then
    { state := s, requests := [ConnectionRequest.deleteConnection connectionId] }
  else { state := s }

/-! ## Connection details component -/

/-- The members of `Object.prototype`, which every plain object inherits:
the name of each with its `length` property (`none` where the member has
none). -/
def objectPrototypeMembers : List (String × Option Nat) :=
  [("constructor", some 1), ("__defineGetter__", some 2), ("__defineSetter__", some 2),
   ("hasOwnProperty", some 1), ("__lookupGetter__", some 1), ("__lookupSetter__", some 1),
   ("isPrototypeOf", some 1), ("propertyIsEnumerable", some 1), ("toString", some 0),
   ("valueOf", some 0), ("__proto__", none), ("toLocaleString", some 0)]

/-- The names a plain object inherits. -/
def objectPrototypeNames : List String := objectPrototypeMembers.map Prod.fst

/-- What a read `obj[key]` of a plain object finds: the value stored under
the key, a member inherited from `Object.prototype` (a function or an object,
hence truthy), or `undefined`. -/
inductive PropertyRead (α : Type) where
  | own (value : α)
  | inherited (length : Option Nat)
  | undefined
deriving DecidableEq, Repr

/-- The read `obj[key]` of a plain object whose own entries are `obj`. -/
def readProperty {α : Type} (obj : List (String × α)) (key : String) : PropertyRead α :=
  match obj.lookup key with
  | some v => PropertyRead.own v
  | none =>
    match objectPrototypeMembers.lookup key with
    | some len => PropertyRead.inherited len
    | none => PropertyRead.undefined

/-- The prop `connection` and the `useState` slots of `ConnectionDetails`. -/
structure ConnectionDetailsState where
  connection : Option Connection := none
  tables : List String := []
  expandedTable : Option String := none
  columns : List (String × List String) := []
  loadingTables : Bool := false
  loadingColumns : List (String × Bool) := []
deriving DecidableEq, Repr

/-- `ConnectionDetails.fetchTables(connectionId)` up to its `await`. -/
def ConnectionDetails.fetchTables (connectionId : JsId) (s : ConnectionDetailsState) :
    ConnOutcome ConnectionDetailsState :=
  { state := { s with loadingTables := true }
    requests := [ConnectionRequest.getConnectionTables connectionId] }

/-- `fetchTables`: the request resolved; `tables` is the array found in
`response.data.tables` or in `response.data`, if any. -/
def ConnectionDetails.fetchTables_then (tables : Option (List String))
    (s : ConnectionDetailsState) : ConnOutcome ConnectionDetailsState :=
  match tables with
  | some ts => { state := { s with tables := ts, loadingTables := false } }
  | none =>
    { state := { s with tables := [], loadingTables := false }
      toasts := [Toast.error "Failed to load tables"] }

/-- `fetchTables`: the request was rejected. -/
def ConnectionDetails.fetchTables_catch (s : ConnectionDetailsState) :
    ConnOutcome ConnectionDetailsState :=
  { state := { s with tables := [], loadingTables := false }
    toasts := [Toast.error "Error loading tables"] }

/-- The effect with dependency `[connection]`. -/
def ConnectionDetails.connectionEffect (s : ConnectionDetailsState) :
    ConnOutcome ConnectionDetailsState :=
  match s.connection with
  | some c => ConnectionDetails.fetchTables c.id s
  | none => { state := s }

/-- First render of `ConnectionDetails` with the prop `connection`. -/
def ConnectionDetails.mount (connection : Option Connection) :
    ConnOutcome ConnectionDetailsState :=
  ConnectionDetails.connectionEffect { connection := connection }

/-- Re-render of the mounted component with another `connection` prop, as
when another connection is selected while the tables tab is shown: the state
slots are kept and the effect runs again. -/
def ConnectionDetails.rerender (connection : Option Connection) (s : ConnectionDetailsState) :
    ConnOutcome ConnectionDetailsState :=
  ConnectionDetails.connectionEffect { s with connection := connection }

/-- The values the continuation of `handleTableExpand` closes over. -/
structure ExpandClosure where
  tableName : String
  columns : List (String × List String)
  loadingColumns : List (String × Bool)
deriving DecidableEq, Repr

/-- Result of the synchronous part of `handleTableExpand`. -/
structure ExpandOutcome where
  state : ConnectionDetailsState
  requests : List ConnectionRequest := []
  closure : Option ExpandClosure := none
deriving DecidableEq, Repr

/-- `ConnectionDetails.handleTableExpand(tableName)` up to its `await`; the
handler is reachable only while a connection is shown.  The test
`!columns[tableName]` fails for a stored column list (an array is truthy) and
for a name inherited from `Object.prototype`. -/
def ConnectionDetails.handleTableExpand (tableName : String) (s : ConnectionDetailsState) :
    ExpandOutcome :=
  if s.expandedTable = some tableName then { state := { s with expandedTable := none } }
  else
    match readProperty s.columns tableName with
    | PropertyRead.undefined =>
      match s.connection with
      | some c =>
        { state := { s with
                     expandedTable := some tableName
                     loadingColumns := (tableName, true) :: s.loadingColumns }
          requests := [ConnectionRequest.getTableColumns c.id tableName]
          closure := some { tableName := tableName, columns := s.columns
                            loadingColumns := s.loadingColumns } }
      | none => { state := { s with expandedTable := some tableName } }
    | _ => { state := { s with expandedTable := some tableName } }

/-- `handleTableExpand`: the column request resolved with `response.data =
data`; both updates spread the objects captured when the handler started. -/
def ConnectionDetails.handleTableExpand_then (c : ExpandClosure) (data : List String)
    (s : ConnectionDetailsState) : ConnOutcome ConnectionDetailsState :=
  { state := { s with
               columns := (c.tableName, data) :: c.columns
               loadingColumns := (c.tableName, false) :: c.loadingColumns } }

/-- `handleTableExpand`: the column request was rejected. -/
def ConnectionDetails.handleTableExpand_catch (c : ExpandClosure) (s : ConnectionDetailsState) :
    ConnOutcome ConnectionDetailsState :=
  { state := { s with loadingColumns := (c.tableName, false) :: c.loadingColumns }
    toasts := [Toast.error "Error loading columns"] }

/-- What the body of a table's accordion shows; `typeError` when rendering
throws because `columns[tableName].map` is not a function. -/
inductive ColumnsArea where
  | spinner
  | columnTable (shown : List String)
  | noColumns
  | typeError
deriving DecidableEq, Repr

/-- The conditional chain inside `AccordionDetails`:
`loadingColumns[tableName] ? ... : columns[tableName] &&
columns[tableName].length > 0 ? ... : ...`. -/
def ConnectionDetails.renderColumns (tableName : String) (s : ConnectionDetailsState) :
    ColumnsArea :=
  let loading :=
    match readProperty s.loadingColumns tableName with
    | PropertyRead.own b => b
    | PropertyRead.inherited _ => true
    | PropertyRead.undefined => false
  if loading then ColumnsArea.spinner
  else
    match readProperty s.columns tableName with
    | PropertyRead.own cols =>
      if cols.length > 0 then ColumnsArea.columnTable cols else ColumnsArea.noColumns
    | PropertyRead.inherited len =>
      if len.getD 0 > 0 then ColumnsArea.typeError else ColumnsArea.noColumns
    | PropertyRead.undefined => ColumnsArea.noColumns

/-! ## Remaining failure handlers -/

/-- `ChatPage.handleCreateChat`: the create request was rejected. -/
def handleCreateChat_catch (s : ChatPageState) : Outcome :=
  { state := { s with creatingChat := false }
    toasts := [Toast.error "Failed to create chat"] }

/-- `CreateChatModal.fetchConnections`: the request was rejected; the `catch`
block only writes to the console.  The result is the next value of
`loadingConnections` and the toasts raised. -/
def CreateChatModal.fetchConnections_catch : Bool × List Toast := (false, [])

/-- The notification text the specification describes: the message field of
the error response when it carries one, the fallback otherwise. -/
def specNotificationText (e : ApiError) (fallback : String) : String :=
  match e.serverMessage with
  | some m => m
  | none => fallback

/-! ## Expanding twice -/

/-- How a column request ends: it resolves with `response.data = data`, or it
is rejected. -/
inductive ColumnsAnswer where
  | resolved (data : List String)
  | rejected
deriving DecidableEq, Repr

/-- When the answer to the column request of the first expansion arrives,
relative to the collapse and the second expansion that follow. -/
inductive AnswerArrival where
  | beforeCollapse (a : ColumnsAnswer)
  | beforeSecondExpand (a : ColumnsAnswer)
  | stillPending
deriving DecidableEq, Repr

/-- The answer that arrives between the first expansion and the collapse. -/
def AnswerArrival.early : AnswerArrival → Option ColumnsAnswer
  | .beforeCollapse a => some a
  | _ => none

/-- The answer that arrives between the collapse and the second expansion. -/
def AnswerArrival.late : AnswerArrival → Option ColumnsAnswer
  | .beforeSecondExpand a => some a
  | _ => none

/-- `ConnectionsList.toggleTable` resumed after its `await` with the answer
`a`, if one arrives. -/
def ConnectionsList.toggleTable_settle (connectionId : JsId) (tableName : String)
    (a : Option ColumnsAnswer) (s : ConnectionsListState) : ConnOutcome ConnectionsListState :=
  match a with
  | none => { state := s }
  | some (ColumnsAnswer.resolved data) =>
    ConnectionsList.toggleTable_then connectionId tableName data s
  | some ColumnsAnswer.rejected => ConnectionsList.toggleTable_catch connectionId tableName s

/-- `ConnectionsList`: expand a table, collapse it, expand it again, the
answer to the request of the first expansion (if that expansion issued one)
arriving at `arrival`; the requests and toasts of all steps and the final
state. -/
def ConnectionsList.expandCollapseExpand (connectionId : JsId) (tableName : String)
    (arrival : AnswerArrival) (s : ConnectionsListState) : ConnOutcome ConnectionsListState :=
  let o1 := ConnectionsList.toggleTable connectionId tableName s
  let o2 := ConnectionsList.toggleTable_settle connectionId tableName
    (if o1.requests.isEmpty then none else arrival.early) o1.state
  let o3 := ConnectionsList.toggleTable connectionId tableName o2.state
  let o4 := ConnectionsList.toggleTable_settle connectionId tableName
    (if o1.requests.isEmpty then none else arrival.late) o3.state
  let o5 := ConnectionsList.toggleTable connectionId tableName o4.state
  { state := o5.state
    requests := o1.requests ++ o2.requests ++ o3.requests ++ o4.requests ++ o5.requests
    toasts := o1.toasts ++ o2.toasts ++ o3.toasts ++ o4.toasts ++ o5.toasts }

/-- `ConnectionDetails.handleTableExpand` resumed after its `await` with the
answer `a`, if one arrives; `c` holds the values the call closed over, `none`
when the call issued no request. -/
def ConnectionDetails.handleTableExpand_settle (c : Option ExpandClosure)
    (a : Option ColumnsAnswer) (s : ConnectionDetailsState) :
    ConnOutcome ConnectionDetailsState :=
  match c, a with
  | some c, some (ColumnsAnswer.resolved data) => ConnectionDetails.handleTableExpand_then c data s
  | some c, some ColumnsAnswer.rejected => ConnectionDetails.handleTableExpand_catch c s
  | _, _ => { state := s }

/-- `ConnectionDetails`: expand a table, collapse it, expand it again, the
answer to the request of the first expansion (if that expansion issued one)
arriving at `arrival`. -/
def ConnectionDetails.expandCollapseExpand (tableName : String) (arrival : AnswerArrival)
    (s : ConnectionDetailsState) : ConnOutcome ConnectionDetailsState :=
  let o1 := ConnectionDetails.handleTableExpand tableName s
  let o2 := ConnectionDetails.handleTableExpand_settle o1.closure arrival.early o1.state
  let o3 := ConnectionDetails.handleTableExpand tableName o2.state
  let o4 := ConnectionDetails.handleTableExpand_settle o1.closure arrival.late o3.state
  let o5 := ConnectionDetails.handleTableExpand tableName o4.state
  { state := o5.state
    requests := o1.requests ++ o2.requests ++ o3.requests ++ o4.requests ++ o5.requests
    toasts := o2.toasts ++ o4.toasts }

/-- `ConnectionDetails` shown for `first`, whose table list `tables` is
loaded and whose table `tableName` is expanded and its columns `cols`
loaded; then the page selects `second` and its table list, the same
`tables`, is loaded. -/
def ConnectionDetails.afterSwitch (first second : Connection) (tables : List String)
    (tableName : String) (cols : List String) : ConnectionDetailsState :=
  let s1 := (ConnectionDetails.fetchTables_then (some tables)
    (ConnectionDetails.mount (some first)).state).state
  let o2 := ConnectionDetails.handleTableExpand tableName s1
  let s3 :=
    match o2.closure with
    | none => o2.state
    | some c => (ConnectionDetails.handleTableExpand_then c cols o2.state).state
  (ConnectionDetails.fetchTables_then (some tables)
    (ConnectionDetails.rerender (some second) s3).state).state

/-- `ConnectionsList`: expand a connection, the table-list request resolves
with the list `ts`, collapse the connection, expand it again. -/
def ConnectionsList.expandConnectionTwice (connectionId : JsId) (ts : List String)
    (message : Option String) (s : ConnectionsListState) : ConnOutcome ConnectionsListState :=
  let o1 := ConnectionsList.toggleConnection connectionId s
  let o2 := ConnectionsList.toggleConnection_then connectionId
    { success := true, tables := some ts, message := message } o1.state
  let o3 := ConnectionsList.toggleConnection connectionId o2.state
  let o4 := ConnectionsList.toggleConnection connectionId o3.state
  { state := o4.state
    requests := o1.requests ++ o2.requests ++ o3.requests ++ o4.requests
    toasts := o1.toasts ++ o2.toasts ++ o3.toasts ++ o4.toasts }

/-! ## API client -/

/-- Method and path of a call made through the axios instance `api`. -/
structure HttpCall where
  method : String
  path : String
deriving DecidableEq, Repr

/-- The constant `BASE_URL`. -/
def BASE_URL : String := "http://localhost:8016/api"

/-- The `headers` object given to `axios.create`. -/
def apiHeaders : List (String × String) := [("Content-Type", "application/json")]

/-- `connectionApi.getAllConnections()`. -/
def connectionApi.getAllConnections : HttpCall := ⟨"GET", "/connection/all"⟩

/-- `connectionApi.createConnection(connectionData)`. -/
def connectionApi.createConnection : HttpCall := ⟨"POST", "/connection/connect"⟩

/-- `connectionApi.updateConnection(connectionId, connectionData)`. -/
def connectionApi.updateConnection (connectionId : JsId) : HttpCall :=
  ⟨"PUT", "/connection/" ++ connectionId.toKey⟩

/-- `connectionApi.deleteConnection(connectionId)`. -/
def connectionApi.deleteConnection (connectionId : JsId) : HttpCall :=
  ⟨"DELETE", "/connection/" ++ connectionId.toKey⟩

/-- `connectionApi.getConnectionTables(connectionId)`. -/
def connectionApi.getConnectionTables (connectionId : JsId) : HttpCall :=
  ⟨"GET", "/connection/" ++ connectionId.toKey ++ "/tables"⟩

/-- `connectionApi.getTableColumns(connectionId, tableName)`. -/
def connectionApi.getTableColumns (connectionId : JsId) (tableName : String) : HttpCall :=
  ⟨"GET", "/connection/" ++ connectionId.toKey ++ "/tables/" ++ tableName ++ "/columns"⟩

/-- `chatApi.getAllChats()`. -/
def chatApi.getAllChats : HttpCall := ⟨"GET", "/chat/chats"⟩

/-- `chatApi.getChat(chatId)`. -/
def chatApi.getChat (chatId : JsId) : HttpCall := ⟨"GET", "/chat/chats/" ++ chatId.toKey⟩

/-- `chatApi.createChat(chatData)`. -/
def chatApi.createChat : HttpCall := ⟨"POST", "/chat/chats"⟩

/-- `chatApi.updateChat(chatId, chatData)`. -/
def chatApi.updateChat (chatId : JsId) : HttpCall := ⟨"PUT", "/chat/chats/" ++ chatId.toKey⟩

/-- `chatApi.getChatMessages(chatId)`. -/
def chatApi.getChatMessages (chatId : JsId) : HttpCall :=
  ⟨"GET", "/chat/chats/" ++ chatId.toKey ++ "/messages"⟩

/-- `chatApi.sendMessage(chatId, messageData)`. -/
def chatApi.sendMessage (chatId : JsId) : HttpCall :=
  ⟨"POST", "/chat/chats/" ++ chatId.toKey ++ "/messages"⟩

/-- `chatApi.getMessage(messageId)`. -/
def chatApi.getMessage (messageId : JsId) : HttpCall :=
  ⟨"GET", "/chat/chats/messages/" ++ messageId.toKey⟩

/-- The HTTP call behind a request of the chat page. -/
def Request.toHttp : Request → HttpCall
  | .getAllChats => chatApi.getAllChats
  | .getChatMessages chatId => chatApi.getChatMessages chatId
  | .sendMessage chatId _ _ => chatApi.sendMessage chatId
  | .updateChat chatId _ => chatApi.updateChat chatId

/-- The HTTP call behind a request of the connection components. -/
def ConnectionRequest.toHttp : ConnectionRequest → HttpCall
  | .getAllConnections => connectionApi.getAllConnections
  | .createConnection _ => connectionApi.createConnection
  | .updateConnection connectionId _ => connectionApi.updateConnection connectionId
  | .deleteConnection connectionId => connectionApi.deleteConnection connectionId
  | .getConnectionTables connectionId => connectionApi.getConnectionTables connectionId
  | .getTableColumns connectionId tableName =>
    connectionApi.getTableColumns connectionId tableName

/-! ## Chat message component -/

/-- What `ChatMessage.renderContent` returns. -/
inductive MessageView where
  | userText (content : String)
  | waiting (processing : Bool)
  | failure (error : String) (details : Option String)
  | inlineError (error : String)
  | resultTable (columns : List String) (data : List (List (String × Option String)))
      (code : Option String)
  | plainText (content : String)
deriving DecidableEq, Repr

/-- A string field read in a condition: present and not empty. -/
def truthyField : Option String → Option String
  | some t => if truthyStr t then some t else none
  | none => none

/-- `ChatMessage.renderContent()`; `code` of a result table is the generated
code when `message.generated_code` is truthy. -/
def ChatMessage.renderContent (message : Message) : MessageView :=
  if message.role == "user" then MessageView.userText message.content
  else if message.status == "pending" || message.status == "processing" then
    MessageView.waiting (message.status == "processing")
  else if message.status == "failed" then
    match message.result_content with
    | some rc =>
      match truthyField rc.error with
      | some e => MessageView.failure e (truthyField rc.details)
      | none =>
        MessageView.failure "An error occurred" (some "The query could not be processed")
    | none => MessageView.failure "An error occurred" (some "The query could not be processed")
  else
    match message.status == "completed", message.result_content with
    | true, some rc =>
      match truthyField rc.error with
      | some e => MessageView.inlineError e
      | none =>
        MessageView.resultTable (rc.columns.getD []) (rc.data.getD [])
          (truthyField message.generated_code)
    | _, _ =>
      MessageView.plainText (if truthyStr message.content then message.content else "No content")

/-- The error line of a message on the chat page:
`message.result_content?.error && ...`. -/
def ChatPage.inlineError (message : Message) : Option String :=
  match message.result_content with
  | some rc => truthyField rc.error
  | none => none

/-- Whether the chat page renders the result block of a message:
`message.result_content && !message.result_content.error`. -/
def ChatPage.showsResult (message : Message) : Bool :=
  match message.result_content with
  | some rc => (truthyField rc.error).isNone
  | none => false

/-! ## Data table component -/

/-- The constant `rowsPerPage`. -/
def rowsPerPage : Nat := 10

/-- The value `Math.ceil(data.length / rowsPerPage)`: for a list length the
integer ceiling. -/
def DataTable.totalPages {α : Type} (data : List α) : Nat :=
  (data.length + (rowsPerPage - 1)) / rowsPerPage

/-- The call `data.slice(start, end)` for indices that are not negative. -/
def jsSlice {α : Type} (l : List α) (start stop : Nat) : List α :=
  (l.drop start).take (stop - start)

/-- The value `paginatedData`. -/
def DataTable.paginatedData {α : Type} (data : List α) (currentPage : Nat) : List α :=
  jsSlice data ((currentPage - 1) * rowsPerPage) (currentPage * rowsPerPage)

/-- `handleNextPage()`: the next value of `currentPage`. -/
def DataTable.handleNextPage {α : Type} (data : List α) (currentPage : Nat) : Nat :=
  if currentPage < DataTable.totalPages data then currentPage + 1 else currentPage

/-- `handlePrevPage()`: the next value of `currentPage`. -/
def DataTable.handlePrevPage (currentPage : Nat) : Nat :=
  if currentPage > 1 then currentPage - 1 else currentPage

/-- The double quote character. -/
def quoteChar : Char := Char.ofNat 34

/-- Every double quote doubled: `value.replace(/"/g, '""')`. -/
def doubleQuotes (cs : List Char) : List Char :=
  match cs with
  | [] => []
  | c :: rest => if c = quoteChar then quoteChar :: quoteChar :: doubleQuotes rest
                 else c :: doubleQuotes rest

/-- The text of a cell: `row[col] !== undefined ? String(row[col]) : ''`. A
row is given by what its property reads return: the list holds
`(col, String(row[col]))` for each name `col` whose read `row[col]` is not
`undefined`, and no entry for the other names. -/
def cellText (row : List (String × String)) (col : String) : String :=
  (row.lookup col).getD ""

/-- One field of the export: the cell text between double quotes, with its
double quotes doubled. -/
def csvField (value : String) : String :=
  ⟨quoteChar :: (doubleQuotes value.data ++ [quoteChar])⟩

/-- The fields of one data row, before they are joined. -/
def csvRowFields (columns : List String) (row : List (String × String)) : List String :=
  columns.map (fun col => csvField (cellText row col))

/-- The text `csvContent` built by `exportToCSV`; `none` when the handler
returns at once because `data` is empty. -/
def DataTable.exportToCSV (data : List (List (String × String))) (columns : List String) :
    Option String :=
  if data.length = 0 then none
  else some ("\n".intercalate
    (",".intercalate columns :: data.map (fun row => ",".intercalate (csvRowFields columns row))))

/-- Pairs of double quotes read back as one double quote. -/
def undoubleQuotes : List Char → List Char
  | [] => []
  | c :: rest =>
    if c = quoteChar then
      match rest with
      | d :: rest2 => if d = quoteChar then quoteChar :: undoubleQuotes rest2
                      else c :: d :: undoubleQuotes rest2
      | [] => [c]
    else c :: undoubleQuotes rest

/-- Reading a field back: drop the two enclosing quotes and un-double. -/
def readCsvField (field : String) : String :=
  ⟨undoubleQuotes (field.data.drop 1).dropLast⟩

/-! ## Connection selector component -/

/-- `ConnectionSelector.toggleConnection(connectionId)`: the next value of
`selected`. -/
def ConnectionSelector.toggleConnection (connectionId : JsId) (selected : List JsId) :
    List JsId :=
  if selected.contains connectionId then selected.filter (fun id => id != connectionId)
  else selected ++ [connectionId]

/-! ## Send followed by a failed refetch -/

/-- A send whose request resolves and whose follow-up `fetchMessages` is
rejected, with nothing happening in between. -/
def sendRefetchFailed (clk : Clock) (s : ChatPageState) : Option Outcome :=
  match (handleSendMessage clk s).closure with
  | none => none
  | some c =>
    some (fetchMessages_catch (handleSendMessage_then c (handleSendMessage clk s).state).state)

/-! ## Decimal digits -/

/-- The number written by a list of decimal digits. -/
def digitsValue (l : List Char) : Nat := l.foldl (fun acc c => acc * 10 + digitValue c) 0

/-- The form data reached from the empty `ConnectionForm` by a sequence of
input events, each a field name and the text typed. -/
def ConnectionForm.afterInputs (inputs : List (String × String)) : ConnectionFormState :=
  inputs.foldl (fun s p => ConnectionForm.handleChange p.1 p.2 s) {}

/-! ## Basic facts about `trim` -/

theorem dropWhile_eq_nil_of_all {α : Type} (p : α → Bool) (l : List α)
    (h : ∀ a ∈ l, p a = true) : l.dropWhile p = [] := by
  induction l with
  | nil => rfl
  | cons a t ih =>
    have ha : p a = true := h a (List.mem_cons_self a t)
    simp [List.dropWhile, ha, ih (fun b hb => h b (List.mem_cons_of_mem a hb))]

theorem jsTrim_of_isBlank (t : String) (h : isBlank t) : jsTrim t = "" := by
  unfold jsTrim
  rw [dropWhile_eq_nil_of_all isJsWhiteSpace t.data h]
  rfl

theorem truthyStr_jsTrim_of_isBlank (t : String) (h : isBlank t) :
    truthyStr (jsTrim t) = false := by
  rw [jsTrim_of_isBlank t h]; rfl

theorem mem_dropWhile_of_false {α : Type} (p : α → Bool) (a : α) (l : List α)
    (hm : a ∈ l) (hp : p a = false) : a ∈ l.dropWhile p := by
  induction l with
  | nil => cases hm
  | cons b t ih =>
    by_cases hb : p b = true
    · have hab : a ≠ b := by
        intro h; rw [h, hb] at hp; cases hp
      have hat : a ∈ t := by
        rcases List.mem_cons.mp hm with h | h
        · exact absurd h hab
        · exact h
      simp [List.dropWhile, hb, ih hat]
    · simp only [Bool.not_eq_true] at hb
      simp [List.dropWhile, hb]
      exact List.mem_cons.mp hm

theorem truthyStr_jsTrim_of_not_isBlank (t : String) (h : ¬ isBlank t) :
    truthyStr (jsTrim t) = true := by
  unfold isBlank at h
  push_neg at h
  obtain ⟨c, hc, hws⟩ := h
  simp only [Bool.not_eq_true] at hws
  have h1 : c ∈ t.data.dropWhile isJsWhiteSpace := mem_dropWhile_of_false _ c _ hc hws
  have h2 : c ∈ ((t.data.dropWhile isJsWhiteSpace).reverse.dropWhile isJsWhiteSpace) :=
    mem_dropWhile_of_false _ c _ (List.mem_reverse.mpr h1) hws
  have h3 : ((t.data.dropWhile isJsWhiteSpace).reverse.dropWhile isJsWhiteSpace).reverse ≠ [] := by
    intro h0
    rw [List.reverse_eq_nil_iff] at h0
    rw [h0] at h2
    cases h2
  unfold truthyStr jsTrim
  simp [bne_iff_ne, String.ext_iff, h3]

/-- The white-space test of the handlers reads as blankness. -/
theorem truthyStr_jsTrim_eq_false_iff (t : String) :
    truthyStr (jsTrim t) = false ↔ isBlank t := by
  constructor
  · intro h
    by_contra hb
    rw [truthyStr_jsTrim_of_not_isBlank t hb] at h
    cases h
  · exact truthyStr_jsTrim_of_isBlank t

/-- Early return of `handleSendMessage`, in terms of the state. -/
theorem handleSendMessage_reject (clk : Clock) (s : ChatPageState)
    (h : isBlank s.messageInput ∨ truthyId s.selectedChat = false) :
    handleSendMessage clk s = { state := s } := by
  unfold handleSendMessage
  cases hs : s.selectedChat with
  | none => rfl
  | some chatId =>
    rcases h with h | h
    · simp [truthyStr_jsTrim_of_isBlank _ h]
    · rw [hs] at h
      simp only [truthyId] at h
      simp [h]

/-- The accepting branch of `handleSendMessage`, in terms of the state. -/
theorem handleSendMessage_accept (clk : Clock) (s : ChatPageState) (chatId : JsId)
    (hb : ¬ isBlank s.messageInput) (hs : s.selectedChat = some chatId)
    (ht : chatId.truthy = true) :
    handleSendMessage clk s =
      { state :=
          { s with
            sendingMessage := true
            messages := s.messages ++ [optimisticUserMsg clk s, optimisticAssistantMsg clk s]
            messageInput := "" }
        requests := [Request.sendMessage chatId s.messageInput "user"]
        closure := some
          { selectedChat := chatId
            userId := tempId clk.now1
            assistantId := tempId (clk.now2 + 1) } } := by
  unfold handleSendMessage
  rw [hs]
  simp [truthyStr_jsTrim_of_not_isBlank _ hb, ht, optimisticUserMsg, optimisticAssistantMsg]

/-- A truthy selection is some identifier. -/
theorem truthyId_eq_true_iff (o : Option JsId) :
    truthyId o = true ↔ ∃ chatId, o = some chatId ∧ chatId.truthy = true := by
  cases o with
  | none => simp [truthyId]
  | some i => simp [truthyId]

/-! ## Claims -/

/-- C1: with a message text that is empty or white space only,
`handleSendMessage` returns early in every view state: the state (message
list included) is unchanged and no request is issued; `MessageInput` then
never calls `onSendMessage` either. -/
theorem handleSendMessage_blank_noop (clk : Clock) (s : ChatPageState)
    (h : isBlank s.messageInput) :
    handleSendMessage clk s = { state := s, requests := [], closure := none }
    ∧ ∀ disabled connectionsSelected,
        MessageInput.handleSubmit s.messageInput disabled connectionsSelected
          = (none, s.messageInput) := by
  constructor
  · exact handleSendMessage_reject clk s (Or.inl h)
  · intro d c
    simp [MessageInput.handleSubmit, truthyStr_jsTrim_of_isBlank _ h]

/-- Witness for C1: a selected chat and the input `" \t "`. -/
theorem handleSendMessage_blank_noop_witness :
    isBlank " \t "
    ∧ (handleSendMessage ⟨5, "a", 5, "b"⟩
          { selectedChat := some (.num 1), messageInput := " \t " }).requests = [] :=
  ⟨by decide,
   by
    have h := (handleSendMessage_blank_noop ⟨5, "a", 5, "b"⟩
      { selectedChat := some (.num 1), messageInput := " \t " } (by decide)).1
    rw [h]⟩

/-- C2, as stated, fails for the handler: with chat 1 selected, an assistant
message still pending (so `canSend` is false) and the text `hi`,
`handleSendMessage` appends the two optimistic entries and issues the send
request. -/
theorem handleSendMessage_ignores_canSend :
    canSend { selectedChat := some (.num 1), messageInput := "hi",
              messages := [{ id := .num 7, content := "", role := "assistant",
                             status := "pending", created_at := "", message_index := 0 }] }
      = false
    ∧ (handleSendMessage ⟨5, "", 5, ""⟩
        { selectedChat := some (.num 1), messageInput := "hi",
          messages := [{ id := .num 7, content := "", role := "assistant",
                         status := "pending", created_at := "", message_index := 0 }] }).requests
      = [Request.sendMessage (.num 1) "hi" "user"]
    ∧ (handleSendMessage ⟨5, "", 5, ""⟩
        { selectedChat := some (.num 1), messageInput := "hi",
          messages := [{ id := .num 7, content := "", role := "assistant",
                         status := "pending", created_at := "", message_index := 0 }]
        }).state.messages.length = 3 := by
  decide

/-- C2, amended: `handleSendMessage` itself returns early (state unchanged,
no request) when the text is blank or no chat is selected, and accepts every
other call whatever `canSend` says; the guard is held by the rendered form:
whenever `canSend` is false the text field and the submit button are
disabled, and a submit of the form leaves the state unchanged and issues no
request. -/
theorem send_rejected_when_blocked (clk : Clock) (s : ChatPageState) :
    ((isBlank s.messageInput ∨ truthyId s.selectedChat = false) →
        handleSendMessage clk s = { state := s, requests := [], closure := none })
    ∧ ((¬ isBlank s.messageInput ∧ truthyId s.selectedChat = true) →
        (handleSendMessage clk s).requests.length = 1
        ∧ (handleSendMessage clk s).state.messages.length = s.messages.length + 2)
    ∧ (canSend s = false →
        textFieldDisabled s = true ∧ sendButtonDisabled s = true
        ∧ submitSendForm clk s = { state := s, requests := [], closure := none }) := by
  refine ⟨handleSendMessage_reject clk s, ?_, ?_⟩
  · rintro ⟨hb, ht⟩
    obtain ⟨chatId, hs, hc⟩ := (truthyId_eq_true_iff _).mp ht
    rw [handleSendMessage_accept clk s chatId hb hs hc]
    simp
  · intro h
    have hblk : isMessageBlocked s = true := by
      simpa [canSend] using h
    simp [textFieldDisabled, sendButtonDisabled, submitSendForm, hblk]

/-- Witness for C2 (amended): the blocked state of the counterexample. -/
theorem send_rejected_when_blocked_witness :
    canSend { selectedChat := some (.num 1), messageInput := "hi",
              messages := [{ id := .num 7, content := "", role := "assistant",
                             status := "pending", created_at := "", message_index := 0 }] }
      = false
    ∧ (submitSendForm ⟨5, "", 5, ""⟩
        { selectedChat := some (.num 1), messageInput := "hi",
          messages := [{ id := .num 7, content := "", role := "assistant",
                         status := "pending", created_at := "", message_index := 0 }] }).requests
      = [] :=
  ⟨by decide,
   by
    have h := ((send_rejected_when_blocked ⟨5, "", 5, ""⟩
      { selectedChat := some (.num 1), messageInput := "hi",
        messages := [{ id := .num 7, content := "", role := "assistant",
                       status := "pending", created_at := "", message_index := 0 }] }).2.2
      (by decide)).2.2
    rw [h]⟩

/-- C3: for an accepted text (not blank, a chat selected) the message list
right after the optimistic update is the old list followed by exactly two
entries, a `completed` user message carrying the text and a `pending`
assistant message with empty content; the old entries are untouched and the
length grows by two. -/
theorem optimistic_update_appends_two (clk : Clock) (s : ChatPageState)
    (hb : ¬ isBlank s.messageInput) (ht : truthyId s.selectedChat = true) :
    ∃ u a : Message,
      (handleSendMessage clk s).state.messages = s.messages ++ [u, a]
      ∧ u.role = "user" ∧ u.status = "completed" ∧ u.content = s.messageInput
      ∧ a.role = "assistant" ∧ a.status = "pending" ∧ a.content = ""
      ∧ (handleSendMessage clk s).state.messages.length = s.messages.length + 2
      ∧ (handleSendMessage clk s).state.messages.take s.messages.length = s.messages
      ∧ ∀ i, i < s.messages.length →
          (handleSendMessage clk s).state.messages[i]? = s.messages[i]? := by
  obtain ⟨chatId, hs, hc⟩ := (truthyId_eq_true_iff _).mp ht
  refine ⟨optimisticUserMsg clk s, optimisticAssistantMsg clk s, ?_⟩
  rw [handleSendMessage_accept clk s chatId hb hs hc]
  refine ⟨rfl, rfl, rfl, rfl, rfl, rfl, rfl, ?_, ?_, ?_⟩
  · simp
  · simp
  · intro i hi
    simp [List.getElem?_append_left hi]

/-- Witness for C3: the example of the specification, one earlier message
and the text `count rows`. -/
theorem optimistic_update_appends_two_witness :
    ∃ u a : Message,
      (handleSendMessage ⟨5, "", 5, ""⟩
        { selectedChat := some (.num 1), messageInput := "count rows",
          messages := [{ id := .num 7, content := "q", role := "user",
                         status := "completed", created_at := "", message_index := 0 }]
        }).state.messages
        = [{ id := .num 7, content := "q", role := "user",
             status := "completed", created_at := "", message_index := 0 }] ++ [u, a]
      ∧ u.content = "count rows" ∧ a.status = "pending" := by
  obtain ⟨u, a, h1, _, _, h4, _, h6, _⟩ := optimistic_update_appends_two ⟨5, "", 5, ""⟩
    { selectedChat := some (.num 1), messageInput := "count rows",
      messages := [{ id := .num 7, content := "q", role := "user",
                     status := "completed", created_at := "", message_index := 0 }] }
    (by decide) (by decide)
  exact ⟨u, a, h1, h4, h6⟩

/-- The rollback filter applied to a list that ends with two entries carrying
the filtered identities drops those two entries. -/
theorem rollback_filter_append (L : List Message) (u a : Message) :
    (L ++ [u, a]).filter (fun msg => msg.id != u.id && msg.id != a.id)
      = L.filter (fun msg => msg.id != u.id && msg.id != a.id) := by
  simp [List.filter_append, List.filter_cons]

/-- C4, as stated, fails: when the list already holds an entry whose identity
is `temp-5` and the clock reads 5, the failure handler removes that entry
together with the two optimistic ones, so the list after the failure is
shorter than the list before the send. -/
theorem failed_send_drops_colliding_entry :
    (sendFailed ⟨5, "", 5, ""⟩ {}
        { selectedChat := some (.num 1), messageInput := "hi",
          messages := [{ id := .num 7, content := "q", role := "user",
                         status := "completed", created_at := "", message_index := 0 },
                       { id := .str "temp-5", content := "old", role := "user",
                         status := "completed", created_at := "", message_index := 1 }] }).map
      (fun o => o.state.messages)
      = some [{ id := .num 7, content := "q", role := "user",
                status := "completed", created_at := "", message_index := 0 }] := by
  decide

/-- C4, amended: for an accepted text whose send request fails, the list
after the failure handler is the list before the send without the entries
that carry one of the two temporary identities, in the original order; when
no entry of the list before the send carries one of them, it is that list
exactly.  The handler also resets `sendingMessage` and raises one error
toast. -/
theorem failed_send_restores (clk : Clock) (e : ApiError) (s : ChatPageState)
    (hb : ¬ isBlank s.messageInput) (ht : truthyId s.selectedChat = true) :
    ∃ o : Outcome,
      sendFailed clk e s = some o
      ∧ o.state.messages
          = s.messages.filter
              (fun msg => msg.id != tempId clk.now1 && msg.id != tempId (clk.now2 + 1))
      ∧ ((∀ msg ∈ s.messages, msg.id ≠ tempId clk.now1 ∧ msg.id ≠ tempId (clk.now2 + 1)) →
          o.state.messages = s.messages)
      ∧ o.state.sendingMessage = false
      ∧ o.toasts = [Toast.error (sendErrorText e)] := by
  obtain ⟨chatId, hs, hc⟩ := (truthyId_eq_true_iff _).mp ht
  have hfil := rollback_filter_append s.messages (optimisticUserMsg clk s)
    (optimisticAssistantMsg clk s)
  have hu : (optimisticUserMsg clk s).id = tempId clk.now1 := rfl
  have ha : (optimisticAssistantMsg clk s).id = tempId (clk.now2 + 1) := rfl
  rw [hu, ha] at hfil
  have key : sendFailed clk e s
      = some (handleSendMessage_catch
          { selectedChat := chatId, userId := tempId clk.now1,
            assistantId := tempId (clk.now2 + 1) } e
          { s with
            sendingMessage := true
            messages := s.messages ++ [optimisticUserMsg clk s, optimisticAssistantMsg clk s]
            messageInput := "" }) := by
    unfold sendFailed
    rw [handleSendMessage_accept clk s chatId hb hs hc]
  refine ⟨_, key, ?_, ?_, ?_, ?_⟩
  · simpa [handleSendMessage_catch] using hfil
  · intro hfresh
    simp only [handleSendMessage_catch]
    rw [hfil]
    apply List.filter_eq_self.mpr
    intro msg hm
    have := hfresh msg hm
    simp [bne_iff_ne, this.1, this.2]
  · rfl
  · rfl

/-- Witness for C4 (amended): one server message, the text `hi`, a failed
send: the list is back to the one server message. -/
theorem failed_send_restores_witness :
    ∃ o : Outcome,
      sendFailed ⟨5, "", 5, ""⟩ {}
        { selectedChat := some (.num 1), messageInput := "hi",
          messages := [{ id := .num 7, content := "q", role := "user",
                         status := "completed", created_at := "", message_index := 0 }] }
        = some o
      ∧ o.state.messages
          = [{ id := .num 7, content := "q", role := "user",
               status := "completed", created_at := "", message_index := 0 }] := by
  obtain ⟨o, h1, _, h3, _⟩ := failed_send_restores ⟨5, "", 5, ""⟩ {}
    { selectedChat := some (.num 1), messageInput := "hi",
      messages := [{ id := .num 7, content := "q", role := "user",
                     status := "completed", created_at := "", message_index := 0 }] }
    (by decide) (by decide)
  exact ⟨o, h1, h3 (by decide)⟩

/-- The message test of `isMessageBlocked`, spelled out. -/
theorem isOutstanding_eq_true_iff (msg : Message) :
    isOutstanding msg = true
      ↔ msg.role = "assistant" ∧ (msg.status = "pending" ∨ msg.status = "processing") := by
  simp [isOutstanding]

/-- How `isMessageBlocked` reads in terms of `isOutstanding`. -/
theorem isMessageBlocked_eq (s : ChatPageState) :
    isMessageBlocked s
      = (!truthyId s.selectedChat || s.messages.any isOutstanding || s.sendingMessage) := rfl

/-- C5: `canSend`, the negation of `isMessageBlocked`, is true exactly when a
chat is selected, no assistant message is `pending` or `processing`, and no
send is in flight; a message whose role is `user`, or whose status is
`completed` or `failed`, never blocks: its presence anywhere in the list
does not change `canSend`. -/
theorem canSend_iff (s : ChatPageState) :
    (canSend s = true
      ↔ truthyId s.selectedChat = true
        ∧ (∀ msg ∈ s.messages, msg.role = "assistant" →
            msg.status ≠ "pending" ∧ msg.status ≠ "processing")
        ∧ s.sendingMessage = false)
    ∧ ∀ (msg : Message) (before after : List Message),
        (msg.role = "user" ∨ msg.status = "completed" ∨ msg.status = "failed") →
        canSend { s with messages := before ++ msg :: after }
          = canSend { s with messages := before ++ after } := by
  constructor
  · simp only [canSend, isMessageBlocked_eq]
    constructor
    · intro h
      simp only [Bool.not_eq_true', Bool.or_eq_false_iff, Bool.not_eq_false'] at h
      obtain ⟨⟨h1, h2⟩, h3⟩ := h
      refine ⟨h1, ?_, h3⟩
      intro msg hm hr
      have hno : isOutstanding msg = false := by
        have := List.any_eq_false.mp h2 msg hm
        simpa using this
      constructor
      · intro hp
        have : isOutstanding msg = true := (isOutstanding_eq_true_iff msg).mpr ⟨hr, Or.inl hp⟩
        rw [hno] at this; cases this
      · intro hp
        have : isOutstanding msg = true := (isOutstanding_eq_true_iff msg).mpr ⟨hr, Or.inr hp⟩
        rw [hno] at this; cases this
    · rintro ⟨h1, h2, h3⟩
      have hany : s.messages.any isOutstanding = false := by
        apply List.any_eq_false.mpr
        intro msg hm ho
        obtain ⟨hr, hp⟩ := (isOutstanding_eq_true_iff msg).mp ho
        rcases hp with hp | hp
        · exact (h2 msg hm hr).1 hp
        · exact (h2 msg hm hr).2 hp
      simp [h1, h3, hany]
  · intro msg before after h
    have hno : isOutstanding msg = false := by
      rcases h with h | h | h <;> simp [isOutstanding, h]
    simp [canSend, isMessageBlocked_eq, List.any_append, hno]

/-- Witness for C5: a `failed` assistant message between two user messages
does not change the guard. -/
theorem canSend_iff_witness :
    canSend { selectedChat := some (.num 1),
              messages := [{ id := .num 7, content := "q", role := "user",
                             status := "completed", created_at := "", message_index := 0 }]
                ++ { id := .num 8, content := "", role := "assistant",
                     status := "failed", created_at := "", message_index := 1 } :: [] }
      = canSend { selectedChat := some (.num 1),
                  messages := [{ id := .num 7, content := "q", role := "user",
                                 status := "completed", created_at := "", message_index := 0 }]
                    ++ [] } :=
  (canSend_iff { selectedChat := some (.num 1) }).2
    { id := .num 8, content := "", role := "assistant",
      status := "failed", created_at := "", message_index := 1 }
    [{ id := .num 7, content := "q", role := "user",
       status := "completed", created_at := "", message_index := 0 }] []
    (Or.inr (Or.inr rfl))

/-- C6, as stated, fails: the refetched list is stored as it comes, so when
the server list itself holds an entry whose identity is `temp-5` and the
clock read 5, the final list holds the temporary identity of the send. -/
theorem refetched_list_may_hold_temp_id :
    (sendRefetched ⟨5, "", 5, ""⟩
        [{ id := .str "temp-5", content := "hi", role := "user",
           status := "completed", created_at := "", message_index := 0 }]
        { selectedChat := some (.num 1), messageInput := "hi" }).map
      (fun o => o.state.messages.map (fun msg => decide (msg.id = tempId 5)))
      = some [true] := by
  decide

/-- C6, amended: for an accepted send whose request succeeds, the success
continuation issues one message refetch for the selected chat and leaves the
optimistic list in place; when that refetch returns a server list, the final
message list is exactly the server list, so it holds one of the two
temporary identities only if the server list itself has an entry with that
identity, and none when the server list has none. -/
theorem refetch_replaces_optimistic (clk : Clock) (data : List Message) (s : ChatPageState)
    (hb : ¬ isBlank s.messageInput) (ht : truthyId s.selectedChat = true) :
    ∃ (chatId : JsId) (c : SendClosure) (o : Outcome),
      s.selectedChat = some chatId
      ∧ (handleSendMessage clk s).closure = some c
      ∧ (handleSendMessage_then c (handleSendMessage clk s).state).requests
          = [Request.getChatMessages chatId]
      ∧ (handleSendMessage_then c (handleSendMessage clk s).state).state.messages
          = s.messages ++ [optimisticUserMsg clk s, optimisticAssistantMsg clk s]
      ∧ sendRefetched clk data s = some o
      ∧ o.state.messages = data
      ∧ o.state.sendingMessage = false
      ∧ ((∀ msg ∈ data, msg.id ≠ tempId clk.now1 ∧ msg.id ≠ tempId (clk.now2 + 1)) →
          ∀ msg ∈ o.state.messages,
            msg.id ≠ tempId clk.now1 ∧ msg.id ≠ tempId (clk.now2 + 1)) := by
  obtain ⟨chatId, hs, hc⟩ := (truthyId_eq_true_iff _).mp ht
  have hacc := handleSendMessage_accept clk s chatId hb hs hc
  refine ⟨chatId, { selectedChat := chatId, userId := tempId clk.now1,
                    assistantId := tempId (clk.now2 + 1) },
    fetchMessages_then data (handleSendMessage_then
      { selectedChat := chatId, userId := tempId clk.now1,
        assistantId := tempId (clk.now2 + 1) }
      { s with
        sendingMessage := true
        messages := s.messages ++ [optimisticUserMsg clk s, optimisticAssistantMsg clk s]
        messageInput := "" }).state, hs, ?_, ?_, ?_, ?_, rfl, rfl, ?_⟩
  · rw [hacc]
  · rw [hacc]; rfl
  · rw [hacc]; rfl
  · unfold sendRefetched
    rw [hacc]
  · intro h msg hm
    exact h msg hm

/-- Witness for C6 (amended): the example of the specification, with a
server list of three records numbered 7, 8 and 9. -/
theorem refetch_replaces_optimistic_witness :
    ∃ o : Outcome,
      sendRefetched ⟨5, "", 5, ""⟩
        [{ id := .num 7, content := "q", role := "user",
           status := "completed", created_at := "", message_index := 0 },
         { id := .num 8, content := "count rows", role := "user",
           status := "completed", created_at := "", message_index := 1 },
         { id := .num 9, content := "", role := "assistant",
           status := "processing", created_at := "", message_index := 2 }]
        { selectedChat := some (.num 1), messageInput := "count rows",
          messages := [{ id := .num 7, content := "q", role := "user",
                         status := "completed", created_at := "", message_index := 0 }] }
        = some o
      ∧ ∀ msg ∈ o.state.messages, msg.id ≠ tempId 5 ∧ msg.id ≠ tempId (5 + 1) := by
  obtain ⟨_, _, o, _, _, _, _, h5, _, _, h8⟩ := refetch_replaces_optimistic ⟨5, "", 5, ""⟩
    [{ id := .num 7, content := "q", role := "user",
       status := "completed", created_at := "", message_index := 0 },
     { id := .num 8, content := "count rows", role := "user",
       status := "completed", created_at := "", message_index := 1 },
     { id := .num 9, content := "", role := "assistant",
       status := "processing", created_at := "", message_index := 2 }]
    { selectedChat := some (.num 1), messageInput := "count rows",
      messages := [{ id := .num 7, content := "q", role := "user",
                     status := "completed", created_at := "", message_index := 0 }] }
    (by decide) (by decide)
  exact ⟨o, h5, h8 (by decide)⟩

/-- C7, as stated, fails: after chat 1 was selected and its one message
loaded, selecting chat 2 leaves that message in the list while chat 2 is the
selected chat and its own load is still pending. -/
theorem switching_chat_keeps_old_messages :
    (runFrom initialState
        [Event.chatClick (.num 1),
         Event.messagesResolved
           [{ id := .num 7, content := "q", role := "user",
              status := "completed", created_at := "", message_index := 0 }],
         Event.chatClick (.num 2)]).selectedChat = some (.num 2)
    ∧ (runFrom initialState
        [Event.chatClick (.num 1),
         Event.messagesResolved
           [{ id := .num 7, content := "q", role := "user",
              status := "completed", created_at := "", message_index := 0 }],
         Event.chatClick (.num 2)]).messages
      = [{ id := .num 7, content := "q", role := "user",
           status := "completed", created_at := "", message_index := 0 }] := by
  decide

/-- The selection effect never clears `messagesLoading`. -/
theorem selectionEffect_messagesLoading (t : ChatPageState) (h : t.messagesLoading = true) :
    (selectionEffect t).state.messagesLoading = true := by
  unfold selectionEffect
  cases hs : t.selectedChat with
  | none => exact h
  | some chatId =>
    by_cases ht : chatId.truthy = true
    · simp [ht, fetchMessages]
    · simp [ht, h]

/-- Only the settling of a message fetch clears `messagesLoading`. -/
theorem step_messagesLoading (s : ChatPageState) (e : Event)
    (hset : e.settlesMessageFetch = false)
    (h : s.messagesLoading = true) : (step s e).messagesLoading = true := by
  cases e with
  | chatClick chatId =>
    simp only [step, selectChat]
    by_cases hc : s.selectedChat = some chatId
    · simp [hc, h]
    · simp only [hc, if_false]
      exact selectionEffect_messagesLoading (handleChatClick chatId s) h
  | typeMessage text =>
    simp only [step]
    by_cases hd : textFieldDisabled s = true
    · simp [hd, h]
    · simp [hd, h]
  | submit clk =>
    simp only [step, submitSendForm]
    by_cases hg : (sendFormRendered s && !sendButtonDisabled s) = true
    · simp only [hg, if_true]
      unfold handleSendMessage
      cases hs : s.selectedChat with
      | none => exact h
      | some chatId =>
        by_cases hg2 : (!truthyStr (jsTrim s.messageInput) || !chatId.truthy) = true
        · simp [hg2, h]
        · simp [hg2, h]
    · simp [hg, h]
  | sendResolved c => rfl
  | sendRejected c err => exact h
  | messagesResolved data => simp [Event.settlesMessageFetch] at hset
  | messagesRejected => simp [Event.settlesMessageFetch] at hset
  | chatsResolved data =>
    exact selectionEffect_messagesLoading { s with chats := data, loading := false } h
  | chatsRejected => exact h
  | typeTitle text => exact h
  | titleResolved c => exact selectionEffect_messagesLoading (handleUpdateTitle_then c s).state h
  | titleRejected => exact h
  | chatCreated chatId =>
    simp only [step]
    by_cases hc : s.selectedChat = some chatId
    · simp only [hc, if_true]
      exact h
    · simp only [hc, if_false]
      exact selectionEffect_messagesLoading (handleCreateChat_then chatId s).state h

/-- Along a run in which no message fetch settles, `messagesLoading` stays
true. -/
theorem runFrom_messagesLoading (es : List Event) (s : ChatPageState)
    (hset : ∀ e ∈ es, e.settlesMessageFetch = false)
    (h : s.messagesLoading = true) : (runFrom s es).messagesLoading = true := by
  induction es generalizing s with
  | nil => exact h
  | cons e rest ih =>
    exact ih (step s e)
      (fun x hx => hset x (List.mem_cons_of_mem e hx))
      (step_messagesLoading s e (hset e (List.mem_cons_self e rest)) h)

/-- C7, amended: selecting another chat B issues one message fetch for B and
does not clear the list, which right after the selection still holds the
previous chat's messages; from the selection on, whatever else happens on the
page, as long as no message fetch has settled `messagesLoading` is true and
the page does not render the message list (it renders the loading indicator
while B stays selected); a message fetch that resolves replaces the list
wholesale, so once B's fetch succeeds the list is exactly B's fetched list,
nothing of the previous list is merged in, and the list is rendered again. -/
theorem select_then_load_replaces (s : ChatPageState) (chatB : JsId) (dataB : List Message)
    (hB : chatB.truthy = true) (hne : s.selectedChat ≠ some chatB) :
    (selectChat chatB s).requests = [Request.getChatMessages chatB]
    ∧ (selectChat chatB s).state.selectedChat = some chatB
    ∧ (selectChat chatB s).state.messages = s.messages
    ∧ (selectChat chatB s).state.messagesLoading = true
    ∧ renderMainArea (selectChat chatB s).state = MainArea.spinner
    ∧ (fetchMessages_then dataB (selectChat chatB s).state).state.messages = dataB
    ∧ (fetchMessages_then dataB (selectChat chatB s).state).state.selectedChat = some chatB
    ∧ renderMainArea (fetchMessages_then dataB (selectChat chatB s).state).state
        = (if dataB.length > 0 then MainArea.messageList dataB else MainArea.emptyPrompt)
    ∧ (∀ es : List Event,
        (∀ e ∈ es, e.settlesMessageFetch = false) →
        (runFrom (selectChat chatB s).state es).messagesLoading = true
        ∧ (∀ shown, renderMainArea (runFrom (selectChat chatB s).state es)
              ≠ MainArea.messageList shown)
        ∧ ((runFrom (selectChat chatB s).state es).selectedChat = some chatB →
            renderMainArea (runFrom (selectChat chatB s).state es) = MainArea.spinner)
        ∧ (step (runFrom (selectChat chatB s).state es) (Event.messagesResolved dataB)).messages
            = dataB)
    ∧ (∀ (t : ChatPageState) (data : List Message),
        (fetchMessages_then data t).state.messages = data
        ∧ (fetchMessages_then data t).state.selectedChat = t.selectedChat) := by
  have hsel : selectChat chatB s
      = { state := { s with selectedChat := some chatB, messagesLoading := true,
                            chatTitle := ((selectionEffect (handleChatClick chatB s)).state.chatTitle) }
          requests := [Request.getChatMessages chatB] } := by
    simp [selectChat, hne, selectionEffect, handleChatClick, hB, fetchMessages]
  have hload : (selectChat chatB s).state.messagesLoading = true := by
    rw [hsel]
  refine ⟨?_, ?_, ?_, hload, ?_, ?_, ?_, ?_, ?_, ?_⟩
  · rw [hsel]
  · rw [hsel]
  · rw [hsel]
  · rw [hsel]; simp [renderMainArea, truthyId, hB]
  · rfl
  · rw [hsel]; rfl
  · rw [hsel]; simp [renderMainArea, truthyId, hB, fetchMessages_then]
  · intro es hset
    have hl := runFrom_messagesLoading es (selectChat chatB s).state hset hload
    refine ⟨hl, ?_, ?_, rfl⟩
    · intro shown
      unfold renderMainArea
      by_cases ht : truthyId (runFrom (selectChat chatB s).state es).selectedChat = true
      · simp [ht, hl]
      · simp [ht]
    · intro hsB
      unfold renderMainArea
      simp [hsB, truthyId, hB, hl]
  · intro t data
    exact ⟨rfl, rfl⟩

/-- Witness for C7 (amended): chat 1 with one message loaded, then chat 2
selected; the list is typed into and the chat list reloads while the fetch is
pending, then the fetch delivers an empty list. -/
theorem select_then_load_replaces_witness :
    (fetchMessages_then []
        (selectChat (.num 2)
          { selectedChat := some (.num 1),
            messages := [{ id := .num 7, content := "q", role := "user",
                           status := "completed", created_at := "", message_index := 0 }]
          }).state).state.messages = []
    ∧ renderMainArea
        (runFrom
          (selectChat (.num 2)
            { selectedChat := some (.num 1),
              messages := [{ id := .num 7, content := "q", role := "user",
                             status := "completed", created_at := "", message_index := 0 }]
            }).state
          [Event.typeMessage "hi", Event.chatsResolved []]) = MainArea.spinner :=
  ⟨(select_then_load_replaces
    { selectedChat := some (.num 1),
      messages := [{ id := .num 7, content := "q", role := "user",
                     status := "completed", created_at := "", message_index := 0 }] }
    (.num 2) [] (by decide) (by decide)).2.2.2.2.2.1,
   ((select_then_load_replaces
    { selectedChat := some (.num 1),
      messages := [{ id := .num 7, content := "q", role := "user",
                     status := "completed", created_at := "", message_index := 0 }] }
    (.num 2) [] (by decide) (by decide)).2.2.2.2.2.2.2.2.1
    [Event.typeMessage "hi", Event.chatsResolved []]
    (by decide)).2.2.1 (by decide)⟩

/-- Early return of `handleUpdateTitle`, in terms of the state. -/
theorem handleUpdateTitle_reject (s : ChatPageState)
    (h : isBlank s.chatTitle ∨ truthyId s.selectedChat = false) :
    handleUpdateTitle s = { state := s } := by
  unfold handleUpdateTitle
  cases hs : s.selectedChat with
  | none => rfl
  | some chatId =>
    rcases h with h | h
    · simp [truthyStr_jsTrim_of_isBlank _ h]
    · rw [hs] at h
      simp only [truthyId] at h
      simp [h]

/-- What `retitle` does to one chat record. -/
theorem retitle_spec (c : TitleClosure) (chat : Chat) :
    (retitle c chat).id = chat.id
    ∧ (retitle c chat).connections = chat.connections
    ∧ (chat.id = c.selectedChat → (retitle c chat).title = some c.chatTitle)
    ∧ (chat.id ≠ c.selectedChat → retitle c chat = chat) := by
  unfold retitle
  by_cases h : chat.id = c.selectedChat
  · simp [h]
  · simp [h]

/-- C8: `handleUpdateTitle` returns early (no request, state and chat list
unchanged) when the title is blank or no chat is selected; otherwise it
issues one update request for the selected chat with the title as typed.
When the request succeeds the chat list keeps its length and order: at every
position the chat keeps its identity and connections, gets the new title if
its identity is the selected one, and is unchanged otherwise.  When the
request fails the state, chat list included, is unchanged. -/
theorem update_title_frame (s : ChatPageState) (c : TitleClosure) :
    ((isBlank s.chatTitle ∨ truthyId s.selectedChat = false) →
        handleUpdateTitle s = { state := s, requests := [], closure := none })
    ∧ (∀ chatId, ¬ isBlank s.chatTitle → s.selectedChat = some chatId → chatId.truthy = true →
        handleUpdateTitle s
          = { state := s
              requests := [Request.updateChat chatId s.chatTitle]
              closure := some { selectedChat := chatId, chatTitle := s.chatTitle } })
    ∧ (handleUpdateTitle_then c s).state.chats.length = s.chats.length
    ∧ (∀ (i : Nat) (chat : Chat), s.chats[i]? = some chat →
        ∃ chat2 : Chat,
          (handleUpdateTitle_then c s).state.chats[i]? = some chat2
          ∧ chat2.id = chat.id
          ∧ chat2.connections = chat.connections
          ∧ (chat.id = c.selectedChat → chat2.title = some c.chatTitle)
          ∧ (chat.id ≠ c.selectedChat → chat2 = chat))
    ∧ (handleUpdateTitle_catch s).state = s := by
  refine ⟨handleUpdateTitle_reject s, ?_, ?_, ?_, rfl⟩
  · intro chatId hb hs ht
    unfold handleUpdateTitle
    rw [hs]
    simp [truthyStr_jsTrim_of_not_isBlank _ hb, ht]
  · simp [handleUpdateTitle_then]
  · intro i chat hi
    refine ⟨retitle c chat, ?_, retitle_spec c chat⟩
    simp [handleUpdateTitle_then, List.getElem?_map, hi]

/-- Witness for C8: two chats, the second selected and renamed to `Sales`. -/
theorem update_title_frame_witness :
    ∃ chat2 : Chat,
      (handleUpdateTitle_then { selectedChat := .num 2, chatTitle := "Sales" }
        { chats := [{ id := .num 1, title := some "a", connections := [] },
                    { id := .num 2, title := none, connections := [.num 4] }]
          selectedChat := some (.num 2), chatTitle := "Sales" }).state.chats[1]? = some chat2
      ∧ chat2.title = some "Sales" ∧ chat2.connections = [.num 4] := by
  obtain ⟨chat2, h1, _, h3, h4, _⟩ := (update_title_frame
    { chats := [{ id := .num 1, title := some "a", connections := [] },
                { id := .num 2, title := none, connections := [.num 4] }]
      selectedChat := some (.num 2), chatTitle := "Sales" }
    { selectedChat := .num 2, chatTitle := "Sales" }).2.2.2.1 1
    { id := .num 2, title := none, connections := [.num 4] } (by decide)
  exact ⟨chat2, h1, h4 rfl, h3⟩

/-- The selection effect leaves the message list alone or empties it. -/
theorem selectionEffect_messages (s : ChatPageState) :
    (selectionEffect s).state.messages = s.messages
    ∨ (selectionEffect s).state.messages = [] := by
  unfold selectionEffect
  cases hs : s.selectedChat with
  | none => right; rfl
  | some chatId =>
    by_cases ht : chatId.truthy = true
    · left; simp [ht, fetchMessages]
    · right; simp [ht]

/-- An enabled submit button means no outstanding assistant message. -/
theorem outstandingCount_eq_zero_of_enabled (s : ChatPageState)
    (h : sendButtonDisabled s = false) : outstandingCount s.messages = 0 := by
  unfold sendButtonDisabled at h
  rw [isMessageBlocked_eq] at h
  simp only [Bool.or_eq_false_iff] at h
  obtain ⟨_, ⟨_, hany⟩, _⟩ := h
  unfold outstandingCount
  rw [List.countP_eq_zero]
  intro msg hm
  have := List.any_eq_false.mp hany msg hm
  simpa using this

/-- A form submit keeps the number of outstanding assistant messages at
most one. -/
theorem submitSendForm_outstanding (clk : Clock) (s : ChatPageState)
    (h : outstandingCount s.messages ≤ 1) :
    outstandingCount (submitSendForm clk s).state.messages ≤ 1 := by
  unfold submitSendForm
  by_cases hd : sendButtonDisabled s = true
  · simp [hd, h]
  · simp only [Bool.not_eq_true] at hd
    have h0 := outstandingCount_eq_zero_of_enabled s hd
    by_cases hr : sendFormRendered s = true
    · simp only [hr, hd, Bool.not_false, Bool.and_self, if_true]
      unfold handleSendMessage
      cases hs : s.selectedChat with
      | none => simpa using h
      | some chatId =>
        by_cases hg : (!truthyStr (jsTrim s.messageInput) || !chatId.truthy) = true
        · simp [hg, h]
        · simp only [hg]
          unfold outstandingCount at h0 ⊢
          simp [List.countP_append, h0, List.countP_cons, isOutstanding, optimisticUserMsg,
            optimisticAssistantMsg]
    · simp [hr, h]

/-- Every admissible event keeps the number of outstanding assistant messages
at most one. -/
theorem step_outstanding (s : ChatPageState) (e : Event) (ha : e.admissible)
    (h : outstandingCount s.messages ≤ 1) : outstandingCount (step s e).messages ≤ 1 := by
  have heff : ∀ t : ChatPageState, outstandingCount t.messages ≤ 1 →
      outstandingCount (selectionEffect t).state.messages ≤ 1 := by
    intro t htm
    rcases selectionEffect_messages t with h1 | h1
    · rw [h1]; exact htm
    · rw [h1]; simp [outstandingCount]
  cases e with
  | chatClick chatId =>
    simp only [step, selectChat]
    by_cases hc : s.selectedChat = some chatId
    · simp [hc, h]
    · simp only [hc, if_false]
      exact heff _ h
  | typeMessage text =>
    simp only [step]
    by_cases hd : textFieldDisabled s = true
    · simp [hd, h]
    · simp [hd, h]
  | submit clk => exact submitSendForm_outstanding clk s h
  | sendResolved c => exact h
  | sendRejected c e =>
    simp only [step, handleSendMessage_catch, outstandingCount]
    exact le_trans (List.Sublist.countP_le _ (List.filter_sublist _)) h
  | messagesResolved data => exact ha
  | messagesRejected => exact h
  | chatsResolved data => exact heff _ h
  | chatsRejected => exact h
  | typeTitle text => exact h
  | titleResolved c => exact heff _ h
  | titleRejected => exact h
  | chatCreated chatId =>
    simp only [step]
    by_cases hc : s.selectedChat = some chatId
    · simp only [hc, if_true]
      exact h
    · simp only [hc, if_false]
      exact heff _ h

/-- The bound on outstanding assistant messages is kept along a run. -/
theorem runFrom_outstanding (es : List Event) (s : ChatPageState)
    (ha : ∀ e ∈ es, e.admissible) (h : outstandingCount s.messages ≤ 1) :
    outstandingCount (runFrom s es).messages ≤ 1 := by
  induction es generalizing s with
  | nil => exact h
  | cons e rest ih =>
    have he : e.admissible := ha e (List.mem_cons_self e rest)
    have hrest : ∀ x ∈ rest, x.admissible := fun x hx => ha x (List.mem_cons_of_mem e hx)
    exact ih (step s e) hrest (step_outstanding s e he h)

/-- C9, as stated, fails at the level of the handler: select chat 1, type
`hi`, and let the message fetch deliver a list with one pending assistant
message (every event is admissible and the list has one outstanding
message); `handleSendMessage`, called in that state, appends a second pending
placeholder. -/
theorem handler_send_adds_second_outstanding :
    (∀ e ∈ [Event.chatClick (.num 1), Event.typeMessage "hi",
            Event.messagesResolved
              [{ id := .num 7, content := "", role := "assistant",
                 status := "pending", created_at := "", message_index := 0 }]],
        e.admissible)
    ∧ outstandingCount (runFrom initialState
        [Event.chatClick (.num 1), Event.typeMessage "hi",
         Event.messagesResolved
           [{ id := .num 7, content := "", role := "assistant",
              status := "pending", created_at := "", message_index := 0 }]]).messages = 1
    ∧ outstandingCount (handleSendMessage ⟨5, "", 5, ""⟩
        (runFrom initialState
          [Event.chatClick (.num 1), Event.typeMessage "hi",
           Event.messagesResolved
             [{ id := .num 7, content := "", role := "assistant",
                status := "pending", created_at := "", message_index := 0 }]])).state.messages
      = 2 := by
  decide

/-- C9, amended: in every state reached from the initial state of the page by
chat selections, typing, submits of the rendered send form (whose submit
button is disabled while `isMessageBlocked()`), completions and rollbacks of
sends, and message refetches whose server list has at most one outstanding
assistant message, at most one assistant message of the list is `pending` or
`processing`; `handleSendMessage` itself does not keep the bound: every call
it accepts (text not blank, a chat selected) raises the number of outstanding
assistant messages by one, and every call it rejects leaves it alone. -/
theorem at_most_one_outstanding (es : List Event) (ha : ∀ e ∈ es, e.admissible) :
    outstandingCount (runFrom initialState es).messages ≤ 1
    ∧ (∀ (clk : Clock) (s : ChatPageState),
        ¬ isBlank s.messageInput → truthyId s.selectedChat = true →
        outstandingCount (handleSendMessage clk s).state.messages
          = outstandingCount s.messages + 1)
    ∧ (∀ (clk : Clock) (s : ChatPageState),
        (isBlank s.messageInput ∨ truthyId s.selectedChat = false) →
        outstandingCount (handleSendMessage clk s).state.messages
          = outstandingCount s.messages) := by
  refine ⟨runFrom_outstanding es initialState ha (by decide), ?_, ?_⟩
  · intro clk s hb ht
    obtain ⟨chatId, hs, hc⟩ := (truthyId_eq_true_iff _).mp ht
    rw [handleSendMessage_accept clk s chatId hb hs hc]
    simp [outstandingCount, List.countP_append, List.countP_cons, isOutstanding,
      optimisticUserMsg, optimisticAssistantMsg]
  · intro clk s h
    rw [handleSendMessage_reject clk s h]

/-- Witness for C9 (amended): select a chat, load an empty list, type, submit,
then try to type and submit again while the reply is pending. -/
theorem at_most_one_outstanding_witness :
    outstandingCount (runFrom initialState
      [Event.chatClick (.num 1), Event.messagesResolved [], Event.typeMessage "hi",
       Event.submit ⟨5, "", 5, ""⟩, Event.typeMessage "again",
       Event.submit ⟨9, "", 9, ""⟩]).messages ≤ 1
    ∧ (runFrom initialState
      [Event.chatClick (.num 1), Event.messagesResolved [], Event.typeMessage "hi",
       Event.submit ⟨5, "", 5, ""⟩, Event.typeMessage "again",
       Event.submit ⟨9, "", 9, ""⟩]).messages.length = 2 :=
  ⟨(at_most_one_outstanding
    [Event.chatClick (.num 1), Event.messagesResolved [], Event.typeMessage "hi",
     Event.submit ⟨5, "", 5, ""⟩, Event.typeMessage "again",
     Event.submit ⟨9, "", 9, ""⟩]
    (by decide)).1, by decide⟩

/-- C10, as stated, fails: a list whose only entry has `message_index` 1 (a
server numbering from 1) is strictly increasing, but the optimistic entries
get the indices 1 and 2, so the list after the send reads 1, 1, 2. -/
theorem optimistic_index_not_ordered :
    indexOrdered
      [{ id := .num 7, content := "q", role := "user",
         status := "completed", created_at := "", message_index := 1 }]
    ∧ ¬ indexOrdered
        (handleSendMessage ⟨5, "", 5, ""⟩
          { selectedChat := some (.num 1), messageInput := "hi",
            messages := [{ id := .num 7, content := "q", role := "user",
                           status := "completed", created_at := "", message_index := 1 }]
          }).state.messages
    ∧ (handleSendMessage ⟨5, "", 5, ""⟩
          { selectedChat := some (.num 1), messageInput := "hi",
            messages := [{ id := .num 7, content := "q", role := "user",
                           status := "completed", created_at := "", message_index := 1 }]
          }).state.messages.map (fun msg => msg.message_index) = [1, 1, 2] := by
  decide

/-- C10, amended: for every message list whose `message_index` values are
strictly increasing and all below the length of the list (as in a list
numbered from 0), the list produced by an accepted send, whose two
optimistic entries get the indices length and length + 1, is again strictly
increasing in `message_index`; the pending assistant placeholder is the last
entry and the entry right before it is the user message carrying the text
that was sent. -/
theorem optimistic_update_keeps_order (clk : Clock) (s : ChatPageState)
    (hb : ¬ isBlank s.messageInput) (ht : truthyId s.selectedChat = true)
    (hord : indexOrdered s.messages)
    (hlt : ∀ msg ∈ s.messages, msg.message_index < (s.messages.length : Int)) :
    indexOrdered (handleSendMessage clk s).state.messages
    ∧ ∃ u a : Message,
        (handleSendMessage clk s).state.messages = s.messages ++ [u, a]
        ∧ u.message_index = (s.messages.length : Int)
        ∧ a.message_index = (s.messages.length : Int) + 1
        ∧ u.role = "user" ∧ u.content = s.messageInput
        ∧ a.role = "assistant" ∧ a.status = "pending"
        ∧ (handleSendMessage clk s).state.messages[s.messages.length]? = some u
        ∧ (handleSendMessage clk s).state.messages[s.messages.length + 1]? = some a := by
  obtain ⟨chatId, hs, hc⟩ := (truthyId_eq_true_iff _).mp ht
  rw [handleSendMessage_accept clk s chatId hb hs hc]
  constructor
  · unfold indexOrdered at hord ⊢
    simp only [List.map_append, List.map_cons, List.map_nil]
    rw [List.pairwise_append]
    refine ⟨hord, ?_, ?_⟩
    · simp [optimisticUserMsg, optimisticAssistantMsg]
    · intro x hx y hy
      obtain ⟨msg, hm, rfl⟩ := List.mem_map.mp hx
      have hmlt := hlt msg hm
      simp only [List.mem_cons, List.mem_singleton, optimisticUserMsg, optimisticAssistantMsg,
        List.not_mem_nil, or_false] at hy
      rcases hy with hy | hy
      · rw [hy]; exact hmlt
      · rw [hy]; omega
  · refine ⟨optimisticUserMsg clk s, optimisticAssistantMsg clk s, rfl, rfl, rfl, rfl, rfl,
      rfl, rfl, ?_, ?_⟩
    · rw [List.getElem?_append_right (le_refl _)]
      simp
    · rw [List.getElem?_append_right (Nat.le_succ _)]
      simp

/-- Witness for C10 (amended): the example of the specification, one message
with index 0. -/
theorem optimistic_update_keeps_order_witness :
    indexOrdered
      (handleSendMessage ⟨5, "", 5, ""⟩
        { selectedChat := some (.num 1), messageInput := "count rows",
          messages := [{ id := .num 7, content := "q", role := "user",
                         status := "completed", created_at := "", message_index := 0 }]
        }).state.messages :=
  (optimistic_update_keeps_order ⟨5, "", 5, ""⟩
    { selectedChat := some (.num 1), messageInput := "count rows",
      messages := [{ id := .num 7, content := "q", role := "user",
                     status := "completed", created_at := "", message_index := 0 }] }
    (by decide) (by decide) (by decide) (by decide)).1

/-- Every entry of the list left by `handleSendMessage` is an entry of the
list before or one of the two optimistic entries. -/
theorem handleSendMessage_mem (clk : Clock) (s : ChatPageState) (m : Message)
    (h : m ∈ (handleSendMessage clk s).state.messages) :
    m ∈ s.messages ∨ m = optimisticUserMsg clk s ∨ m = optimisticAssistantMsg clk s := by
  unfold handleSendMessage at h
  cases hs : s.selectedChat with
  | none => rw [hs] at h; exact Or.inl h
  | some chatId =>
    rw [hs] at h
    by_cases hg : (!truthyStr (jsTrim s.messageInput) || !chatId.truthy) = true
    · simp only [hg, if_true] at h
      exact Or.inl h
    · simp only [hg] at h
      simp only [Bool.false_eq_true, if_false, List.mem_append, List.mem_cons,
        List.mem_singleton, List.not_mem_nil, or_false] at h
      rcases h with h | h | h
      · exact Or.inl h
      · exact Or.inr (Or.inl h)
      · exact Or.inr (Or.inr h)

/-- C11, as stated, fails: after a chat is selected, a text typed and the
form submitted, with no backend response in the run, the list holds a
message whose status `completed` was set by the client. -/
theorem client_sets_completed :
    (runFrom initialState
        [Event.chatClick (.num 1), Event.typeMessage "hi",
         Event.submit ⟨5, "", 5, ""⟩]).messages.map (fun msg => (msg.role, msg.status))
      = [("user", "completed"), ("assistant", "pending")] := by
  decide

/-- The list left by `handleSendMessage` is the list before, or the list
before followed by the two optimistic entries. -/
theorem handleSendMessage_messages (clk : Clock) (s : ChatPageState) :
    (handleSendMessage clk s).state.messages = s.messages
    ∨ (handleSendMessage clk s).state.messages
        = s.messages ++ [optimisticUserMsg clk s, optimisticAssistantMsg clk s] := by
  unfold handleSendMessage
  cases hs : s.selectedChat with
  | none => exact Or.inl rfl
  | some chatId =>
    by_cases hg : (!truthyStr (jsTrim s.messageInput) || !chatId.truthy) = true
    · left; simp [hg]
    · right; simp [hg]

/-- What one event does to the message list: it leaves the list as it is,
empties it, appends the two optimistic entries of a send, removes entries by
identity (rollback), or replaces the list by the list a message fetch
delivered. -/
theorem step_messages_shape (s : ChatPageState) (e : Event) :
    (step s e).messages = s.messages
    ∨ (step s e).messages = []
    ∨ (∃ clk, e = Event.submit clk
        ∧ (step s e).messages
            = s.messages ++ [optimisticUserMsg clk s, optimisticAssistantMsg clk s])
    ∨ (∃ c err, e = Event.sendRejected c err
        ∧ (step s e).messages
            = s.messages.filter (fun msg => msg.id != c.userId && msg.id != c.assistantId))
    ∨ (∃ data, e = Event.messagesResolved data ∧ (step s e).messages = data) := by
  have heff : ∀ t : ChatPageState, t.messages = s.messages →
      (selectionEffect t).state.messages = s.messages
      ∨ (selectionEffect t).state.messages = [] := by
    intro t ht
    rcases selectionEffect_messages t with h1 | h1
    · left; rw [h1, ht]
    · right; exact h1
  cases e with
  | chatClick chatId =>
    simp only [step, selectChat]
    by_cases hc : s.selectedChat = some chatId
    · simp [hc]
    · simp only [hc, if_false]
      rcases heff (handleChatClick chatId s) rfl with h | h
      · exact Or.inl h
      · exact Or.inr (Or.inl h)
  | typeMessage text =>
    simp only [step]
    by_cases hd : textFieldDisabled s = true
    · simp [hd]
    · simp [hd]
  | submit clk =>
    simp only [step, submitSendForm]
    by_cases hg : (sendFormRendered s && !sendButtonDisabled s) = true
    · simp only [hg, if_true]
      rcases handleSendMessage_messages clk s with h | h
      · exact Or.inl h
      · exact Or.inr (Or.inr (Or.inl ⟨clk, rfl, h⟩))
    · simp [hg]
  | sendResolved c => exact Or.inl rfl
  | sendRejected c err => exact Or.inr (Or.inr (Or.inr (Or.inl ⟨c, err, rfl, rfl⟩)))
  | messagesResolved data => exact Or.inr (Or.inr (Or.inr (Or.inr ⟨data, rfl, rfl⟩)))
  | messagesRejected => exact Or.inl rfl
  | chatsResolved data =>
    rcases heff { s with chats := data, loading := false } rfl with h | h
    · exact Or.inl h
    · exact Or.inr (Or.inl h)
  | chatsRejected => exact Or.inl rfl
  | typeTitle text => exact Or.inl rfl
  | titleResolved c =>
    rcases heff (handleUpdateTitle_then c s).state rfl with h | h
    · exact Or.inl h
    · exact Or.inr (Or.inl h)
  | titleRejected => exact Or.inl rfl
  | chatCreated chatId =>
    simp only [step]
    by_cases hc : s.selectedChat = some chatId
    · simp only [hc, if_true]
      exact Or.inl rfl
    · simp only [hc, if_false]
      rcases heff (handleCreateChat_then chatId s).state rfl with h | h
      · exact Or.inl h
      · exact Or.inr (Or.inl h)

/-- Along a run, every entry of the message list was in the list at the
start, is a record delivered by a message fetch of the run, or is one of the
two optimistic entries built by a submit of the run, in the state that submit
found. -/
theorem runFrom_provenance (es : List Event) (s : ChatPageState) (m : Message)
    (h : m ∈ (runFrom s es).messages) :
    m ∈ s.messages
    ∨ (∃ data, Event.messagesResolved data ∈ es ∧ m ∈ data)
    ∨ (∃ pre clk post, es = pre ++ Event.submit clk :: post
        ∧ (m = optimisticUserMsg clk (runFrom s pre)
           ∨ m = optimisticAssistantMsg clk (runFrom s pre))) := by
  induction es generalizing s with
  | nil => exact Or.inl h
  | cons e rest ih =>
    have h2 : m ∈ (runFrom (step s e) rest).messages := h
    rcases ih (step s e) h2 with h3 | ⟨data, hd, hm⟩ | ⟨pre, clk, post, hes, hm⟩
    · rcases step_messages_shape s e with h4 | h4 | ⟨clk, he, h4⟩ | ⟨c, err, _, h4⟩
          | ⟨data, he, h4⟩
      · rw [h4] at h3; exact Or.inl h3
      · rw [h4] at h3; cases h3
      · rw [h4] at h3
        simp only [List.mem_append, List.mem_cons, List.mem_singleton, List.not_mem_nil,
          or_false] at h3
        rcases h3 with h5 | h5
        · exact Or.inl h5
        · exact Or.inr (Or.inr ⟨[], clk, rest, by rw [he]; rfl, h5⟩)
      · rw [h4] at h3; exact Or.inl (List.mem_of_mem_filter h3)
      · rw [h4] at h3
        exact Or.inr (Or.inl ⟨data, by rw [he]; exact List.mem_cons_self _ _, h3⟩)
    · exact Or.inr (Or.inl ⟨data, List.mem_cons_of_mem e hd, hm⟩)
    · exact Or.inr (Or.inr ⟨e :: pre, clk, post, by rw [hes]; rfl, hm⟩)

/-- C11, amended: the client sets a status only on the two messages it
creates in a send, `completed` on the optimistic user message and `pending`
on the assistant placeholder, and it never rewrites an entry of the list.
Every operation of the page leaves the message list as it is, empties it,
appends the two optimistic entries, removes entries by identity (rollback),
or replaces the list by the list a message fetch delivered; so in every run
each entry of the list is, field for field, a record delivered by a message
fetch of that run or one of the two optimistic entries built by a submit of
that run, and an entry with status `processing` or `failed` was read from a
backend response. -/
theorem status_provenance (es : List Event) (clk : Clock) (s : ChatPageState) :
    (∀ m ∈ (runFrom initialState es).messages,
        (∃ data, Event.messagesResolved data ∈ es ∧ m ∈ data)
        ∨ (m.role = "user" ∧ m.status = "completed")
        ∨ (m.role = "assistant" ∧ m.status = "pending"))
    ∧ (∀ m ∈ (runFrom initialState es).messages,
        (m.status = "processing" ∨ m.status = "failed") →
        ∃ data, Event.messagesResolved data ∈ es ∧ m ∈ data)
    ∧ (∀ m ∈ (handleSendMessage clk s).state.messages,
        m ∈ s.messages
        ∨ (m.role = "user" ∧ m.status = "completed")
        ∨ (m.role = "assistant" ∧ m.status = "pending"))
    ∧ (∀ m ∈ (runFrom initialState es).messages,
        (∃ data, Event.messagesResolved data ∈ es ∧ m ∈ data)
        ∨ (∃ pre clk2 post, es = pre ++ Event.submit clk2 :: post
            ∧ (m = optimisticUserMsg clk2 (runFrom initialState pre)
               ∨ m = optimisticAssistantMsg clk2 (runFrom initialState pre))))
    ∧ (∀ (t : ChatPageState) (e : Event),
        (step t e).messages = t.messages
        ∨ (step t e).messages = []
        ∨ (∃ clk2, e = Event.submit clk2
            ∧ (step t e).messages
                = t.messages ++ [optimisticUserMsg clk2 t, optimisticAssistantMsg clk2 t])
        ∨ (∃ c err, e = Event.sendRejected c err
            ∧ (step t e).messages
                = t.messages.filter (fun msg => msg.id != c.userId && msg.id != c.assistantId))
        ∨ (∃ data, e = Event.messagesResolved data ∧ (step t e).messages = data))
    ∧ ((handleSendMessage clk s).state.messages = s.messages
        ∨ (handleSendMessage clk s).state.messages
            = s.messages ++ [optimisticUserMsg clk s, optimisticAssistantMsg clk s])
    ∧ (∀ (c : SendClosure) (err : ApiError),
        (handleSendMessage_then c s).state.messages = s.messages
        ∧ (handleSendMessage_catch c err s).state.messages
            = s.messages.filter (fun msg => msg.id != c.userId && msg.id != c.assistantId))
    ∧ (∀ chatId data, (fetchMessages chatId s).state.messages = s.messages
        ∧ (fetchMessages_then data s).state.messages = data
        ∧ (fetchMessages_catch s).state.messages = s.messages)
    ∧ ((optimisticUserMsg clk s).role = "user" ∧ (optimisticUserMsg clk s).status = "completed"
        ∧ (optimisticAssistantMsg clk s).role = "assistant"
        ∧ (optimisticAssistantMsg clk s).status = "pending")
    ∧ ((selectionEffect s).state.messages = s.messages
        ∨ (selectionEffect s).state.messages = []) := by
  have hprov : ∀ m ∈ (runFrom initialState es).messages,
      (∃ data, Event.messagesResolved data ∈ es ∧ m ∈ data)
      ∨ (∃ pre clk2 post, es = pre ++ Event.submit clk2 :: post
          ∧ (m = optimisticUserMsg clk2 (runFrom initialState pre)
             ∨ m = optimisticAssistantMsg clk2 (runFrom initialState pre))) := by
    intro m hm
    rcases runFrom_provenance es initialState m hm with h | h | h
    · cases h
    · exact Or.inl h
    · exact Or.inr h
  have hrun : ∀ m ∈ (runFrom initialState es).messages,
      (∃ data, Event.messagesResolved data ∈ es ∧ m ∈ data)
      ∨ (m.role = "user" ∧ m.status = "completed")
      ∨ (m.role = "assistant" ∧ m.status = "pending") := by
    intro m hm
    rcases hprov m hm with h | ⟨pre, clk2, post, _, h | h⟩
    · exact Or.inl h
    · right; left; rw [h]; exact ⟨rfl, rfl⟩
    · right; right; rw [h]; exact ⟨rfl, rfl⟩
  refine ⟨hrun, ?_, ?_, hprov, step_messages_shape, handleSendMessage_messages clk s, ?_, ?_,
    ⟨rfl, rfl, rfl, rfl⟩, selectionEffect_messages s⟩
  · intro m hm hst
    rcases hrun m hm with h | ⟨_, h⟩ | ⟨_, h⟩
    · exact h
    · rcases hst with h2 | h2 <;> rw [h] at h2 <;> exact absurd h2 (by decide)
    · rcases hst with h2 | h2 <;> rw [h] at h2 <;> exact absurd h2 (by decide)
  · intro m hm
    rcases handleSendMessage_mem clk s m hm with h | h | h
    · exact Or.inl h
    · right; left; rw [h]; exact ⟨rfl, rfl⟩
    · right; right; rw [h]; exact ⟨rfl, rfl⟩
  · intro c err
    exact ⟨rfl, rfl⟩
  · intro chatId data
    exact ⟨rfl, rfl, rfl⟩

/-- Witness for C11 (amended): a run in which the backend delivers a
`failed` assistant message. -/
theorem status_provenance_witness :
    ∃ data,
      Event.messagesResolved data ∈
        [Event.chatClick (.num 1),
         Event.messagesResolved
           [{ id := .num 8, content := "", role := "assistant",
              status := "failed", created_at := "", message_index := 1 }]]
      ∧ ({ id := .num 8, content := "", role := "assistant",
           status := "failed", created_at := "", message_index := 1 } : Message) ∈ data :=
  (status_provenance
    [Event.chatClick (.num 1),
     Event.messagesResolved
       [{ id := .num 8, content := "", role := "assistant",
          status := "failed", created_at := "", message_index := 1 }]]
    ⟨5, "", 5, ""⟩ {}).2.1
    { id := .num 8, content := "", role := "assistant",
      status := "failed", created_at := "", message_index := 1 }
    (by decide) (Or.inr rfl)

/-- What `handleSave` does once the required fields are filled and the port
text parses to a number in range. -/
theorem handleSave_valid (s : ConnectionsPageState) (port : Int)
    (hm : missingFields s.formData = [])
    (hp : jsParseInt s.formData.port = some port) (h1 : 1 ≤ port) (h2 : port ≤ 65535) :
    ConnectionsPage.handleSave s =
      match s.selectedConnection with
      | some selected =>
        { state := { s with saving := true }
          requests := [ConnectionRequest.updateConnection selected.id
            (if !truthyStr s.formData.password
              then { payloadOfForm s.formData port with password := none }
              else payloadOfForm s.formData port)]
          pending := some SaveKind.update }
      | none =>
        if !truthyStr s.formData.password then
          { state := { s with saving := false }
            toasts := [Toast.error "Password is required for new connections"] }
        else
          { state := { s with saving := true }
            requests := [ConnectionRequest.createConnection (payloadOfForm s.formData port)]
            pending := some SaveKind.create } := by
  have hr : ¬ (port ≤ 0 ∨ 65535 < port) := by omega
  unfold ConnectionsPage.handleSave
  simp only [hm, hp, List.length_nil, gt_iff_lt, lt_self_iff_false, if_false]
  simp [hr]

/-- Every request issued by `ConnectionsPage.handleSave` carries the number
read from the port text by `parseInt`, and that number is in 1..65535; the
required fields are then all non-empty. -/
theorem handleSave_port_in_range (s : ConnectionsPageState) (r : ConnectionRequest)
    (h : r ∈ (ConnectionsPage.handleSave s).requests) :
    missingFields s.formData = []
    ∧ ∃ port : Int, jsParseInt s.formData.port = some port ∧ 1 ≤ port ∧ port ≤ 65535
        ∧ ((∃ selected, s.selectedConnection = some selected
              ∧ ∃ payload, r = ConnectionRequest.updateConnection selected.id payload
                  ∧ payload.port = port)
           ∨ (s.selectedConnection = none
              ∧ r = ConnectionRequest.createConnection (payloadOfForm s.formData port))) := by
  unfold ConnectionsPage.handleSave at h
  by_cases hm : (missingFields s.formData).length > 0
  · simp [hm] at h
  · simp only [hm, if_false] at h
    have hm0 : missingFields s.formData = [] := by
      cases hl : missingFields s.formData with
      | nil => rfl
      | cons a t => rw [hl] at hm; simp at hm
    refine ⟨hm0, ?_⟩
    cases hp : jsParseInt s.formData.port with
    | none => rw [hp] at h; simp at h
    | some port =>
      rw [hp] at h
      by_cases hr : (decide (port ≤ 0) || decide (port > 65535)) = true
      · simp [hr] at h
      · simp only [hr] at h
        have hr2 : ¬ (port ≤ 0 ∨ port > 65535) := by
          simpa using hr
        refine ⟨port, rfl, by omega, by omega, ?_⟩
        cases hsel : s.selectedConnection with
        | some selected =>
          rw [hsel] at h
          simp only [Bool.false_eq_true, if_false, List.mem_singleton] at h
          left
          refine ⟨selected, rfl, _, h, ?_⟩
          by_cases hpw : truthyStr s.formData.password = true
          · simp [hpw, payloadOfForm]
          · simp [hpw, payloadOfForm]
        | none =>
          rw [hsel] at h
          right
          refine ⟨rfl, ?_⟩
          by_cases hpw : truthyStr s.formData.password = true
          · simpa [hpw] using h
          · simp [hpw] at h

/-- `parseInt` reads the leading digits of the port text: the text `80abc`
is saved as port 80. -/
theorem handleSave_reads_leading_digits :
    (ConnectionsPage.handleSave
        { formData := { connection_name := "a", host := "db", port := "80abc", username := "u",
                        password := "p", database_name := "d", schema_name := "s" } }).requests
      = [ConnectionRequest.createConnection
          { connection_name := "a", host := "db", port := 80, username := "u",
            password := some "p", database_name := "d", schema_name := "s" }] := by
  decide

/-- C12: the code breaks the claim.  In the new-connection form of the
connections page, a connection name made of one space passes the
required-field test of `handleSave`, which only rejects empty strings, and
the create request is issued with that name; `ConnectionForm`, whose
`validate` trims, issues no request for the same fields. -/
theorem handleSave_accepts_blank_name :
    isBlank " "
    ∧ (ConnectionsPage.handleSave
        { formData := { connection_name := " ", host := "db", port := "5432", username := "u",
                        password := "p", database_name := "d", schema_name := "s" } }).requests
      = [ConnectionRequest.createConnection
          { connection_name := " ", host := "db", port := 5432, username := "u",
            password := some "p", database_name := "d", schema_name := "s" }]
    ∧ (ConnectionForm.handleSubmit
        { formData := { connection_name := " ", host := "db", port := PortValue.num 5432,
                        username := "u", password := "p", database_name := "d",
                        schema_name := "s" } }).requests = [] := by
  decide

/-- C13: the code breaks the claim.  In `ConnectionForm`, typing 70000 (or
-5) in the port field stores that number, `validate` only asks for a truthy
port, and `handleSubmit` posts the form with port 70000 (or -5);
`ConnectionsPage.handleSave` rejects the same text with the toast `Please
enter a valid port number (1-65535)`. -/
theorem connectionForm_posts_port_out_of_range :
    (ConnectionForm.handleSubmit
        (ConnectionForm.handleChange "port" "70000"
          { formData := { connection_name := "a", host := "db", username := "u",
                          password := "p", database_name := "d", schema_name := "s" } })).requests
      = [ConnectionRequest.createConnection
          { connection_name := "a", host := "db", port := 70000, username := "u",
            password := some "p", database_name := "d", schema_name := "s" }]
    ∧ (ConnectionForm.handleSubmit
        (ConnectionForm.handleChange "port" "-5"
          { formData := { connection_name := "a", host := "db", username := "u",
                          password := "p", database_name := "d", schema_name := "s" } })).requests
      = [ConnectionRequest.createConnection
          { connection_name := "a", host := "db", port := -5, username := "u",
            password := some "p", database_name := "d", schema_name := "s" }]
    ∧ (ConnectionsPage.handleSave
        { formData := { connection_name := "a", host := "db", port := "70000", username := "u",
                        password := "p", database_name := "d", schema_name := "s" } }).requests
      = []
    ∧ (ConnectionsPage.handleSave
        { formData := { connection_name := "a", host := "db", port := "70000", username := "u",
                        password := "p", database_name := "d", schema_name := "s" } }).toasts
      = [Toast.error "Please enter a valid port number (1-65535)"] := by
  decide

/-- C14: with the required fields filled and a port in range, a create with
an empty password issues no request (one error toast instead); an update
with an empty password issues one update request whose payload has no
password field; an update with a non-empty password issues one update
request whose payload carries that password; a create with a non-empty
password issues one create request carrying it. -/
theorem password_required_only_on_create (s : ConnectionsPageState) (port : Int)
    (hm : missingFields s.formData = [])
    (hp : jsParseInt s.formData.port = some port) (h1 : 1 ≤ port) (h2 : port ≤ 65535) :
    (s.selectedConnection = none → s.formData.password = "" →
        (ConnectionsPage.handleSave s).requests = []
        ∧ (ConnectionsPage.handleSave s).toasts
            = [Toast.error "Password is required for new connections"])
    ∧ (∀ selected, s.selectedConnection = some selected → s.formData.password = "" →
        (ConnectionsPage.handleSave s).requests
          = [ConnectionRequest.updateConnection selected.id
              { payloadOfForm s.formData port with password := none }])
    ∧ (∀ selected, s.selectedConnection = some selected → s.formData.password ≠ "" →
        (ConnectionsPage.handleSave s).requests
          = [ConnectionRequest.updateConnection selected.id (payloadOfForm s.formData port)]
        ∧ (payloadOfForm s.formData port).password = some s.formData.password)
    ∧ (s.selectedConnection = none → s.formData.password ≠ "" →
        (ConnectionsPage.handleSave s).requests
          = [ConnectionRequest.createConnection (payloadOfForm s.formData port)]
        ∧ (payloadOfForm s.formData port).password = some s.formData.password) := by
  have hv := handleSave_valid s port hm hp h1 h2
  refine ⟨?_, ?_, ?_, ?_⟩
  · intro hsel hpw
    rw [hv, hsel]
    simp [truthyStr, hpw]
  · intro selected hsel hpw
    rw [hv, hsel]
    simp [truthyStr, hpw]
  · intro selected hsel hpw
    rw [hv, hsel]
    simp [truthyStr, hpw, payloadOfForm]
  · intro hsel hpw
    rw [hv, hsel]
    simp [truthyStr, hpw, payloadOfForm]

/-- Witness for C14: an update of connection 1 with the password left
empty. -/
theorem password_required_only_on_create_witness :
    (ConnectionsPage.handleSave
        { selectedConnection := some
            { id := .num 1, connection_name := "a", host := "db", port := 5432,
              username := "u", database_name := "d", schema_name := "s" }
          formData := { connection_name := "a", host := "db", port := "5432", username := "u",
                        password := "", database_name := "d", schema_name := "s" } }).requests
      = [ConnectionRequest.updateConnection (.num 1)
          { payloadOfForm
              { connection_name := "a", host := "db", port := "5432", username := "u",
                password := "", database_name := "d", schema_name := "s" } 5432
            with password := none }] :=
  (password_required_only_on_create
    { selectedConnection := some
        { id := .num 1, connection_name := "a", host := "db", port := 5432,
          username := "u", database_name := "d", schema_name := "s" }
      formData := { connection_name := "a", host := "db", port := "5432", username := "u",
                    password := "", database_name := "d", schema_name := "s" } }
    5432 (by decide) (by decide) (by decide) (by decide)).2.1
    { id := .num 1, connection_name := "a", host := "db", port := 5432,
      username := "u", database_name := "d", schema_name := "s" } rfl rfl

/-- Selecting in a list whose records had their password fields rewritten
finds the record at the same place. -/
theorem find_map_password (g : Connection → Option String) (connectionId : JsId)
    (l : List Connection) :
    (l.map (fun c => { c with password := g c })).find? (fun c => c.id == connectionId)
      = (l.find? (fun c => c.id == connectionId)).map (fun c => { c with password := g c }) := by
  induction l with
  | nil => rfl
  | cons a t ih =>
    by_cases h : (a.id == connectionId) = true
    · simp [List.find?, h]
    · simp only [Bool.not_eq_true] at h
      simp only [List.map_cons, List.find?, h]
      exact ih

/-- The requests of `handleSave` depend on the selected record only through
its identity. -/
theorem handleSave_requests_congr (s t : ConnectionsPageState)
    (hf : s.formData = t.formData)
    (hid : s.selectedConnection.map (fun c => c.id) = t.selectedConnection.map (fun c => c.id)) :
    (ConnectionsPage.handleSave s).requests = (ConnectionsPage.handleSave t).requests := by
  unfold ConnectionsPage.handleSave
  rw [hf]
  by_cases hm : (missingFields t.formData).length > 0
  · simp [hm]
  · simp only [hm, if_false]
    cases hp : jsParseInt t.formData.port with
    | none => rfl
    | some port =>
      by_cases hr : (decide (port ≤ 0) || decide (port > 65535)) = true
      · simp [hr]
      · simp only [hr]
        cases hs : s.selectedConnection with
        | none =>
          cases ht : t.selectedConnection with
          | none =>
            by_cases hpw : truthyStr t.formData.password = true
            · simp [hpw]
            · simp [hpw]
          | some b => rw [hs, ht] at hid; simp at hid
        | some a =>
          cases ht : t.selectedConnection with
          | none => rw [hs, ht] at hid; simp at hid
          | some b =>
            rw [hs, ht] at hid
            simp only [Option.map_some', Option.some.injEq] at hid
            simp [hid]

/-- C15: the form state built when a connection is selected has an empty
password whatever the record holds, so lists of records that differ only in
their password fields give the same form state for every selection and the
same requests on save; and a save with a connection selected and nothing
typed in the password field issues only update requests without a password
field. -/
theorem password_never_round_tripped (s : ConnectionsPageState) (connectionId : JsId)
    (g : Connection → Option String) :
    (∀ c : Connection, (formOfConnection c).password = "")
    ∧ (∀ s2, ConnectionsPage.handleConnectionSelect connectionId s = some s2 →
        s2.formData.password = "")
    ∧ (ConnectionsPage.handleConnectionSelect connectionId
          { s with connections := s.connections.map (fun c => { c with password := g c }) }).map
        (fun s2 => s2.formData)
      = (ConnectionsPage.handleConnectionSelect connectionId s).map (fun s2 => s2.formData)
    ∧ (ConnectionsPage.handleConnectionSelect connectionId
          { s with connections := s.connections.map (fun c => { c with password := g c }) }).map
        (fun s2 => (ConnectionsPage.handleSave s2).requests)
      = (ConnectionsPage.handleConnectionSelect connectionId s).map
        (fun s2 => (ConnectionsPage.handleSave s2).requests)
    ∧ (∀ selected, s.selectedConnection = some selected → s.formData.password = "" →
        ∀ r ∈ (ConnectionsPage.handleSave s).requests,
          ∃ payload, r = ConnectionRequest.updateConnection selected.id payload
            ∧ payload.password = none) := by
  refine ⟨fun _ => rfl, ?_, ?_, ?_, ?_⟩
  · intro s2 h
    unfold ConnectionsPage.handleConnectionSelect at h
    cases hf : s.connections.find? (fun c => c.id == connectionId) with
    | none => rw [hf] at h; cases h
    | some c =>
      rw [hf] at h
      simp only [Option.some.injEq] at h
      rw [← h]
      rfl
  · unfold ConnectionsPage.handleConnectionSelect
    simp only [find_map_password]
    cases hf : s.connections.find? (fun c => c.id == connectionId) with
    | none => rfl
    | some c => rfl
  · unfold ConnectionsPage.handleConnectionSelect
    simp only [find_map_password]
    cases hf : s.connections.find? (fun c => c.id == connectionId) with
    | none => rfl
    | some c =>
      simp only [Option.map_some']
      congr 1
      apply handleSave_requests_congr
      · rfl
      · rfl
  · intro selected hsel hpw r hr
    obtain ⟨_, port, _, _, _, hcase⟩ := handleSave_port_in_range s r hr
    unfold ConnectionsPage.handleSave at hr
    rcases hcase with ⟨sel2, hsel2, _⟩ | ⟨hnone, _⟩
    · rw [hsel] at hsel2
      by_cases hm : (missingFields s.formData).length > 0
      · simp [hm] at hr
      · simp only [hm, if_false] at hr
        cases hp : jsParseInt s.formData.port with
        | none => rw [hp] at hr; simp at hr
        | some port2 =>
          rw [hp] at hr
          by_cases hrange : (decide (port2 ≤ 0) || decide (port2 > 65535)) = true
          · simp [hrange] at hr
          · simp only [hrange, hsel] at hr
            simp only [Bool.false_eq_true, if_false, List.mem_singleton] at hr
            refine ⟨_, hr, ?_⟩
            simp [truthyStr, hpw]
    · rw [hsel] at hnone
      cases hnone

/-- Witness for C15: a record whose password field holds `secret`. -/
theorem password_never_round_tripped_witness :
    ∀ s2, ConnectionsPage.handleConnectionSelect (.num 1)
        { connections :=
            [{ id := .num 1, connection_name := "a", host := "db", port := 5432, username := "u",
               password := some "secret", database_name := "d", schema_name := "s" }] } = some s2 →
      s2.formData.password = "" :=
  (password_never_round_tripped
    { connections :=
        [{ id := .num 1, connection_name := "a", host := "db", port := 5432, username := "u",
           password := some "secret", database_name := "d", schema_name := "s" }] }
    (.num 1) (fun _ => none)).2.1

/-- C16: the code breaks the claim.  On the connections page a click on the
delete icon runs `handleDelete`, which issues the DELETE request for the
selected connection at once: the handler has no confirmation step.
`ConnectionsList.handleDelete` does ask: it issues the request only when
`window.confirm` returned true. -/
theorem page_delete_needs_no_confirmation :
    (ConnectionsPage.clickDelete
        { loading := false, activeTab := 1
          selectedConnection := some
            { id := .num 1, connection_name := "a", host := "db", port := 5432,
              username := "u", database_name := "d", schema_name := "s" } }).requests
      = [ConnectionRequest.deleteConnection (.num 1)]
    ∧ (ConnectionsList.handleDelete (.num 1) false {}).requests = []
    ∧ (ConnectionsList.handleDelete (.num 1) true {}).requests
      = [ConnectionRequest.deleteConnection (.num 1)] := by
  decide

/-- Looking up a key that is not among the keys finds nothing. -/
theorem lookup_eq_none_of_not_mem {β : Type} (l : List (String × β)) (k : String)
    (h : k ∉ l.map Prod.fst) : l.lookup k = none := by
  induction l with
  | nil => rfl
  | cons p rest ih =>
    obtain ⟨a, b⟩ := p
    simp only [List.map_cons, List.mem_cons, not_or] at h
    have hk : (k == a) = false := by simpa using h.1
    simp [List.lookup, hk, ih h.2]

/-- Looking up a key that is among the keys finds a value. -/
theorem lookup_eq_some_of_mem {β : Type} (l : List (String × β)) (k : String)
    (h : k ∈ l.map Prod.fst) : ∃ v, l.lookup k = some v := by
  induction l with
  | nil => simp at h
  | cons p rest ih =>
    obtain ⟨a, b⟩ := p
    by_cases hk : k = a
    · exact ⟨b, by simp [List.lookup, hk]⟩
    · simp only [List.map_cons, List.mem_cons, hk, false_or] at h
      obtain ⟨v, hv⟩ := ih h
      have hk2 : (k == a) = false := by simpa using hk
      exact ⟨v, by simp [List.lookup, hk2, hv]⟩

/-- A read of a key that is neither stored nor inherited finds `undefined`. -/
theorem readProperty_undefined {α : Type} (obj : List (String × α)) (key : String)
    (h1 : obj.lookup key = none) (h2 : key ∉ objectPrototypeNames) :
    readProperty obj key = PropertyRead.undefined := by
  unfold readProperty
  rw [h1, lookup_eq_none_of_not_mem objectPrototypeMembers key h2]

/-- A read of a stored key finds the stored value. -/
theorem readProperty_own {α : Type} (obj : List (String × α)) (key : String) (v : α)
    (h : obj.lookup key = some v) : readProperty obj key = PropertyRead.own v := by
  unfold readProperty
  rw [h]

/-- A read of an inherited name never finds `undefined`. -/
theorem readProperty_inherited {α : Type} (obj : List (String × α)) (key : String)
    (h : key ∈ objectPrototypeNames) : readProperty obj key ≠ PropertyRead.undefined := by
  unfold readProperty
  cases obj.lookup key with
  | some v => simp
  | none =>
    obtain ⟨len, hlen⟩ := lookup_eq_some_of_mem objectPrototypeMembers key h
    simp [hlen]

/-- `handleTableExpand` on the expanded table: a collapse. -/
theorem handleTableExpand_collapse (tableName : String) (t : ConnectionDetailsState)
    (h : t.expandedTable = some tableName) :
    ConnectionDetails.handleTableExpand tableName t
      = { state := { t with expandedTable := none } } := by
  simp [ConnectionDetails.handleTableExpand, h]

/-- `handleTableExpand` on a table whose column list is stored: no request. -/
theorem handleTableExpand_cached (tableName : String) (t : ConnectionDetailsState)
    (h1 : t.expandedTable ≠ some tableName) (h2 : (t.columns.lookup tableName).isSome = true) :
    ConnectionDetails.handleTableExpand tableName t
      = { state := { t with expandedTable := some tableName } } := by
  obtain ⟨v, hv⟩ := Option.isSome_iff_exists.mp h2
  simp [ConnectionDetails.handleTableExpand, h1, readProperty_own _ _ _ hv]

/-- `handleTableExpand` on a table that is neither expanded nor stored, and
whose name is not inherited: one request. -/
theorem handleTableExpand_fetch (tableName : String) (t : ConnectionDetailsState)
    (shown : Connection) (h0 : t.connection = some shown)
    (h1 : t.expandedTable ≠ some tableName) (h2 : t.columns.lookup tableName = none)
    (h3 : tableName ∉ objectPrototypeNames) :
    ConnectionDetails.handleTableExpand tableName t
      = { state := { t with
                     expandedTable := some tableName
                     loadingColumns := (tableName, true) :: t.loadingColumns }
          requests := [ConnectionRequest.getTableColumns shown.id tableName]
          closure := some { tableName := tableName, columns := t.columns
                            loadingColumns := t.loadingColumns } } := by
  simp [ConnectionDetails.handleTableExpand, h0, h1, readProperty_undefined _ _ h2 h3]

/-- C17, as stated, fails.  In `ConnectionsList`, expanding table `users` of
connection 1, collapsing it and expanding it again while the first column
request is still pending issues two column requests, and so does the same
sequence when the first request was rejected before the collapse.  In
`ConnectionDetails`, for a table named `constructor` the test
`!columns[tableName]` finds the inherited member, so the same sequence, with
the answer at any time, issues no column request at all. -/
theorem expand_twice_may_fetch_twice :
    (ConnectionsList.expandCollapseExpand (.num 1) "users" AnswerArrival.stillPending {}).requests
      = [ConnectionRequest.getTableColumns (.num 1) "users",
         ConnectionRequest.getTableColumns (.num 1) "users"]
    ∧ (ConnectionsList.expandCollapseExpand (.num 1) "users"
        (AnswerArrival.beforeCollapse ColumnsAnswer.rejected) {}).requests
      = [ConnectionRequest.getTableColumns (.num 1) "users",
         ConnectionRequest.getTableColumns (.num 1) "users"]
    ∧ (ConnectionDetails.expandCollapseExpand "users" AnswerArrival.stillPending
        { connection := some
            { id := .num 1, connection_name := "a", host := "db", port := 5432,
              username := "u", database_name := "d", schema_name := "s" } }).requests
      = [ConnectionRequest.getTableColumns (.num 1) "users",
         ConnectionRequest.getTableColumns (.num 1) "users"]
    ∧ (ConnectionDetails.expandCollapseExpand "constructor"
        (AnswerArrival.beforeCollapse (ColumnsAnswer.resolved ["id"]))
        { connection := some
            { id := .num 1, connection_name := "a", host := "db", port := 5432,
              username := "u", database_name := "d", schema_name := "s" } }).requests
      = [] := by
  decide

/-- C17, amended: for every connection and table not yet expanded nor cached
(in `ConnectionDetails`, a table whose name is not the name of a member of
`Object.prototype`), the first expansion issues one column request; when that
request resolves with a column list before the table is expanded again,
whether before or after the collapse, expand, collapse, expand issues exactly
one column request in all and ends with the table expanded and the fetched
list cached; a collapse issues no request and leaves the cache alone; an
expansion of a table whose list is cached issues no request and leaves the
cache alone; and when the first request is still pending or was rejected at
the second expansion, that expansion issues a second request.  This holds for
`ConnectionsList.toggleTable` and for `ConnectionDetails.handleTableExpand`. -/
theorem expand_twice_fetches_once (connectionId : JsId) (tableName : String) (data : List String)
    (s : ConnectionsListState) (d : ConnectionDetailsState) (shown : Connection)
    (hs1 : s.expandedTable ≠ some (tableKey connectionId tableName))
    (hs2 : s.columns.lookup (tableKey connectionId tableName) = none)
    (hd0 : d.connection = some shown)
    (hd1 : d.expandedTable ≠ some tableName)
    (hd2 : d.columns.lookup tableName = none)
    (hd3 : tableName ∉ objectPrototypeNames) :
    ((ConnectionsList.toggleTable connectionId tableName s).requests
        = [ConnectionRequest.getTableColumns connectionId tableName]
      ∧ (∀ arrival, arrival = AnswerArrival.beforeCollapse (ColumnsAnswer.resolved data)
            ∨ arrival = AnswerArrival.beforeSecondExpand (ColumnsAnswer.resolved data) →
          (ConnectionsList.expandCollapseExpand connectionId tableName arrival s).requests
            = [ConnectionRequest.getTableColumns connectionId tableName]
          ∧ (ConnectionsList.expandCollapseExpand connectionId tableName arrival
              s).state.expandedTable = some (tableKey connectionId tableName)
          ∧ (ConnectionsList.expandCollapseExpand connectionId tableName arrival
              s).state.columns.lookup (tableKey connectionId tableName) = some data)
      ∧ (∀ arrival, arrival = AnswerArrival.stillPending
            ∨ arrival = AnswerArrival.beforeCollapse ColumnsAnswer.rejected
            ∨ arrival = AnswerArrival.beforeSecondExpand ColumnsAnswer.rejected →
          (ConnectionsList.expandCollapseExpand connectionId tableName arrival s).requests
            = [ConnectionRequest.getTableColumns connectionId tableName,
               ConnectionRequest.getTableColumns connectionId tableName])
      ∧ (∀ t : ConnectionsListState, t.expandedTable = some (tableKey connectionId tableName) →
          (ConnectionsList.toggleTable connectionId tableName t).requests = []
          ∧ (ConnectionsList.toggleTable connectionId tableName t).state.expandedTable = none
          ∧ (ConnectionsList.toggleTable connectionId tableName t).state.columns = t.columns)
      ∧ (∀ t : ConnectionsListState, t.expandedTable ≠ some (tableKey connectionId tableName) →
          t.columns.lookup (tableKey connectionId tableName) = some data →
          (ConnectionsList.toggleTable connectionId tableName t).requests = []
          ∧ (ConnectionsList.toggleTable connectionId tableName t).state.expandedTable
              = some (tableKey connectionId tableName)
          ∧ (ConnectionsList.toggleTable connectionId tableName t).state.columns = t.columns))
    ∧ ((ConnectionDetails.handleTableExpand tableName d).requests
        = [ConnectionRequest.getTableColumns shown.id tableName]
      ∧ (∀ arrival, arrival = AnswerArrival.beforeCollapse (ColumnsAnswer.resolved data)
            ∨ arrival = AnswerArrival.beforeSecondExpand (ColumnsAnswer.resolved data) →
          (ConnectionDetails.expandCollapseExpand tableName arrival d).requests
            = [ConnectionRequest.getTableColumns shown.id tableName]
          ∧ (ConnectionDetails.expandCollapseExpand tableName arrival d).state.expandedTable
              = some tableName
          ∧ (ConnectionDetails.expandCollapseExpand tableName arrival d).state.columns.lookup
              tableName = some data)
      ∧ (∀ arrival, arrival = AnswerArrival.stillPending
            ∨ arrival = AnswerArrival.beforeCollapse ColumnsAnswer.rejected
            ∨ arrival = AnswerArrival.beforeSecondExpand ColumnsAnswer.rejected →
          (ConnectionDetails.expandCollapseExpand tableName arrival d).requests
            = [ConnectionRequest.getTableColumns shown.id tableName,
               ConnectionRequest.getTableColumns shown.id tableName])
      ∧ (∀ t : ConnectionDetailsState, t.expandedTable = some tableName →
          (ConnectionDetails.handleTableExpand tableName t).requests = []
          ∧ (ConnectionDetails.handleTableExpand tableName t).state.expandedTable = none
          ∧ (ConnectionDetails.handleTableExpand tableName t).state.columns = t.columns)
      ∧ (∀ t : ConnectionDetailsState, t.expandedTable ≠ some tableName →
          t.columns.lookup tableName = some data →
          (ConnectionDetails.handleTableExpand tableName t).requests = []
          ∧ (ConnectionDetails.handleTableExpand tableName t).state.expandedTable
              = some tableName
          ∧ (ConnectionDetails.handleTableExpand tableName t).state.columns = t.columns)) := by
  have hexp := handleTableExpand_fetch tableName d shown hd0 hd1 hd2 hd3
  constructor
  · refine ⟨?_, ?_, ?_, ?_, ?_⟩
    · simp [ConnectionsList.toggleTable, hs1, hs2]
    · rintro arrival (rfl | rfl) <;>
        simp [ConnectionsList.expandCollapseExpand, ConnectionsList.toggleTable,
          ConnectionsList.toggleTable_settle, ConnectionsList.toggleTable_then,
          AnswerArrival.early, AnswerArrival.late, hs1, hs2, List.lookup]
    · rintro arrival (rfl | rfl | rfl) <;>
        simp [ConnectionsList.expandCollapseExpand, ConnectionsList.toggleTable,
          ConnectionsList.toggleTable_settle, ConnectionsList.toggleTable_catch,
          AnswerArrival.early, AnswerArrival.late, hs1, hs2, List.lookup]
    · intro t ht
      simp [ConnectionsList.toggleTable, ht]
    · intro t ht1 ht2
      simp [ConnectionsList.toggleTable, ht1, ht2]
  · refine ⟨?_, ?_, ?_, ?_, ?_⟩
    · rw [hexp]
    · rintro arrival (rfl | rfl)
      · have e3 := handleTableExpand_collapse tableName
          { d with expandedTable := some tableName
                   columns := (tableName, data) :: d.columns
                   loadingColumns := (tableName, false) :: d.loadingColumns } rfl
        have e5 := handleTableExpand_cached tableName
          { d with expandedTable := none
                   columns := (tableName, data) :: d.columns
                   loadingColumns := (tableName, false) :: d.loadingColumns }
          (by simp) (by simp [List.lookup])
        simp [ConnectionDetails.expandCollapseExpand, hexp,
          ConnectionDetails.handleTableExpand_settle, ConnectionDetails.handleTableExpand_then,
          AnswerArrival.early, AnswerArrival.late, e3, e5, List.lookup]
      · have e3 := handleTableExpand_collapse tableName
          { d with expandedTable := some tableName
                   loadingColumns := (tableName, true) :: d.loadingColumns } rfl
        have e5 := handleTableExpand_cached tableName
          { d with expandedTable := none
                   columns := (tableName, data) :: d.columns
                   loadingColumns := (tableName, false) :: d.loadingColumns }
          (by simp) (by simp [List.lookup])
        simp [ConnectionDetails.expandCollapseExpand, hexp,
          ConnectionDetails.handleTableExpand_settle, ConnectionDetails.handleTableExpand_then,
          AnswerArrival.early, AnswerArrival.late, e3, e5, List.lookup]
    · rintro arrival (rfl | rfl | rfl)
      · have e3 := handleTableExpand_collapse tableName
          { d with expandedTable := some tableName
                   loadingColumns := (tableName, true) :: d.loadingColumns } rfl
        have e5 := handleTableExpand_fetch tableName
          { d with expandedTable := none
                   loadingColumns := (tableName, true) :: d.loadingColumns }
          shown hd0 (by simp) hd2 hd3
        simp [ConnectionDetails.expandCollapseExpand, hexp,
          ConnectionDetails.handleTableExpand_settle,
          AnswerArrival.early, AnswerArrival.late, e3, e5]
      · have e3 := handleTableExpand_collapse tableName
          { d with expandedTable := some tableName
                   loadingColumns := (tableName, false) :: d.loadingColumns } rfl
        have e5 := handleTableExpand_fetch tableName
          { d with expandedTable := none
                   loadingColumns := (tableName, false) :: d.loadingColumns }
          shown hd0 (by simp) hd2 hd3
        simp [ConnectionDetails.expandCollapseExpand, hexp,
          ConnectionDetails.handleTableExpand_settle, ConnectionDetails.handleTableExpand_catch,
          AnswerArrival.early, AnswerArrival.late, e3, e5]
      · have e3 := handleTableExpand_collapse tableName
          { d with expandedTable := some tableName
                   loadingColumns := (tableName, true) :: d.loadingColumns } rfl
        have e5 := handleTableExpand_fetch tableName
          { d with expandedTable := none
                   loadingColumns := (tableName, false) :: d.loadingColumns }
          shown hd0 (by simp) hd2 hd3
        simp [ConnectionDetails.expandCollapseExpand, hexp,
          ConnectionDetails.handleTableExpand_settle, ConnectionDetails.handleTableExpand_catch,
          AnswerArrival.early, AnswerArrival.late, e3, e5]
    · intro t ht
      rw [handleTableExpand_collapse tableName t ht]
      exact ⟨rfl, rfl, rfl⟩
    · intro t ht1 ht2
      rw [handleTableExpand_cached tableName t ht1 (by rw [ht2]; rfl)]
      exact ⟨rfl, rfl, rfl⟩

/-- Witness for C17 (amended): connection 1, table `users`, both components
in their initial state, the answer arriving after the collapse. -/
theorem expand_twice_fetches_once_witness :
    (ConnectionsList.expandCollapseExpand (.num 1) "users"
        (AnswerArrival.beforeSecondExpand (ColumnsAnswer.resolved ["id", "email"])) {}).requests
      = [ConnectionRequest.getTableColumns (.num 1) "users"]
    ∧ (ConnectionDetails.expandCollapseExpand "users"
        (AnswerArrival.beforeSecondExpand (ColumnsAnswer.resolved ["id", "email"]))
        { connection := some
            { id := .num 1, connection_name := "a", host := "db", port := 5432,
              username := "u", database_name := "d", schema_name := "s" } }).requests
      = [ConnectionRequest.getTableColumns (.num 1) "users"] :=
  ⟨((expand_twice_fetches_once (.num 1) "users" ["id", "email"] {}
    { connection := some
        { id := .num 1, connection_name := "a", host := "db", port := 5432,
          username := "u", database_name := "d", schema_name := "s" } }
    { id := .num 1, connection_name := "a", host := "db", port := 5432,
      username := "u", database_name := "d", schema_name := "s" }
    (by decide) (by decide) rfl (by decide) (by decide) (by decide)).1.2.1
      (AnswerArrival.beforeSecondExpand (ColumnsAnswer.resolved ["id", "email"]))
      (Or.inr rfl)).1,
   ((expand_twice_fetches_once (.num 1) "users" ["id", "email"] {}
    { connection := some
        { id := .num 1, connection_name := "a", host := "db", port := 5432,
          username := "u", database_name := "d", schema_name := "s" } }
    { id := .num 1, connection_name := "a", host := "db", port := 5432,
      username := "u", database_name := "d", schema_name := "s" }
    (by decide) (by decide) rfl (by decide) (by decide) (by decide)).2.2.1
      (AnswerArrival.beforeSecondExpand (ColumnsAnswer.resolved ["id", "email"]))
      (Or.inr rfl)).1⟩

/-- C18: the code breaks the claim.  `ConnectionDetails` keys its column
cache by table name only and keeps its state when the page selects another
connection.  With the columns of `users` loaded for connection 1, after
connection 2 is selected the table `users` is still expanded and shows the
columns of connection 1; collapsing and expanding it issues no request and
shows them again.  `ConnectionsList`, whose key holds the connection, issues
a column request for connection 2 in the same situation. -/
theorem details_cache_ignores_connection :
    (ConnectionDetails.afterSwitch
        { id := .num 1, connection_name := "a", host := "db", port := 5432,
          username := "u", database_name := "d", schema_name := "s" }
        { id := .num 2, connection_name := "b", host := "db", port := 5432,
          username := "u", database_name := "e", schema_name := "s" }
        ["users"] "users" ["id", "email"]).connection.map (fun c => c.id) = some (.num 2)
    ∧ ConnectionDetails.renderColumns "users"
        (ConnectionDetails.afterSwitch
          { id := .num 1, connection_name := "a", host := "db", port := 5432,
            username := "u", database_name := "d", schema_name := "s" }
          { id := .num 2, connection_name := "b", host := "db", port := 5432,
            username := "u", database_name := "e", schema_name := "s" }
          ["users"] "users" ["id", "email"])
      = ColumnsArea.columnTable ["id", "email"]
    ∧ (ConnectionDetails.handleTableExpand "users"
        (ConnectionDetails.handleTableExpand "users"
          (ConnectionDetails.afterSwitch
            { id := .num 1, connection_name := "a", host := "db", port := 5432,
              username := "u", database_name := "d", schema_name := "s" }
            { id := .num 2, connection_name := "b", host := "db", port := 5432,
              username := "u", database_name := "e", schema_name := "s" }
            ["users"] "users" ["id", "email"])).state).requests = []
    ∧ ConnectionDetails.renderColumns "users"
        (ConnectionDetails.handleTableExpand "users"
          (ConnectionDetails.handleTableExpand "users"
            (ConnectionDetails.afterSwitch
              { id := .num 1, connection_name := "a", host := "db", port := 5432,
                username := "u", database_name := "d", schema_name := "s" }
              { id := .num 2, connection_name := "b", host := "db", port := 5432,
                username := "u", database_name := "e", schema_name := "s" }
              ["users"] "users" ["id", "email"])).state).state
      = ColumnsArea.columnTable ["id", "email"]
    ∧ (ConnectionsList.toggleTable (.num 2) "users"
        (ConnectionsList.toggleTable_then (.num 1) "users" ["id", "email"]
          (ConnectionsList.toggleTable (.num 1) "users" {}).state).state).requests
      = [ConnectionRequest.getTableColumns (.num 2) "users"] := by
  decide

/-- C19: `toggleConnection` issues a table-list request exactly when the
row was not the expanded one and no table list is cached under the
connection's key; a collapse issues none and leaves the cache as it is; and
after a table list was fetched successfully, an empty list included,
collapsing and expanding the connection again issues no further request. -/
theorem tables_fetched_once (connectionId : JsId) (ts : List String) (message : Option String)
    (s : ConnectionsListState) :
    ((ConnectionsList.toggleConnection connectionId s).requests
        = (if s.expandedConnection ≠ some connectionId
              ∧ s.tables.lookup connectionId.toKey = none
            then [ConnectionRequest.getConnectionTables connectionId] else []))
    ∧ (s.expandedConnection = some connectionId →
        (ConnectionsList.toggleConnection connectionId s).requests = []
        ∧ (ConnectionsList.toggleConnection connectionId s).state.expandedConnection = none
        ∧ (ConnectionsList.toggleConnection connectionId s).state.tables = s.tables)
    ∧ (∀ r ∈ (ConnectionsList.toggleConnection connectionId s).requests,
        r = ConnectionRequest.getConnectionTables connectionId
        ∧ (ConnectionsList.toggleConnection connectionId s).state.expandedConnection
            = some connectionId
        ∧ s.tables.lookup connectionId.toKey = none)
    ∧ (s.expandedConnection ≠ some connectionId →
        s.tables.lookup connectionId.toKey = none →
        (ConnectionsList.expandConnectionTwice connectionId ts message s).requests
          = [ConnectionRequest.getConnectionTables connectionId]
        ∧ (ConnectionsList.expandConnectionTwice connectionId ts message s).state.tables.lookup
            connectionId.toKey = some ts
        ∧ (ConnectionsList.expandConnectionTwice connectionId ts message
            s).state.expandedConnection = some connectionId) := by
  refine ⟨?_, ?_, ?_, ?_⟩
  · unfold ConnectionsList.toggleConnection
    by_cases h1 : s.expandedConnection = some connectionId
    · simp [h1]
    · cases h2 : s.tables.lookup connectionId.toKey with
      | none => simp [h1]
      | some v => simp [h1]
  · intro h1
    simp [ConnectionsList.toggleConnection, h1]
  · intro r hr
    unfold ConnectionsList.toggleConnection at hr ⊢
    by_cases h1 : s.expandedConnection = some connectionId
    · simp [h1] at hr
    · cases h2 : s.tables.lookup connectionId.toKey with
      | none =>
        simp only [h1, h2, if_false, Option.isNone_none, if_true, List.mem_singleton] at hr
        simp [h1, h2, hr]
      | some v => simp [h1, h2] at hr
  · intro h1 h2
    simp [ConnectionsList.expandConnectionTwice, ConnectionsList.toggleConnection,
      ConnectionsList.toggleConnection_then, h1, h2, List.lookup]

/-- Witness for C19: connection 1 whose table list comes back empty. -/
theorem tables_fetched_once_witness :
    (ConnectionsList.expandConnectionTwice (.num 1) [] none {}).requests
      = [ConnectionRequest.getConnectionTables (.num 1)] :=
  ((tables_fetched_once (.num 1) [] none {}).2.2.2 (by decide) (by decide)).1

/-- The texts built with `||` agree with the text of the specification
unless the message field is the empty string. -/
theorem sendErrorText_eq_spec (e : ApiError) (h : e.serverMessage ≠ some "") :
    sendErrorText e = specNotificationText e "Failed to send message"
    ∧ saveErrorText e = specNotificationText e "Failed to save connection" := by
  unfold sendErrorText saveErrorText specNotificationText
  cases hm : e.serverMessage with
  | none => exact ⟨rfl, rfl⟩
  | some m =>
    have hne : m ≠ "" := by
      intro h0; rw [hm, h0] at h; exact h rfl
    simp [truthyStr, hne]

/-- C20, as stated, fails: when the message fetch is rejected with a response
whose message field is `boom`, the one notification raised reads `Failed to
fetch messages`, not `boom`; and when the connection fetch of the create-chat
dialog is rejected, no notification is raised. -/
theorem fetch_failure_ignores_server_message :
    specNotificationText { serverMessage := some "boom" } "Failed to fetch messages" = "boom"
    ∧ (fetchMessages_catch {}).toasts = [Toast.error "Failed to fetch messages"]
    ∧ (fetchMessages_catch {}).toasts
        ≠ [Toast.error
            (specNotificationText { serverMessage := some "boom" } "Failed to fetch messages")]
    ∧ CreateChatModal.fetchConnections_catch.2 = [] := by
  decide

/-- C20, amended: a failed request raises exactly one error notification at
each of the call sites send message, save connection, fetch messages, fetch
chats, update title, create chat, fetch connections of the connections page
and delete connection.  At send message and save connection its text is the
message field of the error response when that field is a non-empty string
and a generic fallback otherwise; at the other six call sites it is a fixed
generic text, whatever the response carries. -/
theorem failure_notifications (e : ApiError) (c : SendClosure) (s : ChatPageState)
    (p : ConnectionsPageState) :
    (handleSendMessage_catch c e s).toasts = [Toast.error (sendErrorText e)]
    ∧ (ConnectionsPage.handleSave_catch e p).toasts = [Toast.error (saveErrorText e)]
    ∧ (∀ m, e.serverMessage = some m → m ≠ "" → sendErrorText e = m ∧ saveErrorText e = m)
    ∧ ((e.serverMessage = none ∨ e.serverMessage = some "") →
        sendErrorText e = "Failed to send message"
        ∧ saveErrorText e = "Failed to save connection")
    ∧ (fetchMessages_catch s).toasts = [Toast.error "Failed to fetch messages"]
    ∧ (fetchChats_catch s).toasts = [Toast.error "Failed to fetch chats"]
    ∧ (handleUpdateTitle_catch s).toasts = [Toast.error "Failed to update chat title"]
    ∧ (handleCreateChat_catch s).toasts = [Toast.error "Failed to create chat"]
    ∧ (ConnectionsPage.fetchConnections_catch p).toasts
        = [Toast.error "Failed to fetch connections"]
    ∧ (ConnectionsPage.handleDelete_catch p).toasts
        = [Toast.error "Failed to delete connection"] := by
  refine ⟨rfl, rfl, ?_, ?_, rfl, rfl, rfl, rfl, rfl, rfl⟩
  · intro m hm hne
    simp [sendErrorText, saveErrorText, hm, truthyStr, hne]
  · intro h
    rcases h with h | h
    · simp [sendErrorText, saveErrorText, h]
    · simp [sendErrorText, saveErrorText, h, truthyStr]

/-- Witness for C20 (amended): a rejected send whose response carries the
message `quota exceeded`. -/
theorem failure_notifications_witness :
    sendErrorText { serverMessage := some "quota exceeded" } = "quota exceeded"
    ∧ saveErrorText { serverMessage := some "quota exceeded" } = "quota exceeded" :=
  (failure_notifications { serverMessage := some "quota exceeded" }
    { selectedChat := .num 1, userId := tempId 5, assistantId := tempId 6 } {} {}).2.2.1
    "quota exceeded" rfl (by decide)

/-- C21, as stated, fails: `ConnectionDetails` showing the table list
`users`, whose table-list request is rejected (as after the page selected
another connection), ends with an empty table list. -/
theorem details_failure_clears_tables :
    (ConnectionDetails.fetchTables_catch
        { connection := some
            { id := .num 2, connection_name := "b", host := "db", port := 5432,
              username := "u", database_name := "e", schema_name := "s" }
          tables := ["users"], loadingTables := true }).state.tables = []
    ∧ (ConnectionDetails.fetchTables_catch
        { connection := some
            { id := .num 2, connection_name := "b", host := "db", port := 5432,
              username := "u", database_name := "e", schema_name := "s" }
          tables := ["users"], loadingTables := true }).state.tables ≠ ["users"] := by
  decide

/-- C21, amended: when the request for the chat list, the message list, the
connection list, a table list in `ConnectionsList` or a column list (in
`ConnectionsList` or `ConnectionDetails`) fails, the corresponding list or
cache held in view state is the same after the failure as before it; when the
table-list request of `ConnectionDetails` fails, its table list is set to
the empty list. -/
theorem failed_fetch_keeps_lists (s : ChatPageState) (p : ConnectionsPageState)
    (l : ConnectionsListState) (d : ConnectionDetailsState) (connectionId : JsId)
    (tableName : String) (c : ExpandClosure) :
    (fetchChats_catch s).state.chats = s.chats
    ∧ (fetchMessages_catch s).state.messages = s.messages
    ∧ (ConnectionsPage.fetchConnections_catch p).state.connections = p.connections
    ∧ (ConnectionsList.toggleConnection_catch connectionId l).state.tables = l.tables
    ∧ (ConnectionsList.toggleTable_catch connectionId tableName l).state.columns = l.columns
    ∧ (ConnectionDetails.handleTableExpand_catch c d).state.columns = d.columns
    ∧ (ConnectionDetails.fetchTables_catch d).state.tables = [] :=
  ⟨rfl, rfl, rfl, rfl, rfl, rfl, rfl⟩

/-- C22: every operation of the API client issues the method and path of the
interface table, the identifiers put into the path as they are written:
`getTableColumns(c, t)` is GET `/connection/c/tables/t/columns`,
`updateConnection` and `deleteConnection` are PUT and DELETE on
`/connection/c`, `getChatMessages` and `sendMessage` are GET and POST on
`/chat/chats/k/messages`, and so on for the other rows; the only configured
header is `Content-Type`. -/
theorem api_paths (c k m : JsId) (t : String) :
    connectionApi.getAllConnections = ⟨"GET", "/connection/all"⟩
    ∧ connectionApi.createConnection = ⟨"POST", "/connection/connect"⟩
    ∧ connectionApi.updateConnection c = ⟨"PUT", "/connection/" ++ c.toKey⟩
    ∧ connectionApi.deleteConnection c = ⟨"DELETE", "/connection/" ++ c.toKey⟩
    ∧ connectionApi.getConnectionTables c = ⟨"GET", "/connection/" ++ c.toKey ++ "/tables"⟩
    ∧ connectionApi.getTableColumns c t
        = ⟨"GET", "/connection/" ++ c.toKey ++ "/tables/" ++ t ++ "/columns"⟩
    ∧ chatApi.getAllChats = ⟨"GET", "/chat/chats"⟩
    ∧ chatApi.getChat k = ⟨"GET", "/chat/chats/" ++ k.toKey⟩
    ∧ chatApi.createChat = ⟨"POST", "/chat/chats"⟩
    ∧ chatApi.updateChat k = ⟨"PUT", "/chat/chats/" ++ k.toKey⟩
    ∧ chatApi.getChatMessages k = ⟨"GET", "/chat/chats/" ++ k.toKey ++ "/messages"⟩
    ∧ chatApi.sendMessage k = ⟨"POST", "/chat/chats/" ++ k.toKey ++ "/messages"⟩
    ∧ chatApi.getMessage m = ⟨"GET", "/chat/chats/messages/" ++ m.toKey⟩
    ∧ apiHeaders.map (fun h => h.1) = ["Content-Type"]
    ∧ connectionApi.getTableColumns (.num 7) "users"
        = ⟨"GET", "/connection/7/tables/users/columns"⟩
    ∧ connectionApi.getTableColumns (.str "c-1") "sales data"
        = ⟨"GET", "/connection/c-1/tables/sales data/columns"⟩
    ∧ (chatApi.sendMessage (.num 3)).path = "/chat/chats/3/messages" := by
  refine ⟨rfl, rfl, rfl, rfl, rfl, rfl, rfl, rfl, rfl, rfl, rfl, rfl, rfl, rfl, ?_, ?_, ?_⟩
  · decide
  · decide
  · decide

/-- The test of a string field in a condition. -/
theorem truthyField_some (t : String) (h : t ≠ "") : truthyField (some t) = some t := by
  simp [truthyField, truthyStr, h]

/-- C23: for an assistant message with status `completed` whose
`result_content` carries an error (a non-empty `error` field, the test the
code makes), `renderContent` returns the inline error with that text and no
data table, and the chat page shows the same text inline and no result
block; rendering raises no notification, it only returns a view.  With
status `completed`, a `result_content` and no error (the field missing or
empty) it returns the table built from `columns` and `data`, each replaced by
the empty list when missing. -/
theorem completed_error_rendered_inline (message : Message) (rc : ResultContent)
    (hrole : message.role = "assistant") (hstatus : message.status = "completed")
    (hrc : message.result_content = some rc) :
    (∀ e, rc.error = some e → e ≠ "" →
        ChatMessage.renderContent message = MessageView.inlineError e
        ∧ ChatPage.inlineError message = some e
        ∧ ChatPage.showsResult message = false)
    ∧ ((rc.error = none ∨ rc.error = some "") →
        ChatMessage.renderContent message
          = MessageView.resultTable (rc.columns.getD []) (rc.data.getD [])
              (truthyField message.generated_code)
        ∧ ChatPage.inlineError message = none) := by
  constructor
  · intro e he hne
    simp [ChatMessage.renderContent, ChatPage.inlineError, ChatPage.showsResult, hrole, hstatus,
      hrc, he, truthyField_some e hne]
  · intro h
    have ht : truthyField rc.error = none := by
      rcases h with h | h
      · rw [h]; rfl
      · rw [h]; rfl
    simp [ChatMessage.renderContent, ChatPage.inlineError, hrole, hstatus, hrc, ht]

/-- Witness for C23: a completed assistant message whose result holds the
error `relation does not exist`. -/
theorem completed_error_rendered_inline_witness :
    ChatMessage.renderContent
        { id := .num 9, content := "", role := "assistant", status := "completed",
          created_at := "", message_index := 2
          result_content := some { error := some "relation does not exist" } }
      = MessageView.inlineError "relation does not exist" :=
  ((completed_error_rendered_inline
    { id := .num 9, content := "", role := "assistant", status := "completed",
      created_at := "", message_index := 2
      result_content := some { error := some "relation does not exist" } }
    { error := some "relation does not exist" } rfl rfl rfl).1
    "relation does not exist" rfl (by decide)).1

/-- The port slot written by `handleChange` is never the number 0. -/
theorem portOfInput_ne_zero (value : String) : portOfInput value ≠ PortValue.num 0 := by
  unfold portOfInput
  cases h : jsNumberInt value with
  | none => simp
  | some n =>
    by_cases hn : n = 0
    · simp [hn]
    · simp [hn]

/-- One input event keeps the port slot different from the number 0. -/
theorem handleChange_port_ne_zero (name value : String) (s : ConnectionFormState)
    (h : s.formData.port ≠ PortValue.num 0) :
    (ConnectionForm.handleChange name value s).formData.port ≠ PortValue.num 0 := by
  unfold ConnectionForm.handleChange
  by_cases h1 : name = "port"
  · simp only [h1, if_true]
    exact portOfInput_ne_zero value
  · simp only [h1, if_false]
    split_ifs <;> exact h

/-- Along input events the port slot is the empty string or a number other
than 0. -/
theorem foldl_handleChange_port (inputs : List (String × String)) (s : ConnectionFormState)
    (h : s.formData.port ≠ PortValue.num 0) :
    (inputs.foldl (fun s p => ConnectionForm.handleChange p.1 p.2 s) s).formData.port
      ≠ PortValue.num 0 := by
  induction inputs generalizing s with
  | nil => exact h
  | cons p rest ih => exact ih _ (handleChange_port_ne_zero p.1 p.2 s h)

/-- Keys of a conditional one-entry error list. -/
theorem mem_keys_ite (c : Prop) [Decidable c] (k msg x : String) :
    x ∈ (if c then [(k, msg)] else []).map (fun p => p.1) ↔ c ∧ x = k := by
  by_cases h : c <;> simp [h]

/-- The keys of the error object, field by field. -/
theorem newErrors_keys (f : ConnectionFormData) (x : String) :
    x ∈ (ConnectionForm.newErrors f).map (fun p => p.1) ↔
      (isBlank f.connection_name ∧ x = "connection_name")
      ∨ (isBlank f.host ∧ x = "host")
      ∨ (f.port.truthy = false ∧ x = "port")
      ∨ (isBlank f.username ∧ x = "username")
      ∨ (isBlank f.password ∧ x = "password")
      ∨ (isBlank f.database_name ∧ x = "database_name")
      ∨ (isBlank f.schema_name ∧ x = "schema_name") := by
  unfold ConnectionForm.newErrors
  simp only [List.map_append, List.mem_append, mem_keys_ite, Bool.not_eq_true',
    truthyStr_jsTrim_eq_false_iff, or_assoc]

/-- C24: in every form state reached by input events, the error object built
by `validate` has an entry for a field exactly when that field is blank:
trim-empty for the six text fields, the empty string for the port.  `validate`
stores that object and returns true exactly when it has no entry, and
`handleSubmit` issues a create request only when `validate` returned true. -/
theorem connectionForm_errors_iff_blank (inputs : List (String × String))
    (s : ConnectionFormState) :
    (("connection_name" ∈ (ConnectionForm.newErrors
          (ConnectionForm.afterInputs inputs).formData).map (fun p => p.1)
        ↔ isBlank (ConnectionForm.afterInputs inputs).formData.connection_name)
      ∧ ("host" ∈ (ConnectionForm.newErrors
          (ConnectionForm.afterInputs inputs).formData).map (fun p => p.1)
        ↔ isBlank (ConnectionForm.afterInputs inputs).formData.host)
      ∧ ("port" ∈ (ConnectionForm.newErrors
          (ConnectionForm.afterInputs inputs).formData).map (fun p => p.1)
        ↔ (ConnectionForm.afterInputs inputs).formData.port = PortValue.empty)
      ∧ ("username" ∈ (ConnectionForm.newErrors
          (ConnectionForm.afterInputs inputs).formData).map (fun p => p.1)
        ↔ isBlank (ConnectionForm.afterInputs inputs).formData.username)
      ∧ ("password" ∈ (ConnectionForm.newErrors
          (ConnectionForm.afterInputs inputs).formData).map (fun p => p.1)
        ↔ isBlank (ConnectionForm.afterInputs inputs).formData.password)
      ∧ ("database_name" ∈ (ConnectionForm.newErrors
          (ConnectionForm.afterInputs inputs).formData).map (fun p => p.1)
        ↔ isBlank (ConnectionForm.afterInputs inputs).formData.database_name)
      ∧ ("schema_name" ∈ (ConnectionForm.newErrors
          (ConnectionForm.afterInputs inputs).formData).map (fun p => p.1)
        ↔ isBlank (ConnectionForm.afterInputs inputs).formData.schema_name))
    ∧ (∀ x ∈ (ConnectionForm.newErrors s.formData).map (fun p => p.1),
        x ∈ ["connection_name", "host", "port", "username", "password", "database_name",
              "schema_name"])
    ∧ (ConnectionForm.validate s).1.errors = ConnectionForm.newErrors s.formData
    ∧ ((ConnectionForm.validate s).2 = true ↔ ConnectionForm.newErrors s.formData = [])
    ∧ (∀ r ∈ (ConnectionForm.handleSubmit s).requests, (ConnectionForm.validate s).2 = true)
    ∧ ((ConnectionForm.validate s).2 = false → (ConnectionForm.handleSubmit s).requests = []) := by
  have hport : (ConnectionForm.afterInputs inputs).formData.port ≠ PortValue.num 0 :=
    foldl_handleChange_port inputs {} (by decide)
  refine ⟨⟨?_, ?_, ?_, ?_, ?_, ?_, ?_⟩, ?_, rfl, ?_, ?_, ?_⟩
  · rw [newErrors_keys]; simp
  · rw [newErrors_keys]; simp
  · rw [newErrors_keys]
    simp only [String.reduceEq, and_false, false_or, or_false, and_true]
    cases hp : (ConnectionForm.afterInputs inputs).formData.port with
    | empty => simp [PortValue.truthy]
    | num n =>
      have hn : n ≠ 0 := by
        intro h0; rw [hp, h0] at hport; exact hport rfl
      simp [PortValue.truthy, hn]
  · rw [newErrors_keys]; simp
  · rw [newErrors_keys]; simp
  · rw [newErrors_keys]; simp
  · rw [newErrors_keys]; simp
  · intro x hx
    rw [newErrors_keys] at hx
    rcases hx with h | h | h | h | h | h | h <;> simp [h.2]
  · simp [ConnectionForm.validate]
  · intro r hr
    unfold ConnectionForm.handleSubmit at hr
    by_cases hv : (ConnectionForm.validate s).2 = true
    · exact hv
    · simp [hv] at hr
  · intro hv
    simp [ConnectionForm.handleSubmit, hv]

/-- Witness for C24: after a name of spaces and the port text `0` were typed,
the entries for the name and for the port are there and no request is
issued. -/
theorem connectionForm_errors_iff_blank_witness :
    "connection_name" ∈ (ConnectionForm.newErrors
        (ConnectionForm.afterInputs [("connection_name", "  "), ("port", "0")]).formData).map
        (fun p => p.1)
    ∧ (ConnectionForm.handleSubmit
        (ConnectionForm.afterInputs [("connection_name", "  "), ("port", "0")])).requests
      = [] :=
  ⟨((connectionForm_errors_iff_blank [("connection_name", "  "), ("port", "0")]
      (ConnectionForm.afterInputs [("connection_name", "  "), ("port", "0")])).1.1).mpr
      (by decide),
   (connectionForm_errors_iff_blank [("connection_name", "  "), ("port", "0")]
      (ConnectionForm.afterInputs [("connection_name", "  "), ("port", "0")])).2.2.2.2.2
      (by decide)⟩

/-- Un-doubling undoes the doubling of quotes. -/
theorem undoubleQuotes_doubleQuotes (cs : List Char) :
    undoubleQuotes (doubleQuotes cs) = cs := by
  induction cs with
  | nil => rfl
  | cons c rest ih =>
    by_cases h : c = quoteChar
    · simp [doubleQuotes, undoubleQuotes, h, ih]
    · have key : ∀ X, undoubleQuotes (c :: X) = c :: undoubleQuotes X := by
        intro X
        cases X <;> simp [undoubleQuotes, h]
      rw [doubleQuotes]
      simp only [h, if_false]
      rw [key, ih]

/-- Doubling doubles the number of quotes and keeps the other characters. -/
theorem doubleQuotes_count (cs : List Char) :
    (doubleQuotes cs).count quoteChar = 2 * cs.count quoteChar
    ∧ (doubleQuotes cs).filter (fun c => c != quoteChar)
        = cs.filter (fun c => c != quoteChar) := by
  induction cs with
  | nil => exact ⟨rfl, rfl⟩
  | cons c rest ih =>
    by_cases h : c = quoteChar
    · constructor
      · simp [doubleQuotes, h, ih.1]
        omega
      · simp [doubleQuotes, h, ih.2]
    · constructor
      · simp [doubleQuotes, h, ih.1, List.count_cons]
      · simp [doubleQuotes, h, ih.2, List.filter_cons]

/-- Reading a written field gives the cell text back. -/
theorem readCsvField_csvField (value : String) : readCsvField (csvField value) = value := by
  unfold readCsvField csvField
  simp only [List.drop_succ_cons, List.drop_zero, List.dropLast_concat]
  rw [undoubleQuotes_doubleQuotes]

/-- C25: for every non-empty data list and every column list, the exported
text is the header line (the column names joined by commas) followed by one
record per data row, in order, the lines joined by line feeds; a record is
the row's fields joined by commas, one field per column; the field at the
position of a column is the text the row holds for that column between two
double quotes with every double quote of the text doubled and nothing else
changed, the empty quoted field for an undefined cell; and dropping the
enclosing quotes of the field and un-doubling gives the row's text for that
column back. -/
theorem csv_export_quotes_cells (data : List (List (String × String))) (columns : List String)
    (hdata : data ≠ []) :
    DataTable.exportToCSV data columns
      = some ("\n".intercalate
          (",".intercalate columns
            :: data.map (fun row => ",".intercalate (csvRowFields columns row))))
    ∧ (data.map (fun row => ",".intercalate (csvRowFields columns row))).length = data.length
    ∧ (∀ row ∈ data, (csvRowFields columns row).length = columns.length)
    ∧ (∀ (row : List (String × String)) (i : Nat) (col : String), columns[i]? = some col →
        (csvRowFields columns row)[i]? = some (csvField (cellText row col)))
    ∧ (∀ value : String,
        (csvField value).data = quoteChar :: (doubleQuotes value.data ++ [quoteChar])
        ∧ (doubleQuotes value.data).count quoteChar = 2 * value.data.count quoteChar
        ∧ (doubleQuotes value.data).filter (fun c => c != quoteChar)
            = value.data.filter (fun c => c != quoteChar)
        ∧ readCsvField (csvField value) = value)
    ∧ (∀ (row : List (String × String)) (col : String), row.lookup col = none →
        csvField (cellText row col) = ⟨[quoteChar, quoteChar]⟩)
    ∧ (∀ (row : List (String × String)) (col value : String), row.lookup col = some value →
        cellText row col = value)
    ∧ (∀ (row : List (String × String)) (i : Nat) (col value : String),
        columns[i]? = some col → row.lookup col = some value →
        (csvRowFields columns row)[i]?
          = some ⟨quoteChar :: (doubleQuotes value.data ++ [quoteChar])⟩
        ∧ ∀ field, (csvRowFields columns row)[i]? = some field → readCsvField field = value)
    ∧ (∀ (row : List (String × String)) (i : Nat) (col : String),
        columns[i]? = some col → row.lookup col = none →
        (csvRowFields columns row)[i]? = some ⟨[quoteChar, quoteChar]⟩) := by
  refine ⟨?_, ?_, ?_, ?_, ?_, ?_, ?_, ?_, ?_⟩
  · unfold DataTable.exportToCSV
    have hlen : data.length ≠ 0 := by
      intro h; exact hdata (List.length_eq_zero.mp h)
    simp [hlen]
  · simp
  · intro row _
    simp [csvRowFields]
  · intro row i col hcol
    simp [csvRowFields, List.getElem?_map, hcol]
  · intro value
    exact ⟨rfl, (doubleQuotes_count value.data).1, (doubleQuotes_count value.data).2,
      readCsvField_csvField value⟩
  · intro row col h
    simp [cellText, h, csvField, doubleQuotes]
  · intro row col value h
    simp [cellText, h]
  · intro row i col value hcol h
    have key : (csvRowFields columns row)[i]? = some (csvField value) := by
      simp [csvRowFields, List.getElem?_map, hcol, cellText, h]
    refine ⟨key, ?_⟩
    intro field hfield
    rw [key] at hfield
    cases hfield
    exact readCsvField_csvField value
  · intro row i col hcol h
    simp [csvRowFields, List.getElem?_map, hcol, cellText, h, csvField, doubleQuotes]

/-- Witness for C25: one row whose cell holds a comma and a quoted word, and
one column the row does not define. -/
theorem csv_export_quotes_cells_witness :
    DataTable.exportToCSV [[("name", String.mk ['a', ',', quoteChar, 'b', quoteChar])]]
        ["name", "age"]
      = some ("\n".intercalate
          (",".intercalate ["name", "age"]
            :: [[("name", String.mk ['a', ',', quoteChar, 'b', quoteChar])]].map
                (fun row => ",".intercalate (csvRowFields ["name", "age"] row))))
    ∧ readCsvField (csvField (String.mk ['a', ',', quoteChar, 'b', quoteChar]))
      = String.mk ['a', ',', quoteChar, 'b', quoteChar]
    ∧ (csvRowFields ["name", "age"]
          [("name", String.mk ['a', ',', quoteChar, 'b', quoteChar])])[0]?
      = some (String.mk
          [quoteChar, 'a', ',', quoteChar, quoteChar, 'b', quoteChar, quoteChar, quoteChar])
    ∧ (csvRowFields ["name", "age"]
          [("name", String.mk ['a', ',', quoteChar, 'b', quoteChar])])[1]?
      = some (String.mk [quoteChar, quoteChar]) :=
  ⟨(csv_export_quotes_cells [[("name", String.mk ['a', ',', quoteChar, 'b', quoteChar])]]
      ["name", "age"] (List.cons_ne_nil _ _)).1,
   ((csv_export_quotes_cells [[("name", String.mk ['a', ',', quoteChar, 'b', quoteChar])]]
      ["name", "age"] (List.cons_ne_nil _ _)).2.2.2.2.1
      (String.mk ['a', ',', quoteChar, 'b', quoteChar])).2.2.2,
   ((csv_export_quotes_cells [[("name", String.mk ['a', ',', quoteChar, 'b', quoteChar])]]
      ["name", "age"] (List.cons_ne_nil _ _)).2.2.2.2.2.2.2.1
      [("name", String.mk ['a', ',', quoteChar, 'b', quoteChar])] 0 "name"
      (String.mk ['a', ',', quoteChar, 'b', quoteChar]) rfl (by decide)).1,
   (csv_export_quotes_cells [[("name", String.mk ['a', ',', quoteChar, 'b', quoteChar])]]
      ["name", "age"] (List.cons_ne_nil _ _)).2.2.2.2.2.2.2.2
      [("name", String.mk ['a', ',', quoteChar, 'b', quoteChar])] 1 "age" rfl (by decide)⟩

/-- The digit character of a number below ten has that value and is not a
minus sign. -/
theorem digitValue_digitChar (k : Nat) (h : k < 10) :
    digitValue (Nat.digitChar k) = k ∧ Nat.digitChar k ≠ '-' := by
  interval_cases k <;> decide

/-- Value of a digit list with one more digit at the end. -/
theorem digitsValue_append_singleton (l : List Char) (c : Char) :
    digitsValue (l ++ [c]) = digitsValue l * 10 + digitValue c := by
  simp [digitsValue, List.foldl_append]

/-- The digits produced for `n` are put in front of the accumulator, write
`n` and hold no minus sign. -/
theorem toDigitsCore_spec (fuel : Nat) :
    ∀ (n : Nat) (ds : List Char), n < fuel →
      ∃ pre : List Char, Nat.toDigitsCore 10 fuel n ds = pre ++ ds
        ∧ digitsValue pre = n ∧ ∀ c ∈ pre, c ≠ '-' := by
  induction fuel with
  | zero => intro n ds h; omega
  | succ fuel ih =>
    intro n ds h
    have hmod : n % 10 < 10 := Nat.mod_lt n (by decide)
    obtain ⟨hv, hne⟩ := digitValue_digitChar (n % 10) hmod
    by_cases h0 : n / 10 = 0
    · refine ⟨[Nat.digitChar (n % 10)], ?_, ?_, ?_⟩
      · simp [Nat.toDigitsCore, h0]
      · have : n < 10 := by omega
        simp [digitsValue, hv]
        omega
      · intro c hc
        simp at hc
        rw [hc]; exact hne
    · have hlt : n / 10 < fuel := by omega
      obtain ⟨pre, hpre, hval, hall⟩ := ih (n / 10) (Nat.digitChar (n % 10) :: ds) hlt
      refine ⟨pre ++ [Nat.digitChar (n % 10)], ?_, ?_, ?_⟩
      · simp [Nat.toDigitsCore, h0, hpre]
      · rw [digitsValue_append_singleton, hval, hv]
        omega
      · intro c hc
        rcases List.mem_append.mp hc with h1 | h1
        · exact hall c h1
        · simp at h1
          rw [h1]; exact hne

/-- The decimal text of a natural number writes that number and holds no
minus sign. -/
theorem natToString_spec (n : Nat) :
    digitsValue (toString n).data = n ∧ ∀ c ∈ (toString n).data, c ≠ '-' := by
  obtain ⟨pre, hpre, hval, hall⟩ := toDigitsCore_spec (n + 1) n [] (Nat.lt_succ_self n)
  have hd : (toString n).data = Nat.toDigits 10 n := rfl
  rw [hd]
  unfold Nat.toDigits
  rw [hpre, List.append_nil]
  exact ⟨hval, hall⟩

/-- Two natural numbers with the same decimal text are equal. -/
theorem natToString_injective (a b : Nat) (h : toString a = toString b) : a = b := by
  rw [← (natToString_spec a).1, ← (natToString_spec b).1, h]

/-- Two temporary identities are equal only for the same clock reading. -/
theorem tempId_injective (a b : Nat) (h : tempId a = tempId b) : a = b := by
  unfold tempId at h
  simp only [JsId.str.injEq] at h
  have h2 : ("temp-" ++ toString a).data = ("temp-" ++ toString b).data := by rw [h]
  simp only [String.data_append] at h2
  exact natToString_injective a b (String.ext (List.append_cancel_left h2))

/-- C26: for clock readings `t1 ≤ t2` of the two `Date.now()` calls of one
`handleSendMessage`, the identities `temp-t1` and `temp-(t2+1)` are distinct:
the two optimistic messages have different identities (their render keys),
and of the two entries each is kept by the test that removes the other, so
the rollback filter targets two different entries. -/
theorem temp_ids_distinct (clk : Clock) (s : ChatPageState) (h : clk.now1 ≤ clk.now2) :
    tempId clk.now1 ≠ tempId (clk.now2 + 1)
    ∧ (optimisticUserMsg clk s).id ≠ (optimisticAssistantMsg clk s).id
    ∧ optimisticUserMsg clk s ≠ optimisticAssistantMsg clk s
    ∧ [optimisticUserMsg clk s, optimisticAssistantMsg clk s].filter
        (fun msg => msg.id != (optimisticUserMsg clk s).id)
      = [optimisticAssistantMsg clk s]
    ∧ [optimisticUserMsg clk s, optimisticAssistantMsg clk s].filter
        (fun msg => msg.id != (optimisticAssistantMsg clk s).id)
      = [optimisticUserMsg clk s] := by
  have hne : tempId clk.now1 ≠ tempId (clk.now2 + 1) := by
    intro heq
    have := tempId_injective _ _ heq
    omega
  have hu : (optimisticUserMsg clk s).id = tempId clk.now1 := rfl
  have ha : (optimisticAssistantMsg clk s).id = tempId (clk.now2 + 1) := rfl
  refine ⟨hne, ?_, ?_, ?_, ?_⟩
  · rw [hu, ha]; exact hne
  · intro heq
    have : (optimisticUserMsg clk s).id = (optimisticAssistantMsg clk s).id := by rw [heq]
    rw [hu, ha] at this
    exact hne this
  · simp [List.filter_cons, bne_iff_ne, hu, ha, hne.symm]
  · simp [List.filter_cons, bne_iff_ne, hu, ha, hne]

/-- Witness for C26: both clock readings are 1730764800000. -/
theorem temp_ids_distinct_witness :
    tempId 1730764800000 ≠ tempId (1730764800000 + 1) :=
  (temp_ids_distinct ⟨1730764800000, "", 1730764800000, ""⟩ {} (Nat.le_refl _)).1

/-- C27: when the send request succeeds and the follow-up refetch fails, the
message list still is the list before the send followed by both optimistic
entries, the pending assistant placeholder with its temporary identity
included; `sendingMessage` is false again and `isMessageBlocked()` is true,
so the text field takes no input and a submit of the form changes nothing
and issues no request; a later message fetch that delivers a list without
outstanding assistant message lifts the block. -/
theorem refetch_failure_keeps_blocked (clk : Clock) (s : ChatPageState)
    (hb : ¬ isBlank s.messageInput) (ht : truthyId s.selectedChat = true) :
    ∃ o : Outcome,
      sendRefetchFailed clk s = some o
      ∧ o.toasts = [Toast.error "Failed to fetch messages"]
      ∧ o.state.messages
          = s.messages ++ [optimisticUserMsg clk s, optimisticAssistantMsg clk s]
      ∧ (optimisticAssistantMsg clk s).status = "pending"
      ∧ (optimisticAssistantMsg clk s).id = tempId (clk.now2 + 1)
      ∧ o.state.sendingMessage = false
      ∧ isMessageBlocked o.state = true
      ∧ canSend o.state = false
      ∧ (∀ clk2, submitSendForm clk2 o.state = { state := o.state, requests := [] })
      ∧ (∀ text, step o.state (Event.typeMessage text) = o.state)
      ∧ (∀ data : List Message, data.any isOutstanding = false →
          isMessageBlocked (fetchMessages_then data o.state).state = false) := by
  obtain ⟨chatId, hs, hc⟩ := (truthyId_eq_true_iff _).mp ht
  have hacc := handleSendMessage_accept clk s chatId hb hs hc
  have key : sendRefetchFailed clk s
      = some (fetchMessages_catch (handleSendMessage_then
          { selectedChat := chatId, userId := tempId clk.now1,
            assistantId := tempId (clk.now2 + 1) }
          { s with
            sendingMessage := true
            messages := s.messages ++ [optimisticUserMsg clk s, optimisticAssistantMsg clk s]
            messageInput := "" }).state) := by
    unfold sendRefetchFailed
    rw [hacc]
  have hblk : isMessageBlocked (fetchMessages_catch (handleSendMessage_then
          { selectedChat := chatId, userId := tempId clk.now1,
            assistantId := tempId (clk.now2 + 1) }
          { s with
            sendingMessage := true
            messages := s.messages ++ [optimisticUserMsg clk s, optimisticAssistantMsg clk s]
            messageInput := "" }).state).state = true := by
    rw [isMessageBlocked_eq]
    simp [fetchMessages_catch, handleSendMessage_then, fetchMessages, List.any_append,
      isOutstanding, optimisticAssistantMsg]
  refine ⟨_, key, rfl, rfl, rfl, rfl, rfl, hblk, ?_, ?_, ?_, ?_⟩
  · simp [canSend, hblk]
  · intro clk2
    simp [submitSendForm, sendButtonDisabled, hblk]
  · intro text
    simp [step, textFieldDisabled, hblk]
  · intro data hdata
    rw [isMessageBlocked_eq]
    simp [fetchMessages_then, fetchMessages_catch, handleSendMessage_then, fetchMessages, hs,
      truthyId, hc, hdata]

/-- Witness for C27: the example of the specification with a failed
refetch. -/
theorem refetch_failure_keeps_blocked_witness :
    ∃ o : Outcome,
      sendRefetchFailed ⟨5, "", 5, ""⟩
        { selectedChat := some (.num 1), messageInput := "count rows",
          messages := [{ id := .num 7, content := "q", role := "user",
                         status := "completed", created_at := "", message_index := 0 }] }
        = some o
      ∧ isMessageBlocked o.state = true ∧ o.state.sendingMessage = false := by
  obtain ⟨o, h1, _, _, _, _, h6, h7, _⟩ := refetch_failure_keeps_blocked ⟨5, "", 5, ""⟩
    { selectedChat := some (.num 1), messageInput := "count rows",
      messages := [{ id := .num 7, content := "q", role := "user",
                     status := "completed", created_at := "", message_index := 0 }] }
    (by decide) (by decide)
  exact ⟨o, h1, h7, h6⟩

/-- A page is ten consecutive rows of the data, or what is left of them. -/
theorem paginatedData_succ {α : Type} (data : List α) (i : Nat) :
    DataTable.paginatedData data (i + 1) = (data.drop (i * 10)).take 10 := by
  unfold DataTable.paginatedData jsSlice rowsPerPage
  have h1 : (i + 1 - 1) * 10 = i * 10 := by simp
  have h2 : (i + 1) * 10 - i * 10 = 10 := by omega
  rw [h1, h2]

/-- The first `k` pages, one after the other, are the first `10 k` rows. -/
theorem pages_flatten {α : Type} (data : List α) (k : Nat) :
    ((List.range k).map (fun i => DataTable.paginatedData data (i + 1))).flatten
      = data.take (k * 10) := by
  induction k with
  | zero => simp
  | succ k ih =>
    rw [List.range_succ, List.map_append, List.flatten_append, ih]
    simp only [List.map_cons, List.map_nil, List.flatten_cons, List.flatten_nil, List.append_nil]
    rw [paginatedData_succ]
    have : (k + 1) * 10 = k * 10 + 10 := by omega
    rw [this, List.take_add]

/-- C28: with `totalPages` the ceiling of length / 10, every page `p` with
`1 ≤ p ≤ totalPages` holds between 1 and 10 rows; the pages 1 to
`totalPages`, one after the other, are the data list exactly; and
`handleNextPage` and `handlePrevPage` keep `1 ≤ currentPage ≤ totalPages`
whenever it held before. -/
theorem pagination_partitions {α : Type} (data : List α) :
    (∀ p, 1 ≤ p → p ≤ DataTable.totalPages data →
        1 ≤ (DataTable.paginatedData data p).length
        ∧ (DataTable.paginatedData data p).length ≤ 10)
    ∧ ((List.range (DataTable.totalPages data)).map
        (fun i => DataTable.paginatedData data (i + 1))).flatten = data
    ∧ (DataTable.totalPages data * 10 < data.length + 10
        ∧ data.length ≤ DataTable.totalPages data * 10)
    ∧ (∀ currentPage, 1 ≤ currentPage → currentPage ≤ DataTable.totalPages data →
        1 ≤ DataTable.handleNextPage data currentPage
        ∧ DataTable.handleNextPage data currentPage ≤ DataTable.totalPages data
        ∧ 1 ≤ DataTable.handlePrevPage currentPage
        ∧ DataTable.handlePrevPage currentPage ≤ DataTable.totalPages data) := by
  have htot : DataTable.totalPages data = (data.length + 9) / 10 := rfl
  have hceil : DataTable.totalPages data * 10 < data.length + 10
      ∧ data.length ≤ DataTable.totalPages data * 10 := by
    rw [htot]; omega
  refine ⟨?_, ?_, hceil, ?_⟩
  · intro p h1 hp
    obtain ⟨i, rfl⟩ : ∃ i, p = i + 1 := ⟨p - 1, by omega⟩
    rw [paginatedData_succ, List.length_take, List.length_drop]
    rw [htot] at hp
    omega
  · rw [pages_flatten]
    exact List.take_of_length_le hceil.2
  · intro currentPage h1 h2
    unfold DataTable.handleNextPage DataTable.handlePrevPage
    refine ⟨?_, ?_, ?_, ?_⟩
    · split_ifs <;> omega
    · split_ifs <;> omega
    · split_ifs <;> omega
    · split_ifs <;> omega

/-- Witness for C28: on 23 rows, the third and last page holds 3 rows. -/
theorem pagination_partitions_witness :
    1 ≤ (DataTable.paginatedData (List.range 23) 3).length
    ∧ (DataTable.paginatedData (List.range 23) 3).length ≤ 10 :=
  (pagination_partitions (List.range 23)).1 3 (by decide) (by decide)

/-- Two texts that hold no minus sign, each followed by a minus sign and a
rest, are equal as wholes only when the texts and the rests are equal. -/
theorem split_at_minus (a b x y : List Char)
    (ha : ∀ c ∈ a, c ≠ '-') (hb : ∀ c ∈ b, c ≠ '-')
    (h : a ++ '-' :: x = b ++ '-' :: y) : a = b ∧ x = y := by
  induction a generalizing b with
  | nil =>
    cases b with
    | nil => simpa using h
    | cons d b2 =>
      simp only [List.nil_append, List.cons_append, List.cons.injEq] at h
      exact absurd h.1.symm (hb d (List.mem_cons_self d b2))
  | cons c a2 ih =>
    cases b with
    | nil =>
      simp only [List.nil_append, List.cons_append, List.cons.injEq] at h
      exact absurd h.1 (ha c (List.mem_cons_self c a2))
    | cons d b2 =>
      simp only [List.cons_append, List.cons.injEq] at h
      obtain ⟨h1, h2⟩ := ih b2 (fun e he => ha e (List.mem_cons_of_mem c he))
        (fun e he => hb e (List.mem_cons_of_mem d he)) h.2
      exact ⟨by rw [h.1, h1], h2⟩

/-- The characters of a column-cache key. -/
theorem tableKey_data (connectionId : JsId) (tableName : String) :
    (tableKey connectionId tableName).data
      = connectionId.toKey.data ++ '-' :: tableName.data := by
  simp [tableKey, String.data_append]

/-- The key text of an identifier that is a natural number. -/
theorem toKey_nat (n : Nat) : (JsId.num (n : Int)).toKey = toString n := rfl

/-- C29, as stated, fails: the connection `a` with the table `b-c` and the
connection `a-b` with the table `c` get the same key `a-b-c`; with the
columns of the second pair cached and its table expanded, a click on the
table of the first pair is taken for a collapse of the other table and
issues no request. -/
theorem tableKey_collision :
    tableKey (.str "a") "b-c" = tableKey (.str "a-b") "c"
    ∧ (JsId.str "a", "b-c") ≠ (JsId.str "a-b", "c")
    ∧ (ConnectionsList.toggleTable (.str "a") "b-c"
        (ConnectionsList.toggleTable_then (.str "a-b") "c" ["x"]
          (ConnectionsList.toggleTable (.str "a-b") "c" {}).state).state).requests = []
    ∧ (ConnectionsList.toggleTable (.str "a") "b-c"
        (ConnectionsList.toggleTable_then (.str "a-b") "c" ["x"]
          (ConnectionsList.toggleTable (.str "a-b") "c" {}).state).state).state.expandedTable
      = none := by
  decide

/-- C29, amended: for connection ids whose text holds no `-`, equal keys
imply that the ids have the same text and that the table names are equal;
for ids that are natural numbers equal keys imply equal ids and equal table
names, so the columns cached for one pair are never read for another pair
and the expanded marker of one pair is never the key of another. -/
theorem tableKey_injective_without_minus (c1 c2 : JsId) (t1 t2 : String) (n1 n2 : Nat)
    (data : List String) (s : ConnectionsListState) :
    ((∀ ch ∈ c1.toKey.data, ch ≠ '-') → (∀ ch ∈ c2.toKey.data, ch ≠ '-') →
        tableKey c1 t1 = tableKey c2 t2 → c1.toKey = c2.toKey ∧ t1 = t2)
    ∧ (tableKey (.num n1) t1 = tableKey (.num n2) t2 → n1 = n2 ∧ t1 = t2)
    ∧ ((n1, t1) ≠ (n2, t2) →
        (ConnectionsList.toggleTable_then (.num n1) t1 data s).state.columns.lookup
            (tableKey (.num n2) t2)
          = s.columns.lookup (tableKey (.num n2) t2)
        ∧ some (tableKey (.num n1) t1) ≠ some (tableKey (.num n2) t2)) := by
  have hgen : ∀ (d1 d2 : JsId), (∀ ch ∈ d1.toKey.data, ch ≠ '-') →
      (∀ ch ∈ d2.toKey.data, ch ≠ '-') →
      tableKey d1 t1 = tableKey d2 t2 → d1.toKey = d2.toKey ∧ t1 = t2 := by
    intro d1 d2 h1 h2 hk
    have hd : (tableKey d1 t1).data = (tableKey d2 t2).data := by rw [hk]
    rw [tableKey_data, tableKey_data] at hd
    obtain ⟨ha, hb⟩ := split_at_minus _ _ _ _ h1 h2 hd
    exact ⟨String.ext ha, String.ext hb⟩
  have hnat : tableKey (.num n1) t1 = tableKey (.num n2) t2 → n1 = n2 ∧ t1 = t2 := by
    intro hk
    have h1 : ∀ ch ∈ (JsId.num (n1 : Int)).toKey.data, ch ≠ '-' := by
      rw [toKey_nat]; exact (natToString_spec n1).2
    have h2 : ∀ ch ∈ (JsId.num (n2 : Int)).toKey.data, ch ≠ '-' := by
      rw [toKey_nat]; exact (natToString_spec n2).2
    obtain ⟨ha, hb⟩ := hgen _ _ h1 h2 hk
    rw [toKey_nat, toKey_nat] at ha
    exact ⟨natToString_injective n1 n2 ha, hb⟩
  refine ⟨hgen c1 c2, hnat, ?_⟩
  intro hne
  have hkey : tableKey (.num n1) t1 ≠ tableKey (.num n2) t2 := by
    intro hk
    obtain ⟨ha, hb⟩ := hnat hk
    exact hne (by rw [ha, hb])
  constructor
  · simp only [ConnectionsList.toggleTable_then, List.lookup]
    have hbeq : (tableKey (.num n2) t2 == tableKey (.num n1) t1) = false := by
      simp [beq_eq_false_iff_ne, Ne.symm hkey]
    rw [hbeq]
  · intro h
    exact hkey (Option.some.inj h)

/-- Witness for C29 (amended): connections 1 and 12 with the tables `2-x`
and `x` have different keys. -/
theorem tableKey_injective_without_minus_witness :
    (ConnectionsList.toggleTable_then (.num (1 : Nat)) "2-x" ["a"] {}).state.columns.lookup
        (tableKey (.num (12 : Nat)) "x")
      = ({} : ConnectionsListState).columns.lookup (tableKey (.num (12 : Nat)) "x") :=
  ((tableKey_injective_without_minus (.num 1) (.num 12) "2-x" "x" 1 12 ["a"] {}).2.2
    (by decide)).1

/-- Membership test of `includes` read as list membership. -/
theorem contains_jsId (l : List JsId) (c : JsId) : l.contains c = true ↔ c ∈ l := by
  simp

/-- C30: for every duplicate-free selection and every id, `toggleConnection`
yields a duplicate-free list that contains the id exactly when the selection
did not; the other members are the same and in the same order; toggling the
id twice yields a list with the members of the selection, and the selection
itself when the id was not in it. -/
theorem toggleConnection_toggles (selected : List JsId) (c : JsId) (hnd : selected.Nodup) :
    (ConnectionSelector.toggleConnection c selected).Nodup
    ∧ (c ∈ ConnectionSelector.toggleConnection c selected ↔ c ∉ selected)
    ∧ (∀ x, x ≠ c → (x ∈ ConnectionSelector.toggleConnection c selected ↔ x ∈ selected))
    ∧ (ConnectionSelector.toggleConnection c selected).filter (fun id => id != c)
        = selected.filter (fun id => id != c)
    ∧ (∀ x, x ∈ ConnectionSelector.toggleConnection c
          (ConnectionSelector.toggleConnection c selected) ↔ x ∈ selected)
    ∧ (c ∉ selected →
        ConnectionSelector.toggleConnection c (ConnectionSelector.toggleConnection c selected)
          = selected) := by
  have hfil : ∀ l : List JsId, c ∉ l.filter (fun id => id != c) := by
    intro l hmem
    have := (List.mem_filter.mp hmem).2
    simp at this
  have hself : ∀ l : List JsId, c ∉ l → l.filter (fun id => id != c) = l := by
    intro l hl
    apply List.filter_eq_self.mpr
    intro a ha
    have : a ≠ c := fun h => hl (h ▸ ha)
    simp [bne_iff_ne, this]
  by_cases hc : c ∈ selected
  · have h1 : ConnectionSelector.toggleConnection c selected
        = selected.filter (fun id => id != c) := by
      simp [ConnectionSelector.toggleConnection, hc]
    have h2 : ConnectionSelector.toggleConnection c (selected.filter (fun id => id != c))
        = selected.filter (fun id => id != c) ++ [c] := by
      have hn := hfil selected
      unfold ConnectionSelector.toggleConnection
      have hcont : (selected.filter (fun id => id != c)).contains c = false := by
        rw [Bool.eq_false_iff]
        intro h
        exact hn ((contains_jsId _ _).mp h)
      simp only [hcont, Bool.false_eq_true, if_false]
    rw [h1, h2]
    refine ⟨hnd.filter _, ?_, ?_, ?_, ?_, ?_⟩
    · simp [hc]
    · intro x hx
      simp [List.mem_filter, bne_iff_ne, hx]
    · simp [List.filter_filter]
    · intro x
      by_cases hx : x = c
      · simp [hx, hc]
      · simp [List.mem_filter, bne_iff_ne, hx]
    · intro hnot
      exact absurd hc hnot
  · have h1 : ConnectionSelector.toggleConnection c selected = selected ++ [c] := by
      simp [ConnectionSelector.toggleConnection, hc]
    have h2 : ConnectionSelector.toggleConnection c (selected ++ [c]) = selected := by
      simp [ConnectionSelector.toggleConnection, List.filter_append, hself selected hc]
    rw [h1, h2]
    refine ⟨?_, ?_, ?_, ?_, ?_, ?_⟩
    · rw [List.nodup_append]
      refine ⟨hnd, List.nodup_singleton c, ?_⟩
      intro a ha hb
      simp at hb
      exact hc (hb ▸ ha)
    · simp [hc]
    · intro x hx
      simp [hx]
    · simp [List.filter_append]
    · intro x
      exact Iff.rfl
    · intro _
      rfl

/-- Witness for C30: toggling connection 2 in the selection 1, 2, 3. -/
theorem toggleConnection_toggles_witness :
    (ConnectionSelector.toggleConnection (.num 2) [.num 1, .num 2, .num 3]).Nodup
    ∧ ∀ x, x ∈ ConnectionSelector.toggleConnection (.num 2)
          (ConnectionSelector.toggleConnection (.num 2) [.num 1, .num 2, .num 3])
        ↔ x ∈ [JsId.num 1, JsId.num 2, JsId.num 3] :=
  ⟨(toggleConnection_toggles [.num 1, .num 2, .num 3] (.num 2) (by decide)).1,
   (toggleConnection_toggles [.num 1, .num 2, .num 3] (.num 2) (by decide)).2.2.2.2.1⟩

end AgStack
